import Mathlib

/-!
# XRandR display-device enumeration (dlls/winex11.drv/xrandr.c)

A shallow embedding of the XRandR 1.4 handlers of `xrandr.c`.

* X resource ids (`RROutput`, `RRCrtc`, `RRMode`, `RRProvider`) are natural
  numbers; `0` is `None`.
* A pointer returned by an Xlib query is an `Option`; `none` is `NULL`.
* The X server is a record of answers (`Server`): one field per Xlib query the
  source issues.  The `resources` argument of `XRRGetOutputInfo` and
  `XRRGetCrtcInfo` does not select the answer, so it is not a parameter.
* A `BOOL` function with out-parameters returns an `Option`: `none` is the
  `FALSE` return, `some v` is `TRUE` with the out-parameters set to `v`.
* C arrays with a count are lists; `n...` fields are the list lengths.
* CRTC geometry travels on the RandR wire as INT16 / CARD16, so the 32-bit sums
  `x + width` of the source cannot wrap; geometry is kept in `Int` / `Nat`.
  `get_frequency` works on full 32-bit values and wraps explicitly.
-/

namespace XRandR

/-! ## Data model -/

/-- Win32 `RECT` (wine `windef.h`). -/
structure RECT where
  left : Int
  top : Int
  right : Int
  bottom : Int
deriving DecidableEq, Repr

/-- Xlib `XRRModeInfo`, the fields the source reads. -/
structure XRRModeInfo where
  id : Nat
  width : Nat
  height : Nat
  dotClock : Nat
  hTotal : Nat
  vTotal : Nat
  modeFlags : Nat
deriving DecidableEq, Repr

/-- Xlib `XRRCrtcInfo`; `outputs.length` is `noutput`, `mode = 0` is `None`. -/
structure XRRCrtcInfo where
  x : Int
  y : Int
  width : Nat
  height : Nat
  mode : Nat
  rotation : Nat
  outputs : List Nat
deriving DecidableEq, Repr

/-- Xlib `XRROutputInfo`; `crtc = 0` is no CRTC, `crtcs` are the candidate
CRTCs (`ncrtc`), `modes` the supported modes (`nmode`). -/
structure XRROutputInfo where
  crtc : Nat
  connection : Nat
  crtcs : List Nat
  modes : List Nat
deriving DecidableEq, Repr

/-- Xlib `XRRProviderInfo`. -/
structure XRRProviderInfo where
  crtcs : List Nat
  outputs : List Nat
  name : String
deriving DecidableEq, Repr

/-- Xlib `XRRScreenResources`. -/
structure XRRScreenResources where
  crtcs : List Nat
  outputs : List Nat
  modes : List XRRModeInfo
deriving DecidableEq, Repr

/-- Arguments of one `XRRSetCrtcConfig` request. -/
structure CrtcConfig where
  crtc : Nat
  x : Int
  y : Int
  mode : Nat
  rotation : Nat
  outputs : List Nat
deriving DecidableEq, Repr

/-- The answers of the X server to the queries issued by the source. -/
structure Server where
  /-- Answer of `XRRGetScreenResourcesCurrent`. -/
  getScreenResourcesCurrent : Option XRRScreenResources
  /-- Answer of `XRRGetScreenResources`. -/
  getScreenResources : Option XRRScreenResources
  /-- Answer of `XRRGetOutputPrimary`. -/
  getOutputPrimary : Nat
  /-- Answer of `XRRGetOutputInfo`. -/
  getOutputInfo : Nat → Option XRROutputInfo
  /-- Answer of `XRRGetCrtcInfo`. -/
  getCrtcInfo : Nat → Option XRRCrtcInfo
  /-- Answer of `XRRGetProviderResources`: the provider ids. -/
  getProviderResources : Option (List Nat)
  /-- Answer of `XRRGetProviderInfo`. -/
  getProviderInfo : Nat → Option XRRProviderInfo
  /-- Answer of `XRRGetScreenSizeRange`: minimum width and height. -/
  minWidth : Int
  minHeight : Int
  /-- Whether the server accepts an `XRRSetCrtcConfig` request. -/
  acceptsCrtcConfig : CrtcConfig → Bool
  /-- Values of the Xlib macros `DisplayWidth`, `DisplayHeight`, `DisplayWidthMM`
  and `DisplayHeightMM` for the default screen. -/
  displayWidth : Int
  displayHeight : Int
  displayWidthMM : Int
  displayHeightMM : Int
  /-- Size of the screen in pixels and millimetres, as `XRRSetScreenSize` sets it. -/
  screenWidth : Int
  screenHeight : Int
  screenWidthMM : Int
  screenHeightMM : Int

/-- Result of the Vulkan query for one provider (device UUID, ids, name). -/
structure VulkanProperties where
  deviceUUID : Nat
  vendorID : Nat
  deviceID : Nat
  deviceName : String
deriving DecidableEq, Repr

/-- The collaborators of `xrandr.c` that live outside the file. -/
structure Env where
  /-- Function `get_work_area` of x11drv. -/
  get_work_area : RECT → RECT
  /-- Result of `fs_hack_enabled`. -/
  fs_hack_enabled : Bool
  /-- Result of `fs_hack_current_mode`: a `POINT` (x, y). -/
  fs_hack_current_mode : Int × Int
  /-- Function `fs_hack_real_to_user`, as a function on the point. -/
  fs_hack_real_to_user : Int × Int → Int × Int
  /-- The `depths` table of x11drv; `DEPTH_COUNT` is its length. -/
  depths : List Nat
  /-- Value of `screen_bpp`. -/
  screen_bpp : Nat
  /-- First successful Vulkan binding of a provider, if any. -/
  vulkan : XRRProviderInfo → Option VulkanProperties

/-- Structure `x11drv_gpu` of x11drv.h. -/
structure x11drv_gpu where
  id : Nat
  name : String
  vendor_id : Nat
  device_id : Nat
  vulkan_uuid : Nat
deriving DecidableEq, Repr

/-- Structure `x11drv_adapter` of x11drv.h. -/
structure x11drv_adapter where
  id : Nat
  state_flags : Nat
deriving DecidableEq, Repr

/-- Structure `x11drv_monitor` of x11drv.h. -/
structure x11drv_monitor where
  name : String
  rc_monitor : RECT
  rc_work : RECT
  state_flags : Nat
deriving DecidableEq, Repr

/-- Structure `DEVMODEW` with the fields the source writes, followed by the `RRMode`
stored behind the structure (`rrmode`). -/
structure DEVMODEW where
  dmSize : Nat
  dmDriverExtra : Nat
  dmFields : Nat
  dmPositionX : Int
  dmPositionY : Int
  dmDisplayOrientation : Nat
  dmBitsPerPel : Nat
  dmPelsWidth : Nat
  dmPelsHeight : Nat
  dmDisplayFlags : Nat
  dmDisplayFrequency : Nat
  rrmode : Nat
deriving DecidableEq, Repr

/-! ## Constants of the X11 and Win32 headers -/

/-- Value of `RR_Connected` in X11/extensions/randr.h. -/
def RR_Connected : Nat := 0
/-- Value of `RR_Disconnected` in X11/extensions/randr.h. -/
def RR_Disconnected : Nat := 1
/-- Value of `RR_UnknownConnection` in X11/extensions/randr.h. -/
def RR_UnknownConnection : Nat := 2
/-- Value of `RR_Rotate_0` in X11/extensions/randr.h. -/
def RR_Rotate_0 : Nat := 1
/-- Value of `RR_Interlace` in X11/extensions/randr.h. -/
def RR_Interlace : Nat := 0x10
/-- Value of `RR_DoubleScan` in X11/extensions/randr.h. -/
def RR_DoubleScan : Nat := 0x20
/-- Value of `DISPLAY_DEVICE_ATTACHED_TO_DESKTOP` in wingdi.h. -/
def DISPLAY_DEVICE_ATTACHED_TO_DESKTOP : Nat := 0x1
/-- Value of `DISPLAY_DEVICE_PRIMARY_DEVICE` in wingdi.h. -/
def DISPLAY_DEVICE_PRIMARY_DEVICE : Nat := 0x4
/-- Value of `DISPLAY_DEVICE_ACTIVE` in wingdi.h. -/
def DISPLAY_DEVICE_ACTIVE : Nat := 0x1
/-- Value of `DISPLAY_DEVICE_ATTACHED` in wingdi.h. -/
def DISPLAY_DEVICE_ATTACHED : Nat := 0x2
/-- Value of `DM_POSITION` in wingdi.h. -/
def DM_POSITION : Nat := 0x20
/-- Value of `DM_DISPLAYORIENTATION` in wingdi.h. -/
def DM_DISPLAYORIENTATION : Nat := 0x80
/-- Value of `DM_BITSPERPEL` in wingdi.h. -/
def DM_BITSPERPEL : Nat := 0x40000
/-- Value of `DM_PELSWIDTH` in wingdi.h. -/
def DM_PELSWIDTH : Nat := 0x80000
/-- Value of `DM_PELSHEIGHT` in wingdi.h. -/
def DM_PELSHEIGHT : Nat := 0x100000
/-- Value of `DM_DISPLAYFLAGS` in wingdi.h. -/
def DM_DISPLAYFLAGS : Nat := 0x200000
/-- Value of `DM_DISPLAYFREQUENCY` in wingdi.h. -/
def DM_DISPLAYFREQUENCY : Nat := 0x400000
/-- Value of `DMDO_DEFAULT` in wingdi.h. -/
def DMDO_DEFAULT : Nat := 0
/-- Value of `DISP_CHANGE_SUCCESSFUL` in winuser.h. -/
def DISP_CHANGE_SUCCESSFUL : Int := 0
/-- Value of `DISP_CHANGE_FAILED` in winuser.h. -/
def DISP_CHANGE_FAILED : Int := -1
/-- The `sizeof(RRMode)` of the source: an `unsigned long`. -/
def sizeof_RRMode : Nat := 8

/-! ## Rectangle helpers of user32 -/

/-- Modelled from the spec: `SetRect` of user32 is not part of the file; the
primary rectangle is "(x, y, x+w, y+h)", the four values as given. -/
def SetRect (left top right bottom : Int) : RECT :=
  { left := left, top := top, right := right, bottom := bottom }

/-- Modelled from the spec: `IsRectEmpty` of user32 is not part of the file;
a rectangle is empty when it has no positive width or no positive height. -/
def IsRectEmpty (r : RECT) : Bool :=
  decide (r.left ≥ r.right) || decide (r.top ≥ r.bottom)

/-- Modelled from the spec: `OffsetRect` of user32 is not part of the file;
it "translates" the rectangle by (dx, dy). -/
def OffsetRect (r : RECT) (dx dy : Int) : RECT :=
  { left := r.left + dx, top := r.top + dy, right := r.right + dx, bottom := r.bottom + dy }

/-- The zero rectangle of `RECT r = {0}` and of zeroed heap memory. -/
def zeroRect : RECT := { left := 0, top := 0, right := 0, bottom := 0 }

/-! ## Screen resources and the primary rectangle -/

/-- Source `xrandr_get_screen_resources`: the cached resources, or the probed
ones when the cached answer has no CRTC. -/
def xrandr_get_screen_resources (s : Server) : Option XRRScreenResources :=
  match s.getScreenResourcesCurrent with
  | some resources =>
    if resources.crtcs.length = 0 then s.getScreenResources else some resources
  | none => none

/-- The `fallback:` loop of `get_primary_rect` over `resources->crtcs`; the
result is the pair (primary_rect, first_rect) at loop exit. -/
def get_primary_rect_loop (s : Server) : List Nat → RECT → RECT × RECT
  | [], first_rect => (zeroRect, first_rect)
  | crtc :: rest, first_rect =>
    match s.getCrtcInfo crtc with
    | none => get_primary_rect_loop s rest first_rect
    | some crtc_info =>
      if crtc_info.mode = 0 then get_primary_rect_loop s rest first_rect
      else if crtc_info.x = 0 ∧ crtc_info.y = 0 then
        (SetRect 0 0 crtc_info.width crtc_info.height, first_rect)
      else
        get_primary_rect_loop s rest
          (if IsRectEmpty first_rect then
            SetRect crtc_info.x crtc_info.y (crtc_info.x + crtc_info.width)
              (crtc_info.y + crtc_info.height)
           else first_rect)

/-- The `fallback:` part of `get_primary_rect`. -/
def get_primary_rect_fallback (s : Server) (resources : XRRScreenResources) : RECT :=
  let r := get_primary_rect_loop s resources.crtcs zeroRect
  if IsRectEmpty r.1 then r.2 else r.1

/-- Source `get_primary_rect`. -/
def get_primary_rect (s : Server) (resources : XRRScreenResources) : RECT :=
  if s.getOutputPrimary = 0 then get_primary_rect_fallback s resources
  else
    match s.getOutputInfo s.getOutputPrimary with
    | none => get_primary_rect_fallback s resources
    | some output_info =>
      if output_info.connection ≠ RR_Connected ∨ output_info.crtc = 0 then
        get_primary_rect_fallback s resources
      else
        match s.getCrtcInfo output_info.crtc with
        | none => get_primary_rect_fallback s resources
        | some crtc_info =>
          if crtc_info.mode = 0 then get_primary_rect_fallback s resources
          else
            SetRect crtc_info.x crtc_info.y (crtc_info.x + crtc_info.width)
              (crtc_info.y + crtc_info.height)

/-- Source `is_crtc_primary`; the CRTC pointer may be `NULL`. -/
def is_crtc_primary (primary : RECT) (crtc : Option XRRCrtcInfo) : Bool :=
  match crtc with
  | none => false
  | some c =>
    decide (c.mode ≠ 0) && decide (c.x = primary.left) && decide (c.y = primary.top) &&
      decide (c.x + c.width = primary.right) && decide (c.y + c.height = primary.bottom)

/-! ## GPU enumeration -/

/-- Exchange of `a[0]` and `a[p]` through a temporary, as the source does for
the primary GPU, adapter and monitor. -/
def swapFirst {α : Type} (l : List α) (p : Nat) : List α :=
  match l[0]?, l[p]? with
  | some a, some b => (l.set 0 b).set p a
  | _, _ => l

/-- Zeroed `struct x11drv_gpu`, as `heap_calloc` hands it out. -/
def zeroGpu : x11drv_gpu :=
  { id := 0, name := "", vendor_id := 0, device_id := 0, vulkan_uuid := 0 }

/-- Source `get_gpu_properties_from_vulkan`.  The search over Vulkan devices
and provider outputs is the collaborator `Env.vulkan`, which yields the
properties of the first successful binding; the function fills the GPU from them
and reports whether there was one. -/
def get_gpu_properties_from_vulkan (env : Env) (gpu : x11drv_gpu)
    (provider_info : XRRProviderInfo) : Bool × x11drv_gpu :=
  match env.vulkan provider_info with
  | none => (false, gpu)
  | some props =>
    let gpu1 := { gpu with vulkan_uuid := props.deviceUUID }
    let gpu2 :=
      if props.vendorID < 0x10000 then
        { gpu1 with vendor_id := props.vendorID, device_id := props.deviceID }
      else gpu1
    (true, { gpu2 with name := props.deviceName })

/-- The "Find primary provider" loop of `xrandr14_get_gpus2` over the CRTCs of
one provider: whether it reaches `primary_provider = i`. -/
def find_primary_crtc (s : Server) (primary_rect : RECT) : List Nat → Bool
  | [] => false
  | crtc :: rest =>
    match s.getCrtcInfo crtc with
    | none => find_primary_crtc s primary_rect rest
    | some crtc_info =>
      if is_crtc_primary primary_rect (some crtc_info) then true
      else find_primary_crtc s primary_rect rest

/-- The provider loop of `xrandr14_get_gpus2`: remaining providers, index `i`,
`primary_provider`, and the GPUs filled so far. -/
def get_gpus2_loop (s : Server) (env : Env) (get_properties : Bool) (primary_rect : RECT) :
    List Nat → Nat → Int → List x11drv_gpu → Option (List x11drv_gpu × Int)
  | [], _, primary_provider, gpus => some (gpus, primary_provider)
  | provider :: rest, i, primary_provider, gpus =>
    match s.getProviderInfo provider with
    | none => none
    | some provider_info =>
      let primary_provider1 : Int :=
        if primary_provider = -1 ∧ find_primary_crtc s primary_rect provider_info.crtcs = true
        then (i : Int) else primary_provider
      let gpu0 : x11drv_gpu := { zeroGpu with id := provider }
      let gpu : x11drv_gpu :=
        if get_properties then
          let r := get_gpu_properties_from_vulkan env gpu0 provider_info
          if r.1 then r.2 else { r.2 with name := provider_info.name }
        else gpu0
      get_gpus2_loop s env get_properties primary_rect rest (i + 1) primary_provider1
        (gpus ++ [gpu])

/-- Source `xrandr14_get_gpus2`. -/
def xrandr14_get_gpus2 (s : Server) (env : Env) (get_properties : Bool) :
    Option (List x11drv_gpu) :=
  match xrandr_get_screen_resources s with
  | none => none
  | some screen_resources =>
    match s.getProviderResources with
    | none => none
    | some providers =>
      if providers.length = 0 then some [{ zeroGpu with name := "Wine Adapter" }]
      else
        match get_gpus2_loop s env get_properties (get_primary_rect s screen_resources)
            providers 0 (-1) [] with
        | none => none
        | some (gpus, primary_provider) =>
          some (if primary_provider > 0 then swapFirst gpus primary_provider.toNat else gpus)

/-! ## Adapter enumeration -/

/-- The replica search of `xrandr14_get_adapters` over `screen_resources->outputs`:
whether the loop sets `mirrored = TRUE` for output `output` driven by `crtc_info`. -/
def find_mirror_primary (s : Server) (crtc_info : XRRCrtcInfo) (output : Nat) :
    List Nat → Bool
  | [] => false
  | enum_output :: rest =>
    match s.getOutputInfo enum_output with
    | none => find_mirror_primary s crtc_info output rest
    | some enum_output_info =>
      if enum_output_info.connection ≠ RR_Connected ∨ enum_output_info.crtc = 0 then
        find_mirror_primary s crtc_info output rest
      else
        match s.getCrtcInfo enum_output_info.crtc with
        | none => find_mirror_primary s crtc_info output rest
        | some enum_crtc_info =>
          if crtc_info.x = enum_crtc_info.x ∧ crtc_info.y = enum_crtc_info.y ∧
              crtc_info.width = enum_crtc_info.width ∧
              crtc_info.height = enum_crtc_info.height ∧ output > enum_output then true
          else find_mirror_primary s crtc_info output rest

/-- The output loop of `xrandr14_get_adapters`: remaining outputs, the adapters
written so far (`adapter_count` is their number) and `primary_adapter`.
`crtc_info` is `NULL` at the top of every pass.  The list keeps every adapter
the loop writes; the source sizes the array by `crtc_count` and does not compare
`adapter_count` with it. -/
def get_adapters_loop (s : Server) (screen_resources : XRRScreenResources)
    (primary_rect : RECT) :
    List Nat → List x11drv_adapter → Nat → Option (List x11drv_adapter × Nat)
  | [], adapters, primary_adapter => some (adapters, primary_adapter)
  | output :: rest, adapters, primary_adapter =>
    match s.getOutputInfo output with
    | none => none
    | some output_info =>
      if output_info.connection ≠ RR_Connected then
        get_adapters_loop s screen_resources primary_rect rest adapters primary_adapter
      else if output_info.crtc ≠ 0 ∧ s.getCrtcInfo output_info.crtc = none then none
      else
        let crtc_info : Option XRRCrtcInfo :=
          if output_info.crtc ≠ 0 then s.getCrtcInfo output_info.crtc else none
        let detached : Bool :=
          match crtc_info with
          | none => true
          | some c => decide (c.mode = 0)
        let mirrored : Bool :=
          match crtc_info with
          | none => false
          | some c =>
            if detached then false
            else find_mirror_primary s c output screen_resources.outputs
        if !mirrored || detached then
          let a0 : x11drv_adapter := { id := output, state_flags := 0 }
          let a1 : x11drv_adapter :=
            if !detached then
              { a0 with state_flags := a0.state_flags ||| DISPLAY_DEVICE_ATTACHED_TO_DESKTOP }
            else a0
          if is_crtc_primary primary_rect crtc_info then
            get_adapters_loop s screen_resources primary_rect rest
              (adapters ++
                [{ a1 with state_flags := a1.state_flags ||| DISPLAY_DEVICE_PRIMARY_DEVICE }])
              adapters.length
          else
            get_adapters_loop s screen_resources primary_rect rest (adapters ++ [a1])
              primary_adapter
        else
          get_adapters_loop s screen_resources primary_rect rest adapters primary_adapter

/-- The output list `xrandr14_get_adapters` walks: the outputs of provider
`gpu_id`, or the screen-wide list for the fake provider id 0; `none` when the
provider info is not available. -/
def enumerated_outputs (s : Server) (screen_resources : XRRScreenResources) (gpu_id : Nat) :
    Option (List Nat) :=
  if gpu_id ≠ 0 then
    match s.getProviderInfo gpu_id with
    | none => none
    | some provider_info => some provider_info.outputs
  else some screen_resources.outputs

/-- Source `xrandr14_get_adapters`. -/
def xrandr14_get_adapters (s : Server) (gpu_id : Nat) : Option (List x11drv_adapter) :=
  match xrandr_get_screen_resources s with
  | none => none
  | some screen_resources =>
    match enumerated_outputs s screen_resources gpu_id with
    | none => none
    | some outputs =>
      match get_adapters_loop s screen_resources (get_primary_rect s screen_resources)
          outputs [] 0 with
      | none => none
      | some (adapters, primary_adapter) =>
        some (if primary_adapter ≠ 0 then swapFirst adapters primary_adapter else adapters)

/-! ## Vocabulary of the statements about adapters -/

/-- Test of one bit of a `state_flags` word: `flags & bit` is non-zero. -/
def has_flag (flags bit : Nat) : Bool := (flags &&& bit) != 0

/-- The rectangle (x, y, x + width, y + height) of a CRTC. -/
def crtc_rect (c : XRRCrtcInfo) : RECT :=
  SetRect c.x c.y (c.x + c.width) (c.y + c.height)

/-- The CRTC the adapter and monitor code holds for an output: the answer of
`XRRGetCrtcInfo` when the output has a CRTC, `NULL` otherwise. -/
def crtc_of_output (s : Server) (output_info : XRROutputInfo) : Option XRRCrtcInfo :=
  if output_info.crtc ≠ 0 then s.getCrtcInfo output_info.crtc else none

/-- Output `o` answers as Connected. -/
def is_connected (s : Server) (o : Nat) : Bool :=
  match s.getOutputInfo o with
  | none => false
  | some oi => decide (oi.connection = RR_Connected)

/-- Output `o` has a CRTC whose mode is not `None`. -/
def is_attached (s : Server) (o : Nat) : Bool :=
  match s.getOutputInfo o with
  | none => false
  | some oi =>
    match crtc_of_output s oi with
    | none => false
    | some c => decide (c.mode ≠ 0)

/-- The CRTC of output `o` passes `is_crtc_primary`. -/
def is_primary_output (s : Server) (primary : RECT) (o : Nat) : Bool :=
  match s.getOutputInfo o with
  | none => false
  | some oi => is_crtc_primary primary (crtc_of_output s oi)

/-- Output `o` is attached and the replica search finds a mirror primary for it. -/
def is_replica (s : Server) (screen_resources : XRRScreenResources) (o : Nat) : Bool :=
  match s.getOutputInfo o with
  | none => false
  | some oi =>
    match crtc_of_output s oi with
    | none => false
    | some c => decide (c.mode ≠ 0) && find_mirror_primary s c o screen_resources.outputs

/-- The adapter record written for a retained output. -/
def adapter_of_output (s : Server) (primary : RECT) (o : Nat) : x11drv_adapter :=
  { id := o,
    state_flags :=
      (if is_attached s o then DISPLAY_DEVICE_ATTACHED_TO_DESKTOP else 0) |||
        (if is_primary_output s primary o then DISPLAY_DEVICE_PRIMARY_DEVICE else 0) }

/-- Position `p` of list `l` holds a PRIMARY adapter whenever `l` has one. -/
def primary_tracked (l : List x11drv_adapter) (p : Nat) : Prop :=
  (∃ a ∈ l, has_flag a.state_flags DISPLAY_DEVICE_PRIMARY_DEVICE = true) →
    ∃ b, l[p]? = some b ∧ has_flag b.state_flags DISPLAY_DEVICE_PRIMARY_DEVICE = true

/-- Output `o` is Connected and has a CRTC, enabled or not, whose geometry is
(x, y, w, h). -/
def shares_geometry (s : Server) (x y : Int) (w h : Nat) (o : Nat) : Bool :=
  match s.getOutputInfo o with
  | none => false
  | some oi =>
    decide (oi.connection = RR_Connected) && decide (oi.crtc ≠ 0) &&
      match s.getCrtcInfo oi.crtc with
      | none => false
      | some c => decide (c.x = x ∧ c.y = y ∧ c.width = w ∧ c.height = h)

/-- Output `o` belongs to the mirror set of (x, y, w, h): it is Connected and
driven by an enabled CRTC with that geometry. -/
def in_mirror_set (s : Server) (x y : Int) (w h : Nat) (o : Nat) : Bool :=
  match s.getOutputInfo o with
  | none => false
  | some oi =>
    decide (oi.connection = RR_Connected) && decide (oi.crtc ≠ 0) &&
      match s.getCrtcInfo oi.crtc with
      | none => false
      | some c => decide (c.mode ≠ 0 ∧ c.x = x ∧ c.y = y ∧ c.width = w ∧ c.height = h)

/-! ## Monitor enumeration -/

/-- The name `generic_nonpnp_monitorW` of the source. -/
def generic_nonpnp_monitorW : String := "Generic Non-PnP Monitor"

/-- The screen-output loop of `xrandr14_get_monitors` for an adapter driven by
the enabled CRTC `crtc_info`: remaining outputs, the monitors written so far
(`monitor_count` is their number) and `primary_index`.  The array grows by
`heap_realloc`; allocation is taken to succeed. -/
def get_monitors_loop (s : Server) (env : Env) (primary_rect : RECT) (crtc_info : XRRCrtcInfo) :
    List Nat → List x11drv_monitor → Int → Option (List x11drv_monitor × Int)
  | [], monitors, primary_index => some (monitors, primary_index)
  | enum_output :: rest, monitors, primary_index =>
    match s.getOutputInfo enum_output with
    | none => none
    | some enum_output_info =>
      if enum_output_info.connection ≠ RR_Connected then
        get_monitors_loop s env primary_rect crtc_info rest monitors primary_index
      else if enum_output_info.crtc ≠ 0 then
        match s.getCrtcInfo enum_output_info.crtc with
        | none => none
        | some enum_crtc_info =>
          if enum_crtc_info.x = crtc_info.x ∧ enum_crtc_info.y = crtc_info.y ∧
              enum_crtc_info.width = crtc_info.width ∧
              enum_crtc_info.height = crtc_info.height then
            let rc_monitor : RECT :=
              SetRect crtc_info.x crtc_info.y (crtc_info.x + crtc_info.width)
                (crtc_info.y + crtc_info.height)
            let monitor : x11drv_monitor :=
              { name := generic_nonpnp_monitorW,
                rc_monitor := rc_monitor,
                rc_work := env.get_work_area rc_monitor,
                state_flags :=
                  if !IsRectEmpty rc_monitor then
                    DISPLAY_DEVICE_ATTACHED ||| DISPLAY_DEVICE_ACTIVE
                  else DISPLAY_DEVICE_ATTACHED }
            get_monitors_loop s env primary_rect crtc_info rest (monitors ++ [monitor])
              (if is_crtc_primary primary_rect (some crtc_info) then (monitors.length : Int)
               else primary_index)
          else get_monitors_loop s env primary_rect crtc_info rest monitors primary_index
      else get_monitors_loop s env primary_rect crtc_info rest monitors primary_index

/-- The "origin at (0, 0)" loop of `xrandr14_get_monitors`: both rectangles of a
monitor moved by (-primary_rect.left, -primary_rect.top). -/
def offset_monitor (primary_rect : RECT) (m : x11drv_monitor) : x11drv_monitor :=
  { m with
    rc_monitor := OffsetRect m.rc_monitor (-primary_rect.left) (-primary_rect.top),
    rc_work := OffsetRect m.rc_work (-primary_rect.left) (-primary_rect.top) }

/-- The fullscreen-hack block of `xrandr14_get_monitors`, applied to `monitors[0]`. -/
def apply_fs_hack (env : Env) (m : x11drv_monitor) : x11drv_monitor :=
  let fs_hack := env.fs_hack_current_mode
  let rc_monitor : RECT :=
    { m.rc_monitor with
      right := m.rc_monitor.left + fs_hack.1, bottom := m.rc_monitor.top + fs_hack.2 }
  let top_left := env.fs_hack_real_to_user (m.rc_work.left, m.rc_work.top)
  let bottom_right := env.fs_hack_real_to_user (m.rc_work.right, m.rc_work.bottom)
  { m with
    rc_monitor := rc_monitor,
    rc_work :=
      { left := top_left.1, top := top_left.2, right := bottom_right.1,
        bottom := bottom_right.2 } }

/-- The monitor of an inactive but attached output: zeroed memory with the
generic name and `DISPLAY_DEVICE_ATTACHED`. -/
def inactive_monitor : x11drv_monitor :=
  { name := generic_nonpnp_monitorW, rc_monitor := zeroRect, rc_work := zeroRect,
    state_flags := DISPLAY_DEVICE_ATTACHED }

/-- The active branch of `xrandr14_get_monitors`, for the enabled CRTC
`crtc_info` of the adapter. -/
def get_active_monitors (s : Server) (env : Env) (screen_resources : XRRScreenResources)
    (crtc_info : XRRCrtcInfo) : Option (List x11drv_monitor) :=
  let primary_rect := get_primary_rect s screen_resources
  match get_monitors_loop s env primary_rect crtc_info screen_resources.outputs [] (-1) with
  | none => none
  | some (monitors, primary_index) =>
    let swapped :=
      if primary_index > 0 then swapFirst monitors primary_index.toNat else monitors
    let moved := swapped.map (offset_monitor primary_rect)
    if primary_index ≥ 0 ∧ env.fs_hack_enabled = true then
      match moved with
      | [] => some moved
      | first :: others => some (apply_fs_hack env first :: others)
    else some moved

/-- Source `xrandr14_get_monitors`. -/
def xrandr14_get_monitors (s : Server) (env : Env) (adapter_id : Nat) :
    Option (List x11drv_monitor) :=
  match xrandr_get_screen_resources s with
  | none => none
  | some screen_resources =>
    match s.getOutputInfo adapter_id with
    | none => none
    | some output_info =>
      if output_info.crtc ≠ 0 ∧ s.getCrtcInfo output_info.crtc = none then none
      else
        match (if output_info.crtc ≠ 0 then s.getCrtcInfo output_info.crtc else none) with
        | none => some [inactive_monitor]
        | some crtc_info =>
          if crtc_info.mode = 0 then some [inactive_monitor]
          else get_active_monitors s env screen_resources crtc_info

/-- The monitor record `xrandr14_get_monitors` writes for every member of the
mirror set of the adapter CRTC `c`, before the move to the primary origin. -/
def monitor_of_crtc (env : Env) (c : XRRCrtcInfo) : x11drv_monitor :=
  { name := generic_nonpnp_monitorW,
    rc_monitor := crtc_rect c,
    rc_work := env.get_work_area (crtc_rect c),
    state_flags :=
      if !IsRectEmpty (crtc_rect c) then DISPLAY_DEVICE_ATTACHED ||| DISPLAY_DEVICE_ACTIVE
      else DISPLAY_DEVICE_ATTACHED }

/-! ## Vocabulary of the statements about GPUs -/

/-- Provider `provider` owns a CRTC that matches the primary rectangle. -/
def owns_primary_crtc (s : Server) (primary : RECT) (provider : Nat) : Bool :=
  match s.getProviderInfo provider with
  | none => false
  | some provider_info =>
    provider_info.crtcs.any (fun crtc => is_crtc_primary primary (s.getCrtcInfo crtc))

/-- Index of the first provider of the list that owns a CRTC matching the
primary rectangle. -/
def first_primary_provider (s : Server) (primary : RECT) : List Nat → Option Nat
  | [] => none
  | provider :: rest =>
    if owns_primary_crtc s primary provider then some 0
    else (first_primary_provider s primary rest).map (fun k => k + 1)

/-- The provider ids with entries 0 and `p` exchanged when `p` is the index of
the first primary provider and `p > 0`. -/
def expected_gpu_ids (s : Server) (primary : RECT) (providers : List Nat) : List Nat :=
  match first_primary_provider s primary providers with
  | some p => if p > 0 then swapFirst providers p else providers
  | none => providers

/-! ## Modes -/

/-- The `sizeof(DEVMODEW)` of wingdi.h. -/
def sizeof_DEVMODEW : Nat := 220

/-- Source `get_frequency`, with `unsigned int` arithmetic modulo 2^32 and the
`unsigned long` sum modulo 2^64.  The result is `none` when the final division
divides by zero. -/
def get_frequency (mode : XRRModeInfo) : Option Nat :=
  let dots := (mode.hTotal * mode.vTotal) % 2 ^ 32
  if dots = 0 then some 0
  else
    let dots1 := if mode.modeFlags &&& RR_DoubleScan ≠ 0 then (dots * 2) % 2 ^ 32 else dots
    let dots2 := if mode.modeFlags &&& RR_Interlace ≠ 0 then dots1 / 2 else dots1
    if dots2 = 0 then none
    else some (((mode.dotClock + dots2 / 2) % 2 ^ 64 / dots2) % 2 ^ 32)

/-- Zeroed `DEVMODEW` with its trailing `RRMode`, as `heap_calloc` hands it out. -/
def zeroDevmode : DEVMODEW :=
  { dmSize := 0, dmDriverExtra := 0, dmFields := 0, dmPositionX := 0, dmPositionY := 0,
    dmDisplayOrientation := 0, dmBitsPerPel := 0, dmPelsWidth := 0, dmPelsHeight := 0,
    dmDisplayFlags := 0, dmDisplayFrequency := 0, rrmode := 0 }

/-- Source `add_xrandr14_mode`. -/
def add_xrandr14_mode (mode : DEVMODEW) (info : XRRModeInfo) (depth frequency : Nat) :
    DEVMODEW :=
  let mode1 : DEVMODEW :=
    { mode with
      dmSize := sizeof_DEVMODEW,
      dmDriverExtra := sizeof_RRMode,
      dmFields := DM_DISPLAYORIENTATION ||| DM_BITSPERPEL ||| DM_PELSWIDTH |||
        DM_PELSHEIGHT ||| DM_DISPLAYFLAGS }
  let mode2 : DEVMODEW :=
    if frequency ≠ 0 then
      { mode1 with
        dmFields := mode1.dmFields ||| DM_DISPLAYFREQUENCY, dmDisplayFrequency := frequency }
    else mode1
  { mode2 with
    dmDisplayOrientation := DMDO_DEFAULT,
    dmBitsPerPel := depth,
    dmPelsWidth := info.width,
    dmPelsHeight := info.height,
    dmDisplayFlags := 0,
    rrmode := info.id }

/-- The `j` loop of `xrandr14_get_modes` and of `xrandr14_get_current_mode`:
the first entry of the screen-wide mode table with the given id. -/
def find_mode_info : List XRRModeInfo → Nat → Option XRRModeInfo
  | [], _ => none
  | mode_info :: rest, id =>
    if id ≠ mode_info.id then find_mode_info rest id else some mode_info

/-- The `depth_idx` loop of `xrandr14_get_modes`: one guest mode per depth,
appended at `mode_idx`. -/
def add_depth_modes (mode_info : XRRModeInfo) (frequency : Nat) :
    List Nat → List DEVMODEW → List DEVMODEW
  | [], modes => modes
  | depth :: rest, modes =>
    add_depth_modes mode_info frequency rest
      (modes ++ [add_xrandr14_mode zeroDevmode mode_info depth frequency])

/-- The `i` loop of `xrandr14_get_modes` over `output_info->modes`. -/
def get_modes_loop (env : Env) (screen_resources : XRRScreenResources) :
    List Nat → List DEVMODEW → Option (List DEVMODEW)
  | [], modes => some modes
  | id :: rest, modes =>
    match find_mode_info screen_resources.modes id with
    | none => get_modes_loop env screen_resources rest modes
    | some mode_info =>
      match get_frequency mode_info with
      | none => none
      | some frequency =>
        get_modes_loop env screen_resources rest
          (add_depth_modes mode_info frequency env.depths modes)

/-- Source `xrandr14_get_modes`; `none` also stands for the division trap of
`get_frequency`. -/
def xrandr14_get_modes (s : Server) (env : Env) (id : Nat) (_flags : Nat) :
    Option (List DEVMODEW) :=
  match xrandr_get_screen_resources s with
  | none => none
  | some screen_resources =>
    match s.getOutputInfo id with
    | none => none
    | some output_info =>
      if output_info.connection ≠ RR_Connected then some []
      else get_modes_loop env screen_resources output_info.modes []

/-! ## Vocabulary of the statements about modes -/

/-- The entries of the screen-wide mode table found for the supported ModeIds
`ids`, in the order of `ids`; a ModeId that is not in the table has no entry. -/
def found_modes (screen_resources : XRRScreenResources) (ids : List Nat) : List XRRModeInfo :=
  ids.filterMap (fun id => screen_resources.modes.find? (fun m => decide (m.id = id)))

/-- The run of guest modes of one found mode: one per depth of the table. -/
def guest_modes_of (env : Env) (info : XRRModeInfo) : List DEVMODEW :=
  env.depths.map
    (fun depth => add_xrandr14_mode zeroDevmode info depth ((get_frequency info).getD 0))

/-! ## The X server under `XRRSetCrtcConfig` and `XRRSetScreenSize` -/

/-- Value of `RRSetConfigSuccess` in X11/extensions/randr.h. -/
def RRSetConfigSuccess : Nat := 0
/-- Value of `RRSetConfigFailed` in X11/extensions/randr.h. -/
def RRSetConfigFailed : Nat := 3
/-- Value of `RR_Rotate_90` in X11/extensions/randr.h. -/
def RR_Rotate_90 : Nat := 2
/-- Value of `RR_Rotate_270` in X11/extensions/randr.h. -/
def RR_Rotate_270 : Nat := 8

/-- Conversion of a C `int` expression to `unsigned int`. -/
def toUInt (z : Int) : Nat := (z % 2 ^ 32).toNat

/-- Size of a CRTC that runs mode `mode` at rotation `rotation`, as the server
reports it: zero for `None` or an unknown mode, the mode size otherwise, with
width and height exchanged under a rotation by 90 or 270 degrees. -/
def crtc_size (modes : List XRRModeInfo) (mode rotation : Nat) : Nat × Nat :=
  if mode = 0 then (0, 0)
  else
    match modes.find? (fun m => decide (m.id = mode)) with
    | none => (0, 0)
    | some info =>
      if rotation &&& RR_Rotate_90 ≠ 0 ∨ rotation &&& RR_Rotate_270 ≠ 0 then
        (info.height, info.width)
      else (info.width, info.height)

/-- The state of the server after it has applied an `XRRSetCrtcConfig` request,
following the RandR protocol: the CRTC reports the requested position, mode,
rotation and outputs; the outputs of the request report this CRTC; an output the
CRTC drove before and does not drive now reports no CRTC. -/
def apply_crtc_config (s : Server) (cfg : CrtcConfig) : Server :=
  { s with
    getCrtcInfo := fun crtc =>
      if crtc = cfg.crtc then
        (s.getCrtcInfo crtc).map (fun c =>
          let modes :=
            match s.getScreenResources with
            | some r => r.modes
            | none => []
          { c with
            x := cfg.x, y := cfg.y, mode := cfg.mode, rotation := cfg.rotation,
            outputs := cfg.outputs,
            width := (crtc_size modes cfg.mode cfg.rotation).1,
            height := (crtc_size modes cfg.mode cfg.rotation).2 })
      else s.getCrtcInfo crtc
    getOutputInfo := fun output =>
      (s.getOutputInfo output).map (fun o =>
        if output ∈ cfg.outputs then { o with crtc := cfg.crtc }
        else if o.crtc = cfg.crtc then { o with crtc := 0 }
        else o) }

/-- The call `XRRSetCrtcConfig`: the status the client sees and the server
afterwards.  A request the server does not accept changes nothing. -/
def XRRSetCrtcConfig (s : Server) (cfg : CrtcConfig) : Nat × Server :=
  if s.acceptsCrtcConfig cfg then (RRSetConfigSuccess, apply_crtc_config s cfg)
  else (RRSetConfigFailed, s)

/-- The call `XRRSetScreenSize`. -/
def XRRSetScreenSize (s : Server) (width height mm_width mm_height : Int) : Server :=
  { s with
    screenWidth := width, screenHeight := height,
    screenWidthMM := mm_width, screenHeightMM := mm_height }

/-- X requests of a mode change, in the order they are issued. -/
inductive XCall where
  | GrabServer
  | UngrabServer
  | Flush
  | SetCrtcConfig (cfg : CrtcConfig) (status : Nat)
  | SetScreenSize (width height mm_width mm_height : Int)
deriving DecidableEq, Repr

/-! ## Mode changes -/

/-- The CRTC loop of `get_screen_size`, on the running (width, height). -/
def get_screen_size_loop (s : Server) : List Nat → Nat × Nat → Nat × Nat
  | [], size => size
  | crtc :: rest, size =>
    match s.getCrtcInfo crtc with
    | none => get_screen_size_loop s rest size
    | some crtc_info =>
      if crtc_info.mode ≠ 0 then
        get_screen_size_loop s rest
          (max size.1 (toUInt (crtc_info.x + crtc_info.width)),
           max size.2 (toUInt (crtc_info.y + crtc_info.height)))
      else get_screen_size_loop s rest size

/-- Source `get_screen_size`. -/
def get_screen_size (s : Server) (resources : XRRScreenResources) : Nat × Nat :=
  get_screen_size_loop s resources.crtcs (toUInt s.minWidth, toUInt s.minHeight)

/-- Source `set_screen_size`: the server after the call and the request sent.
The C division truncates towards zero. -/
def set_screen_size (s : Server) (width height : Int) : Server × XCall :=
  let mm_width := Int.tdiv (width * s.displayWidthMM) s.displayWidth
  let mm_height := Int.tdiv (height * s.displayHeightMM) s.displayHeight
  (XRRSetScreenSize s width height mm_width mm_height,
   XCall.SetScreenSize width height mm_width mm_height)

/-- What a mode change hands back: the return value (`none` when the `assert`
aborts the process), the server afterwards and the X requests issued. -/
structure SetModeResult where
  ret : Option Int
  server : Server
  calls : List XCall

/-- The "find a free CRTC" loop of `xrandr14_set_current_mode` over
`output_info->crtcs`: `none` when `XRRGetCrtcInfo` fails, `some none` when the
loop runs to the end, `some (some crtc)` for the first CRTC without outputs. -/
def find_free_crtc (s : Server) : List Nat → Option (Option Nat)
  | [] => some none
  | crtc :: rest =>
    match s.getCrtcInfo crtc with
    | none => none
    | some crtc_info =>
      if crtc_info.outputs.length = 0 then some (some crtc) else find_free_crtc s rest

/-- The `done:` label of `xrandr14_set_current_mode`. -/
def set_mode_done (s : Server) (calls : List XCall) (ret : Int) : SetModeResult :=
  { ret := some ret, server := s, calls := calls ++ [XCall.UngrabServer, XCall.Flush] }

/-- Source `xrandr14_set_current_mode`. -/
def xrandr14_set_current_mode (s : Server) (id : Nat) (mode : DEVMODEW) : SetModeResult :=
  match xrandr_get_screen_resources s with
  | none => { ret := some DISP_CHANGE_FAILED, server := s, calls := [] }
  | some screen_resources =>
    match s.getOutputInfo id with
    | none => set_mode_done s [XCall.GrabServer] DISP_CHANGE_FAILED
    | some output_info =>
      if output_info.connection ≠ RR_Connected then
        set_mode_done s [XCall.GrabServer] DISP_CHANGE_FAILED
      else
        match (if output_info.crtc ≠ 0 then some (some output_info.crtc)
               else find_free_crtc s output_info.crtcs) with
        | none => set_mode_done s [XCall.GrabServer] DISP_CHANGE_FAILED
        | some none => set_mode_done s [XCall.GrabServer] DISP_CHANGE_FAILED
        | some (some crtc) =>
          match s.getCrtcInfo crtc with
          | none => set_mode_done s [XCall.GrabServer] DISP_CHANGE_FAILED
          | some crtc_info =>
            if mode.dmDriverExtra ≠ sizeof_RRMode then
              { ret := none, server := s, calls := [XCall.GrabServer] }
            else
              let rrmode := mode.rrmode
              let outputs := if crtc_info.outputs.length ≠ 0 then crtc_info.outputs else [id]
              let rotation :=
                if crtc_info.outputs.length ≠ 0 then crtc_info.rotation else RR_Rotate_0
              let disable : CrtcConfig :=
                { crtc := crtc, x := 0, y := 0, mode := 0, rotation := RR_Rotate_0,
                  outputs := [] }
              let r1 := XRRSetCrtcConfig s disable
              if r1.1 ≠ RRSetConfigSuccess then
                set_mode_done r1.2 [XCall.GrabServer, XCall.SetCrtcConfig disable r1.1]
                  DISP_CHANGE_FAILED
              else
                let size := get_screen_size r1.2 screen_resources
                let screen_width := max size.1 (toUInt (crtc_info.x + mode.dmPelsWidth))
                let screen_height := max size.2 (toUInt (crtc_info.y + mode.dmPelsHeight))
                let r2 := set_screen_size r1.2 screen_width screen_height
                let enable : CrtcConfig :=
                  { crtc := crtc, x := crtc_info.x, y := crtc_info.y, mode := rrmode,
                    rotation := rotation, outputs := outputs }
                let r3 := XRRSetCrtcConfig r2.1 enable
                set_mode_done r3.2
                  [XCall.GrabServer, XCall.SetCrtcConfig disable r1.1, r2.2,
                   XCall.SetCrtcConfig enable r3.1]
                  (if r3.1 = RRSetConfigSuccess then DISP_CHANGE_SUCCESSFUL
                   else DISP_CHANGE_FAILED)

/-- Source `xrandr14_get_current_mode`, on the caller's `mode`; `none` also
stands for the division trap of `get_frequency`. -/
def xrandr14_get_current_mode (s : Server) (env : Env) (id : Nat) (mode : DEVMODEW) :
    Option DEVMODEW :=
  match xrandr_get_screen_resources s with
  | none => none
  | some screen_resources =>
    match s.getOutputInfo id with
    | none => none
    | some output_info =>
      if output_info.crtc ≠ 0 ∧ s.getCrtcInfo output_info.crtc = none then none
      else
        match (if output_info.crtc ≠ 0 then s.getCrtcInfo output_info.crtc else none) with
        | none =>
          some { mode with
            dmFields := DM_DISPLAYORIENTATION ||| DM_BITSPERPEL ||| DM_PELSWIDTH |||
              DM_PELSHEIGHT ||| DM_DISPLAYFLAGS ||| DM_DISPLAYFREQUENCY ||| DM_POSITION,
            dmDisplayOrientation := DMDO_DEFAULT, dmBitsPerPel := 0, dmPelsWidth := 0,
            dmPelsHeight := 0, dmDisplayFlags := 0, dmDisplayFrequency := 0,
            dmPositionX := 0, dmPositionY := 0 }
        | some crtc_info =>
          if output_info.connection ≠ RR_Connected ∨ crtc_info.mode = 0 then
            some { mode with
              dmFields := DM_DISPLAYORIENTATION ||| DM_BITSPERPEL ||| DM_PELSWIDTH |||
                DM_PELSHEIGHT ||| DM_DISPLAYFLAGS ||| DM_DISPLAYFREQUENCY ||| DM_POSITION,
              dmDisplayOrientation := DMDO_DEFAULT, dmBitsPerPel := 0, dmPelsWidth := 0,
              dmPelsHeight := 0, dmDisplayFlags := 0, dmDisplayFrequency := 0,
              dmPositionX := 0, dmPositionY := 0 }
          else
            match find_mode_info screen_resources.modes crtc_info.mode with
            | none => none
            | some mode_info =>
              match get_frequency mode_info with
              | none => none
              | some frequency =>
                let primary := get_primary_rect s screen_resources
                some { mode with
                  dmFields := DM_DISPLAYORIENTATION ||| DM_BITSPERPEL ||| DM_PELSWIDTH |||
                    DM_PELSHEIGHT ||| DM_DISPLAYFLAGS ||| DM_DISPLAYFREQUENCY |||
                    DM_POSITION,
                  dmDisplayOrientation := DMDO_DEFAULT, dmBitsPerPel := env.screen_bpp,
                  dmPelsWidth := mode_info.width, dmPelsHeight := mode_info.height,
                  dmDisplayFlags := 0, dmDisplayFrequency := frequency,
                  dmPositionX := crtc_info.x - primary.left,
                  dmPositionY := crtc_info.y - primary.top }

/-- The server answers for output `o`, and for its CRTC when `o` is Connected
and has one. -/
def output_answers (s : Server) (o : Nat) : Prop :=
  ∃ oi, s.getOutputInfo o = some oi ∧
    (oi.connection = RR_Connected → oi.crtc ≠ 0 → s.getCrtcInfo oi.crtc ≠ none)

/-! ## Example servers and collaborators -/

/-- Collaborators with the fullscreen hack switched off and the whole monitor
as work area. -/
def plainEnv : Env :=
  { get_work_area := fun r => r
    fs_hack_enabled := false
    fs_hack_current_mode := (0, 0)
    fs_hack_real_to_user := fun p => p
    depths := [8, 16, 32]
    screen_bpp := 32
    vulkan := fun _ => none }

/-- Collaborators with the fullscreen hack switched on at 800x600. -/
def hackEnv : Env :=
  { plainEnv with fs_hack_enabled := true, fs_hack_current_mode := (800, 600) }

/-- Screen resources of the example with two mirrored outputs. -/
def mirrorResources : XRRScreenResources :=
  { crtcs := [10, 11], outputs := [42, 99],
    modes := [{ id := 7, width := 1280, height := 720, dotClock := 74250000,
                hTotal := 1650, vTotal := 750, modeFlags := 0 }] }

/-- Two providers, each with one CRTC and one output; outputs 42 and 99 are
mirrored at 1280x720 on CRTCs 10 and 11, output 42 is the RandR primary. -/
def mirrorServer : Server :=
  { getScreenResourcesCurrent := some mirrorResources
    getScreenResources := some mirrorResources
    getOutputPrimary := 42
    getOutputInfo := fun o =>
      if o = 42 then some { crtc := 10, connection := RR_Connected, crtcs := [10], modes := [7] }
      else if o = 99 then
        some { crtc := 11, connection := RR_Connected, crtcs := [11], modes := [7] }
      else none
    getCrtcInfo := fun c =>
      if c = 10 then
        some { x := 0, y := 0, width := 1280, height := 720, mode := 7, rotation := 1,
               outputs := [42] }
      else if c = 11 then
        some { x := 0, y := 0, width := 1280, height := 720, mode := 7, rotation := 1,
               outputs := [99] }
      else none
    getProviderResources := some [1, 2]
    getProviderInfo := fun p =>
      if p = 1 then some { crtcs := [10], outputs := [42], name := "first" }
      else if p = 2 then some { crtcs := [11], outputs := [99], name := "second" }
      else none
    minWidth := 320, minHeight := 200
    acceptsCrtcConfig := fun _ => true
    displayWidth := 1280, displayHeight := 720, displayWidthMM := 338, displayHeightMM := 190
    screenWidth := 1280, screenHeight := 720, screenWidthMM := 338, screenHeightMM := 190 }

/-- Screen resources of the example with a primary and a secondary display. -/
def dualResources : XRRScreenResources :=
  { crtcs := [20, 21, 22], outputs := [50, 51, 52, 53],
    modes :=
      [{ id := 1, width := 1920, height := 1080, dotClock := 148500000,
         hTotal := 2200, vTotal := 1125, modeFlags := 0 },
       { id := 2, width := 1280, height := 1024, dotClock := 108000000,
         hTotal := 1688, vTotal := 1066, modeFlags := 0 },
       { id := 3, width := 800, height := 600, dotClock := 40000000,
         hTotal := 1056, vTotal := 628, modeFlags := 0 }] }

/-- Primary output 50 at 1920x1080 on CRTC 20 at (0, 0), secondary output 51 at
1280x1024 on CRTC 21 at (1920, 0), output 52 Connected without a CRTC (CRTC 22
is free), output 53 Disconnected; no providers. -/
def dualServer : Server :=
  { getScreenResourcesCurrent := some dualResources
    getScreenResources := some dualResources
    getOutputPrimary := 50
    getOutputInfo := fun o =>
      if o = 50 then
        some { crtc := 20, connection := RR_Connected, crtcs := [20, 21, 22],
               modes := [1, 2, 3] }
      else if o = 51 then
        some { crtc := 21, connection := RR_Connected, crtcs := [20, 21, 22],
               modes := [2, 3, 9] }
      else if o = 52 then
        some { crtc := 0, connection := RR_Connected, crtcs := [21, 22], modes := [3] }
      else if o = 53 then
        some { crtc := 0, connection := RR_Disconnected, crtcs := [22], modes := [] }
      else none
    getCrtcInfo := fun c =>
      if c = 20 then
        some { x := 0, y := 0, width := 1920, height := 1080, mode := 1, rotation := 1,
               outputs := [50] }
      else if c = 21 then
        some { x := 1920, y := 0, width := 1280, height := 1024, mode := 2, rotation := 1,
               outputs := [51] }
      else if c = 22 then
        some { x := 0, y := 0, width := 0, height := 0, mode := 0, rotation := 1,
               outputs := [] }
      else none
    getProviderResources := some []
    getProviderInfo := fun _ => none
    minWidth := 320, minHeight := 200
    acceptsCrtcConfig := fun _ => true
    displayWidth := 3200, displayHeight := 1080, displayWidthMM := 846, displayHeightMM := 285
    screenWidth := 3200, screenHeight := 1080, screenWidthMM := 846, screenHeightMM := 285 }

/-- Screen resources of the example with two GPUs. -/
def twoGpuResources : XRRScreenResources :=
  { crtcs := [30, 31], outputs := [60, 61],
    modes :=
      [{ id := 1, width := 1920, height := 1080, dotClock := 148500000,
         hTotal := 2200, vTotal := 1125, modeFlags := 0 },
       { id := 2, width := 1280, height := 1024, dotClock := 108000000,
         hTotal := 1688, vTotal := 1066, modeFlags := 0 }] }

/-- Two providers, 7 and 8.  Provider 7 drives output 60 at 1280x1024 on CRTC 30
at (1920, 0); provider 8 drives the primary output 61 at 1920x1080 on CRTC 31 at
(0, 0). -/
def twoGpuServer : Server :=
  { getScreenResourcesCurrent := some twoGpuResources
    getScreenResources := some twoGpuResources
    getOutputPrimary := 61
    getOutputInfo := fun o =>
      if o = 60 then
        some { crtc := 30, connection := RR_Connected, crtcs := [30], modes := [2] }
      else if o = 61 then
        some { crtc := 31, connection := RR_Connected, crtcs := [31], modes := [1] }
      else none
    getCrtcInfo := fun c =>
      if c = 30 then
        some { x := 1920, y := 0, width := 1280, height := 1024, mode := 2, rotation := 1,
               outputs := [60] }
      else if c = 31 then
        some { x := 0, y := 0, width := 1920, height := 1080, mode := 1, rotation := 1,
               outputs := [61] }
      else none
    getProviderResources := some [7, 8]
    getProviderInfo := fun p =>
      if p = 7 then some { crtcs := [30], outputs := [60], name := "modesetting" }
      else if p = 8 then some { crtcs := [31], outputs := [61], name := "NVIDIA-0" }
      else none
    minWidth := 320, minHeight := 200
    acceptsCrtcConfig := fun _ => true
    displayWidth := 3200, displayHeight := 1080, displayWidthMM := 846, displayHeightMM := 285
    screenWidth := 3200, screenHeight := 1080, screenWidthMM := 846, screenHeightMM := 285 }


/-! ## Device names -/

/-- Value of `LONG_MAX` for the 64-bit `long` of the source. -/
def LONG_MAX : Int := 2 ^ 63 - 1
/-- Value of `LONG_MIN` for the 64-bit `long` of the source. -/
def LONG_MIN : Int := -(2 ^ 63)

/-- Conversion of a C integer expression to the 32-bit `INT`. -/
def toINT (z : Int) : Int := Int.bmod z (2 ^ 32)

/-- White space as `isspaceW` sees it in a device name: the blank and the
control characters 9 to 13. -/
def isspaceW (c : Char) : Bool :=
  c.toNat = 32 || (decide (9 ≤ c.toNat) && decide (c.toNat ≤ 13))

/-- Decimal digit test of the conversion loop. -/
def is_decimal_digit (c : Char) : Bool := decide ('0' ≤ c) && decide (c ≤ '9')

/-- Value of a run of decimal digits. -/
def decimal_value (digits : List Char) : Nat :=
  digits.foldl (fun acc d => acc * 10 + (d.toNat - 48)) 0

/-- Modelled from the spec: `strtolW` of the wine unicode library is not part of
the file; the source uses it to "parse `\\.\DISPLAY<N>`", with base 10.  It is
the C `strtol` on wide characters: white space is skipped, an optional sign and
a run of decimal digits are converted, the value saturates at `LONG_MIN` and
`LONG_MAX`, and `end` is the text after the digits; when there is no digit the
value is 0 and `end` is the whole text.  The result is (value, end). -/
def strtolW (nptr : List Char) : Int × List Char :=
  match nptr.dropWhile isspaceW with
  | [] => (0, nptr)
  | c :: rest =>
    let s := if c = '-' ∨ c = '+' then rest else c :: rest
    let digits := s.takeWhile is_decimal_digit
    if digits = [] then (0, nptr)
    else
      let i : Int := decimal_value digits
      let value : Int :=
        if c = '-' then (if i > -LONG_MIN then LONG_MIN else -i)
        else (if i > LONG_MAX then LONG_MAX else i)
      (value, s.dropWhile is_decimal_digit)

/-- What `xrandr14_get_id` hands back: `failure` is the `FALSE` return,
`found id` is `TRUE` with `*id` read from an adapter entry, and
`out_of_bounds adapter_idx` is `TRUE` with `*id` read outside the adapter array,
at index `adapter_idx`. -/
inductive GetIdResult where
  | failure
  | found (id : Nat)
  | out_of_bounds (adapter_idx : Int)
deriving DecidableEq, Repr

/-- The GPU loop of `xrandr14_get_id`: remaining GPUs and `display_count`. -/
def get_id_loop (s : Server) (display_idx : Int) : List x11drv_gpu → Int → GetIdResult
  | [], _ => GetIdResult.failure
  | gpu :: rest, display_count =>
    match xrandr14_get_adapters s gpu.id with
    | none => GetIdResult.failure
    | some adapters =>
      let adapter_idx := display_idx - display_count
      if adapter_idx < adapters.length then
        if adapter_idx < 0 then GetIdResult.out_of_bounds adapter_idx
        else
          match adapters[adapter_idx.toNat]? with
          | some adapter => GetIdResult.found adapter.id
          | none => GetIdResult.out_of_bounds adapter_idx
      else get_id_loop s display_idx rest (display_count + adapters.length)

/-- Source `xrandr14_get_id`; the name is the list of its characters. -/
def xrandr14_get_id (s : Server) (env : Env) (device_name : List Char) : GetIdResult :=
  let r := strtolW (device_name.drop 11)
  let display_idx := toINT (r.1 - 1)
  if r.2 ≠ [] then GetIdResult.failure
  else
    match xrandr14_get_gpus2 s env false with
    | none => GetIdResult.failure
    | some gpus => get_id_loop s display_idx gpus 0

/-- The adapter lists of the GPUs, concatenated in GPU order; `none` when
`xrandr14_get_adapters` fails for one of them. -/
def all_adapters (s : Server) : List x11drv_gpu → Option (List x11drv_adapter)
  | [] => some []
  | gpu :: rest =>
    match xrandr14_get_adapters s gpu.id, all_adapters s rest with
    | some adapters, some others => some (adapters ++ others)
    | _, _ => none


/-! ## The XRandR 1.0 and 1.2 settings handlers -/

/-- Structure `x11drv_mode_info` of x11drv.h: one entry of `dd_modes`. -/
structure x11drv_mode_info where
  width : Nat
  height : Nat
  bpp : Nat
  refresh_rate : Nat
deriving DecidableEq, Repr

/-- The file-scope variables of `xrandr.c`.  `dd_modes`, `xrandr10_modes` and
`xrandr12_modes` are the contents of the arrays the pointers refer to;
`xrandr_mode_count` is the number of entries in use.  `primary_crtc` is never
negative and is kept as a natural number. -/
structure Globals where
  dd_modes : List x11drv_mode_info
  xrandr10_modes : List Nat
  xrandr12_modes : List Nat
  xrandr_mode_count : Nat
  xrandr_current_mode : Int
  primary_crtc : Nat
deriving DecidableEq, Repr

/-- The variables at program start: no tables, `xrandr_current_mode = -1`. -/
def initialGlobals : Globals :=
  { dd_modes := [], xrandr10_modes := [], xrandr12_modes := [], xrandr_mode_count := 0,
    xrandr_current_mode := -1, primary_crtc := 0 }

/-- Zeroed `x11drv_mode_info`, read for an index outside the table. -/
def zeroModeInfo : x11drv_mode_info := { width := 0, height := 0, bpp := 0, refresh_rate := 0 }

/-- The statement `mode = mode % xrandr_mode_count` for `int mode` and
`unsigned int xrandr_mode_count`: the `int` is converted to `unsigned int`
before the remainder is taken.  The remainder is below the table length and is
kept as it is when stored back. -/
def normalize_mode (mode : Int) (xrandr_mode_count : Nat) : Nat :=
  toUInt mode % xrandr_mode_count

/-- The search loops of the two `get_current_mode` functions: the first index
`i`, counted from `start`, whose entry passes the test. -/
def find_index_from {α : Type} (p : α → Bool) : List α → Nat → Option Nat
  | [], _ => none
  | a :: rest, start => if p a then some start else find_index_from p rest (start + 1)

/-- The XRandR 1.0 view of the X server: the answer of `XRRGetScreenInfo`
(current size id, rotation and rate), of `XRRSizes` and `XRRRates`, and whether
a `XRRSetScreenConfig` or `XRRSetScreenConfigAndRate` request is accepted (rate
0 stands for the request without a rate). -/
structure LegacyServer where
  currentSize : Nat
  currentRotation : Nat
  currentRate : Nat
  sizes : List (Nat × Nat)
  rates : Nat → List Nat
  acceptsScreenConfig : Nat → Nat → Nat → Bool

/-- The calls `XRRSetScreenConfigAndRate` (rate not 0) and `XRRSetScreenConfig`
(rate 0): status and server afterwards.  An accepted request makes the size,
and the rate when one is given, current. -/
def XRRSetScreenConfig (ls : LegacyServer) (size rotation rate : Nat) : Nat × LegacyServer :=
  if ls.acceptsScreenConfig size rotation rate then
    (RRSetConfigSuccess,
      { ls with
        currentSize := size, currentRotation := rotation,
        currentRate := if rate ≠ 0 then rate else ls.currentRate })
  else (RRSetConfigFailed, ls)

/-- Source `xrandr10_get_current_mode`: return value and variables afterwards. -/
def xrandr10_get_current_mode (g : Globals) (ls : LegacyServer) : Int × Globals :=
  if g.xrandr_current_mode ≠ -1 then (g.xrandr_current_mode, g)
  else
    match find_index_from
        (fun entry : Nat × x11drv_mode_info =>
          decide (entry.1 = ls.currentSize) && decide (entry.2.refresh_rate = ls.currentRate))
        ((g.xrandr10_modes.zip g.dd_modes).take g.xrandr_mode_count) 0 with
    | none => (0, g)
    | some res => ((res : Int), { g with xrandr_current_mode := (res : Int) })

/-- What the XRandR 1.0 mode change hands back: return value, variables and
server afterwards, and whether `X11DRV_DisplayDevices_Update( TRUE )` was
called. -/
structure Set10Result where
  ret : Int
  globals : Globals
  server : LegacyServer
  display_update : Bool

/-- Source `xrandr10_set_current_mode`; `none` is the division by zero of
`mode % xrandr_mode_count` when the count is 0. -/
def xrandr10_set_current_mode (g : Globals) (ls : LegacyServer) (mode : Int) :
    Option Set10Result :=
  if g.xrandr_mode_count = 0 then none
  else
    let mode1 := normalize_mode mode g.xrandr_mode_count
    let size := g.xrandr10_modes.getD mode1 0
    let rate := (g.dd_modes.getD mode1 zeroModeInfo).refresh_rate
    let r := XRRSetScreenConfig ls size ls.currentRotation rate
    if r.1 = RRSetConfigSuccess then
      some { ret := DISP_CHANGE_SUCCESSFUL,
             globals := { g with xrandr_current_mode := (mode1 : Int) },
             server := r.2, display_update := true }
    else
      some { ret := DISP_CHANGE_FAILED, globals := g, server := r.2, display_update := false }

/-- Source `xrandr12_get_current_mode`: return value and variables afterwards. -/
def xrandr12_get_current_mode (g : Globals) (s : Server) : Int × Globals :=
  if g.xrandr_current_mode ≠ -1 then (g.xrandr_current_mode, g)
  else
    match s.getScreenResourcesCurrent with
    | none => (0, g)
    | some resources =>
      if resources.crtcs.length ≤ g.primary_crtc then (0, g)
      else
        match s.getCrtcInfo (resources.crtcs.getD g.primary_crtc 0) with
        | none => (0, g)
        | some crtc_info =>
          match find_index_from (fun id : Nat => decide (id = crtc_info.mode))
              (g.xrandr12_modes.take g.xrandr_mode_count) 0 with
          | none => (0, g)
          | some ret => ((ret : Int), { g with xrandr_current_mode := (ret : Int) })

/-- What the XRandR 1.2 mode change hands back: return value, variables and
server afterwards, the X requests issued, and whether
`X11DRV_DisplayDevices_Update( TRUE )` was called. -/
structure Set12Result where
  ret : Int
  globals : Globals
  server : Server
  calls : List XCall
  display_update : Bool

/-- Source `xrandr12_set_current_mode`; `none` is the division by zero of
`mode % xrandr_mode_count` when the count is 0. -/
def xrandr12_set_current_mode (g : Globals) (s : Server) (mode : Int) : Option Set12Result :=
  if g.xrandr_mode_count = 0 then none
  else
    let mode1 := normalize_mode mode g.xrandr_mode_count
    match s.getScreenResourcesCurrent with
    | none =>
      some { ret := DISP_CHANGE_FAILED, globals := g, server := s, calls := [],
             display_update := false }
    | some resources =>
      if resources.crtcs.length ≤ g.primary_crtc then
        some { ret := DISP_CHANGE_FAILED, globals := g, server := s, calls := [],
               display_update := false }
      else
        let crtc := resources.crtcs.getD g.primary_crtc 0
        match s.getCrtcInfo crtc with
        | none =>
          some { ret := DISP_CHANGE_FAILED, globals := g, server := s, calls := [],
                 display_update := false }
        | some crtc_info =>
          let disable : CrtcConfig :=
            { crtc := crtc, x := crtc_info.x, y := crtc_info.y, mode := 0,
              rotation := crtc_info.rotation, outputs := [] }
          let r1 := XRRSetCrtcConfig s disable
          if r1.1 ≠ RRSetConfigSuccess then
            some { ret := DISP_CHANGE_FAILED, globals := g, server := r1.2,
                   calls := [XCall.GrabServer, XCall.SetCrtcConfig disable r1.1,
                             XCall.UngrabServer, XCall.Flush],
                   display_update := false }
          else
            let size := get_screen_size r1.2 resources
            let dd_mode := g.dd_modes.getD mode1 zeroModeInfo
            let screen_width := max size.1 (toUInt (crtc_info.x + dd_mode.width))
            let screen_height := max size.2 (toUInt (crtc_info.y + dd_mode.height))
            let r2 := set_screen_size r1.2 screen_width screen_height
            let enable : CrtcConfig :=
              { crtc := crtc, x := crtc_info.x, y := crtc_info.y,
                mode := g.xrandr12_modes.getD mode1 0, rotation := crtc_info.rotation,
                outputs := crtc_info.outputs }
            let r3 := XRRSetCrtcConfig r2.1 enable
            let calls :=
              [XCall.GrabServer, XCall.SetCrtcConfig disable r1.1, r2.2,
               XCall.SetCrtcConfig enable r3.1, XCall.UngrabServer, XCall.Flush]
            if r3.1 ≠ RRSetConfigSuccess then
              some { ret := DISP_CHANGE_FAILED, globals := g, server := r3.2, calls := calls,
                     display_update := false }
            else
              some { ret := DISP_CHANGE_SUCCESSFUL,
                     globals := { g with xrandr_current_mode := (mode1 : Int) },
                     server := r3.2, calls := calls, display_update := true }

/-! ## Example tables -/

/-- Variables after a table of three modes was built for `dualServer`. -/
def threeModes : Globals :=
  { dd_modes :=
      [{ width := 1920, height := 1080, bpp := 32, refresh_rate := 60 },
       { width := 1280, height := 1024, bpp := 32, refresh_rate := 60 },
       { width := 800, height := 600, bpp := 32, refresh_rate := 60 }],
    xrandr10_modes := [0, 1, 2], xrandr12_modes := [1, 2, 3], xrandr_mode_count := 3,
    xrandr_current_mode := -1, primary_crtc := 0 }

/-- An XRandR 1.0 server with three sizes that accepts every request. -/
def legacyServer : LegacyServer :=
  { currentSize := 0, currentRotation := 1, currentRate := 60,
    sizes := [(1920, 1080), (1280, 1024), (800, 600)],
    rates := fun i => if i = 0 then [60, 50] else if i = 1 then [60] else [],
    acceptsScreenConfig := fun _ _ _ => true }


/-! ## The settings collaborator -/

/-- The state of the settings collaborator behind `dd_modes`: the mode table,
the number of modes the handlers were registered for, and the size given to
`X11DRV_Settings_SetRealMode`. -/
structure Settings where
  modes : List x11drv_mode_info
  nmodes : Nat
  real_mode : Nat × Nat
deriving DecidableEq, Repr

/-- What `xrandr.c` takes from the settings collaborator, which is outside the
file: whether `X11DRV_Settings_AddOneMode` takes a mode in a given state of the
table (`accepts`), the `screen_bpp` stored for a depth of 0, and the entries
`X11DRV_Settings_AddDepthModes` appends to a table. -/
structure SettingsEnv where
  accepts : Settings → x11drv_mode_info → Bool
  screen_bpp : Nat
  depth_modes : List x11drv_mode_info → List x11drv_mode_info

/-- Modelled from the spec: `X11DRV_Settings_SetHandlers` of settings.c is not
part of the file; `Settings_SetHandlers(name, get_current, set_current,
n_modes, bpp_count)` registers the handlers for `n_modes` modes and hands back
the fresh table `dd_modes`. -/
def X11DRV_Settings_SetHandlers (st : Settings) (nmodes : Nat) : Settings :=
  { st with modes := [], nmodes := nmodes }

/-- Modelled from the spec: `X11DRV_Settings_AddOneMode` of settings.c is not
part of the file; `Settings_AddOneMode(w, h, bpp, refresh)` reports whether it
took the mode, and a mode it takes is the next entry of the table.  When it
refuses a mode is left to the parameter `accepts`. -/
def X11DRV_Settings_AddOneMode (senv : SettingsEnv) (st : Settings)
    (width height bpp freq : Nat) : Bool × Settings :=
  let info : x11drv_mode_info :=
    { width := width, height := height,
      bpp := if bpp = 0 then senv.screen_bpp else bpp, refresh_rate := freq }
  if senv.accepts st info then (true, { st with modes := st.modes ++ [info] })
  else (false, st)

/-- Modelled from the spec: `X11DRV_Settings_SetRealMode` of settings.c is not
part of the file; it records the effective "real" primary resolution. -/
def X11DRV_Settings_SetRealMode (st : Settings) (width height : Nat) : Settings :=
  { st with real_mode := (width, height) }

/-- Modelled from the spec: `X11DRV_Settings_AddDepthModes` of settings.c is not
part of the file; "depth variants are appended by the external settings
collaborator". -/
def X11DRV_Settings_AddDepthModes (senv : SettingsEnv) (st : Settings) : Settings :=
  { st with modes := st.modes ++ senv.depth_modes st.modes }

/-! ## The XRandR 1.2 mode table builder -/

/-- Source `xrandr12_get_primary_crtc_info` on the CRTCs from index `i` on: the
first CRTC that answers and is enabled, with its index. -/
def xrandr12_get_primary_crtc_info (s : Server) : List Nat → Nat → Option (XRRCrtcInfo × Nat)
  | [], _ => none
  | crtc :: rest, i =>
    match s.getCrtcInfo crtc with
    | none => xrandr12_get_primary_crtc_info s rest (i + 1)
    | some crtc_info =>
      if crtc_info.mode = 0 then xrandr12_get_primary_crtc_info s rest (i + 1)
      else some (crtc_info, i)

/-- The `primary_mode` loop of `xrandr12_init_modes`: it has no `break`, so the
last entry of the mode table with the id wins. -/
def find_primary_mode (mode : Nat) : List XRRModeInfo → Option XRRModeInfo → Option XRRModeInfo
  | [], primary_mode => primary_mode
  | info :: rest, primary_mode =>
    if info.id = mode then find_primary_mode mode rest (some info)
    else find_primary_mode mode rest primary_mode

/-- The rotation test of `xrandr12_init_modes`. -/
def is_rotated (rotation : Nat) : Bool :=
  decide (rotation &&& RR_Rotate_90 ≠ 0) || decide (rotation &&& RR_Rotate_270 ≠ 0)

/-- The values `primary_width` and `primary_height` of `xrandr12_init_modes`
after the rotation exchange. -/
def primary_size (crtc_info : XRRCrtcInfo) (primary_mode : Option XRRModeInfo) : Nat × Nat :=
  let size : Nat × Nat :=
    match primary_mode with
    | some mode => (mode.width, mode.height)
    | none => (crtc_info.width, crtc_info.height)
  if is_rotated crtc_info.rotation then (size.2, size.1) else size

/-- The value `primary_refresh` of `xrandr12_init_modes`; `none` is the
division trap of `get_frequency`. -/
def primary_refresh (primary_mode : Option XRRModeInfo) : Option Nat :=
  match primary_mode with
  | some mode => get_frequency mode
  | none => some 60

/-- The copy `rotated_mode` of a mode in `xrandr12_init_modes`. -/
def rotated_mode (rotation : Nat) (mode : XRRModeInfo) : XRRModeInfo :=
  if is_rotated rotation then { mode with width := mode.height, height := mode.width }
  else mode

/-- The mode loop of `xrandr12_init_modes` over `output_info->modes`: the
settings table and the entries of `xrandr12_modes` written so far
(`xrandr_mode_count` is their number). -/
def init12_loop (senv : SettingsEnv) (resources : XRRScreenResources) (rotation : Nat)
    (primary : Nat × Nat) (refresh : Nat) :
    List Nat → Settings → List Nat → Settings × List Nat
  | [], st, table => (st, table)
  | id :: rest, st, table =>
    match find_mode_info resources.modes id with
    | none => init12_loop senv resources rotation primary refresh rest st table
    | some mode =>
      let rotated := rotated_mode rotation mode
      if rotated.width ≤ primary.1 ∧ rotated.height ≤ primary.2 then
        let r := X11DRV_Settings_AddOneMode senv st rotated.width rotated.height 0 refresh
        if r.1 then
          init12_loop senv resources rotation primary refresh rest r.2 (table ++ [rotated.id])
        else init12_loop senv resources rotation primary refresh rest r.2 table
      else init12_loop senv resources rotation primary refresh rest st table

/-- What `xrandr12_init_modes` hands back: the return value, the variables and
the settings collaborator afterwards, and the guest modes the call stored
through `X11DRV_Settings_AddOneMode`, in order. -/
structure Init12Result where
  ret : Int
  globals : Globals
  settings : Settings
  emitted : List x11drv_mode_info

/-- Source `xrandr12_init_modes`; `none` is the division trap of
`get_frequency` on the primary mode.  The flag `only_one_resolution` is
computed and not used, so it is left out. -/
def xrandr12_init_modes (s : Server) (senv : SettingsEnv) (g : Globals) (st : Settings) :
    Option Init12Result :=
  match xrandr_get_screen_resources s with
  | none => some { ret := -1, globals := g, settings := st, emitted := [] }
  | some resources =>
    match xrandr12_get_primary_crtc_info s resources.crtcs 0 with
    | none => some { ret := -1, globals := g, settings := st, emitted := [] }
    | some (crtc_info, crtc_idx) =>
      let g1 : Globals := { g with primary_crtc := crtc_idx }
      let primary_mode := find_primary_mode crtc_info.mode resources.modes none
      match (if crtc_info.outputs.length = 0 then none
             else s.getOutputInfo (crtc_info.outputs.getD 0 0)) with
      | none => some { ret := -1, globals := g1, settings := st, emitted := [] }
      | some output_info =>
        if output_info.modes.length = 0 then
          some { ret := -1, globals := g1, settings := st, emitted := [] }
        else
          let st1 := X11DRV_Settings_SetHandlers st output_info.modes.length
          match primary_refresh primary_mode with
          | none => none
          | some refresh =>
            let primary := primary_size crtc_info primary_mode
            let r := init12_loop senv resources crtc_info.rotation primary refresh
              output_info.modes st1 []
            let st2 := X11DRV_Settings_SetRealMode r.1 primary.1 primary.2
            let st3 := X11DRV_Settings_AddDepthModes senv st2
            some { ret := 0,
                   globals := { g1 with
                     dd_modes := st3.modes, xrandr12_modes := r.2,
                     xrandr_mode_count := r.2.length },
                   settings := st3, emitted := r.1.modes }

/-! ## The XRandR 1.0 mode table builder -/

/-- The rate loop of `xrandr10_init_modes` for size `i`. -/
def init10_rates (senv : SettingsEnv) (size : Nat × Nat) (i : Nat) :
    List Nat → Settings → List Nat → Settings × List Nat
  | [], st, table => (st, table)
  | rate :: rest, st, table =>
    init10_rates senv size i rest
      (X11DRV_Settings_AddOneMode senv st size.1 size.2 0 rate).2 (table ++ [i])

/-- The size loop of `xrandr10_init_modes`, from size index `i` on: the
settings table and the entries of `xrandr10_modes` written so far. -/
def init10_loop (senv : SettingsEnv) (ls : LegacyServer) :
    List (Nat × Nat) → Nat → Settings → List Nat → Settings × List Nat
  | [], _, st, table => (st, table)
  | size :: rest, i, st, table =>
    if (ls.rates i).length ≠ 0 then
      let r := init10_rates senv size i (ls.rates i) st table
      init10_loop senv ls rest (i + 1) r.1 r.2
    else
      init10_loop senv ls rest (i + 1)
        (X11DRV_Settings_AddOneMode senv st size.1 size.2 0 0).2 (table ++ [i])

/-- The number `nmodes` that `xrandr10_init_modes` computes from the rate lists. -/
def init10_nmodes (ls : LegacyServer) : List (Nat × Nat) → Nat → Nat
  | [], _ => 0
  | _ :: rest, i =>
    (if (ls.rates i).length ≠ 0 then (ls.rates i).length else 1) + init10_nmodes ls rest (i + 1)

/-- The statements of `xrandr10_init_modes` that follow its `return`: the
table builder for the sizes and rates of the legacy API.  The source never
reaches them. -/
def xrandr10_init_modes_after_return (ls : LegacyServer) (senv : SettingsEnv) (g : Globals)
    (st : Settings) : Globals × Settings :=
  if ls.sizes.length = 0 then (g, st)
  else
    let st1 := X11DRV_Settings_SetHandlers st (init10_nmodes ls ls.sizes 0)
    let r := init10_loop senv ls ls.sizes 0 st1 []
    let st2 := X11DRV_Settings_AddDepthModes senv r.1
    ({ g with dd_modes := st2.modes, xrandr10_modes := r.2, xrandr_mode_count := r.2.length },
      st2)

/-- Source `xrandr10_init_modes`: it logs "xrandr 1.2 support required" and
returns; the variables and the settings collaborator stay as they are. -/
def xrandr10_init_modes (_ls : LegacyServer) (_senv : SettingsEnv) (g : Globals)
    (st : Settings) : Globals × Settings :=
  (g, st)

/-! ## Example for the builders -/

/-- A settings collaborator that has room for four entries per mode and takes
no mode twice, has a 32 bit screen and appends the 8 and 16 bit variants of the
table. -/
def plainSettings : SettingsEnv :=
  { accepts := fun st info =>
      decide (st.modes.length < 4 * st.nmodes) && !(st.modes.contains info)
    screen_bpp := 32
    depth_modes := fun modes =>
      modes.map (fun m => { m with bpp := 8 }) ++ modes.map (fun m => { m with bpp := 16 }) }

/-- A settings collaborator that takes every mode it is offered. -/
def openSettings : SettingsEnv :=
  { accepts := fun _ _ => true
    screen_bpp := 32
    depth_modes := fun modes =>
      modes.map (fun m => { m with bpp := 8 }) ++ modes.map (fun m => { m with bpp := 16 }) }

/-- The settings collaborator before any handler is registered. -/
def emptySettings : Settings := { modes := [], nmodes := 0, real_mode := (0, 0) }

/-- Screen resources of the example with a rotated primary. -/
def rotatedResources : XRRScreenResources :=
  { crtcs := [40], outputs := [70],
    modes :=
      [{ id := 1, width := 1920, height := 1080, dotClock := 148500000,
         hTotal := 2200, vTotal := 1125, modeFlags := 0 },
       { id := 4, width := 1080, height := 1920, dotClock := 148500000,
         hTotal := 1125, vTotal := 2200, modeFlags := 0 },
       { id := 3, width := 800, height := 600, dotClock := 40000000,
         hTotal := 1056, vTotal := 628, modeFlags := 0 }] }

/-- One CRTC, 40, rotated by 90 degrees: it runs the 1920x1080 mode 1 and has
the logical size 1080x1920; its output 70 supports the modes 1 (1920x1080),
4 (1080x1920) and 3 (800x600). -/
def rotatedServer : Server :=
  { getScreenResourcesCurrent := some rotatedResources
    getScreenResources := some rotatedResources
    getOutputPrimary := 70
    getOutputInfo := fun o =>
      if o = 70 then
        some { crtc := 40, connection := RR_Connected, crtcs := [40], modes := [1, 4, 3] }
      else none
    getCrtcInfo := fun c =>
      if c = 40 then
        some { x := 0, y := 0, width := 1080, height := 1920, mode := 1,
               rotation := RR_Rotate_90, outputs := [70] }
      else none
    getProviderResources := some []
    getProviderInfo := fun _ => none
    minWidth := 320, minHeight := 200
    acceptsCrtcConfig := fun _ => true
    displayWidth := 1080, displayHeight := 1920, displayWidthMM := 285, displayHeightMM := 506
    screenWidth := 1080, screenHeight := 1920, screenWidthMM := 285, screenHeightMM := 506 }


/-- What `xrandr12_init_modes` hands back on `rotatedServer` with
`plainSettings` or `openSettings`: the modes 1 and 3 are kept and shown as 1080x1920 and 600x800. -/
def rotatedTables : Init12Result :=
  { ret := 0,
    globals :=
      { dd_modes :=
          [{ width := 1080, height := 1920, bpp := 32, refresh_rate := 60 },
           { width := 600, height := 800, bpp := 32, refresh_rate := 60 },
           { width := 1080, height := 1920, bpp := 8, refresh_rate := 60 },
           { width := 600, height := 800, bpp := 8, refresh_rate := 60 },
           { width := 1080, height := 1920, bpp := 16, refresh_rate := 60 },
           { width := 600, height := 800, bpp := 16, refresh_rate := 60 }],
        xrandr10_modes := [], xrandr12_modes := [1, 3], xrandr_mode_count := 2,
        xrandr_current_mode := -1, primary_crtc := 0 },
    settings :=
      { modes :=
          [{ width := 1080, height := 1920, bpp := 32, refresh_rate := 60 },
           { width := 600, height := 800, bpp := 32, refresh_rate := 60 },
           { width := 1080, height := 1920, bpp := 8, refresh_rate := 60 },
           { width := 600, height := 800, bpp := 8, refresh_rate := 60 },
           { width := 1080, height := 1920, bpp := 16, refresh_rate := 60 },
           { width := 600, height := 800, bpp := 16, refresh_rate := 60 }],
        nmodes := 3, real_mode := (1080, 1920) },
    emitted :=
      [{ width := 1080, height := 1920, bpp := 32, refresh_rate := 60 },
       { width := 600, height := 800, bpp := 32, refresh_rate := 60 }] }


/-! ## The legacy tables as the specification words them -/

/-- The parallel table of the specification for the sizes from index `i` on:
"the parallel index table records the RandR size-id i for each emitted mode",
one mode per rate of size `i`, or one mode when the size has no rate. -/
def legacy_table_spec (ls : LegacyServer) : List (Nat × Nat) → Nat → List Nat
  | [], _ => []
  | _ :: rest, i =>
    List.replicate (max 1 (ls.rates i).length) i ++ legacy_table_spec ls rest (i + 1)

/-- The guest modes of the specification for the sizes from index `i` on: "if
R_i is non-empty, emit one guest mode per rate; if empty, emit one guest mode
with refresh 0". -/
def legacy_modes_spec (ls : LegacyServer) (bpp : Nat) :
    List (Nat × Nat) → Nat → List x11drv_mode_info
  | [], _ => []
  | size :: rest, i =>
    (if ls.rates i = [] then
        [{ width := size.1, height := size.2, bpp := bpp, refresh_rate := 0 }]
      else
        (ls.rates i).map (fun rate =>
          { width := size.1, height := size.2, bpp := bpp, refresh_rate := rate })) ++
      legacy_modes_spec ls bpp rest (i + 1)


/-! ## Vocabulary of the statements about the primary rectangle fallback -/

/-- The advertised primary output is of no use to `get_primary_rect`: there is
none, it does not answer, it is not Connected, it has no CRTC, or its CRTC does
not answer or is disabled. -/
def primary_unusable (s : Server) : Bool :=
  if s.getOutputPrimary = 0 then true
  else
    match s.getOutputInfo s.getOutputPrimary with
    | none => true
    | some output_info =>
      decide (output_info.connection ≠ RR_Connected) || decide (output_info.crtc = 0) ||
        match s.getCrtcInfo output_info.crtc with
        | none => true
        | some crtc_info => decide (crtc_info.mode = 0)

/-- The enabled CRTCs of a list "in declaration order": those that answer with
a mode other than `None`. -/
def enabled_crtcs (s : Server) : List Nat → List XRRCrtcInfo
  | [] => []
  | crtc :: rest =>
    match s.getCrtcInfo crtc with
    | none => enabled_crtcs s rest
    | some crtc_info =>
      if crtc_info.mode ≠ 0 then crtc_info :: enabled_crtcs s rest else enabled_crtcs s rest

/-- The fallback rectangle as the specification words it: "the first enabled
CRTC whose (x,y) = (0,0) wins. Otherwise, the first enabled CRTC encountered is
used. If nothing is enabled, return the empty rectangle." -/
def fallback_rect_spec (s : Server) (resources : XRRScreenResources) : RECT :=
  match (enabled_crtcs s resources.crtcs).find? (fun c => decide (c.x = 0 ∧ c.y = 0)) with
  | some c => SetRect 0 0 c.width c.height
  | none =>
    match (enabled_crtcs s resources.crtcs).head? with
    | some c => SetRect c.x c.y (c.x + c.width) (c.y + c.height)
    | none => zeroRect

/-! ## Vocabulary of the statements about mode changes -/

/-- CRTC `crtc` answers and "has zero attached outputs". -/
def crtc_is_free (s : Server) (crtc : Nat) : Bool :=
  match s.getCrtcInfo crtc with
  | none => false
  | some crtc_info => decide (crtc_info.outputs.length = 0)

/-- The target CRTC of a mode change as the specification words it: "if output
already has one, reuse it; else walk the output's CRTC candidate list and pick
the first with zero attached outputs. If none, fail." -/
def target_crtc_spec (s : Server) (output_info : XRROutputInfo) : Option Nat :=
  if output_info.crtc ≠ 0 then some output_info.crtc
  else output_info.crtcs.find? (crtc_is_free s)

/-- The calls of a mode change that holds the server grab for its requests:
the grab comes first, the ungrab and the flush come last, and there is no other
grab or ungrab. -/
def grab_scoped (calls : List XCall) : Bool :=
  decide (calls.count XCall.GrabServer = 1) && decide (calls.count XCall.UngrabServer = 1) &&
    decide (calls.head? = some XCall.GrabServer) &&
    decide (calls.drop (calls.length - 2) = [XCall.UngrabServer, XCall.Flush])

/-! ## Vocabulary of the statements about the refresh rate -/

/-- The divisor of the specification: hTotal*vTotal "doubled if the double-scan
flag is set and then halved if the interlace flag is set", in unbounded
arithmetic. -/
def adjusted_dots_spec (mode : XRRModeInfo) : Nat :=
  let dots := mode.hTotal * mode.vTotal
  let dots1 := if mode.modeFlags &&& RR_DoubleScan ≠ 0 then dots * 2 else dots
  if mode.modeFlags &&& RR_Interlace ≠ 0 then dots1 / 2 else dots1

/-- The refresh rate of the specification: 0 "when dots = 0", otherwise
dotClock / adjustedDots rounded to the nearest integer. -/
def frequency_spec (mode : XRRModeInfo) : Nat :=
  if mode.hTotal * mode.vTotal = 0 then 0
  else (mode.dotClock + adjusted_dots_spec mode / 2) / adjusted_dots_spec mode

/-! ## The size of the adapter array -/

/-- The value `crtc_count` of `xrandr14_get_adapters`, which sizes the array
`adapters`: the CRTC count of provider `gpu_id`, or of the screen for the fake
provider id 0; `none` when the call fails before the allocation. -/
def adapters_crtc_count (s : Server) (gpu_id : Nat) : Option Nat :=
  match xrandr_get_screen_resources s with
  | none => none
  | some screen_resources =>
    if gpu_id ≠ 0 then
      match s.getProviderInfo gpu_id with
      | none => none
      | some provider_info => some provider_info.crtcs.length
    else some screen_resources.crtcs.length

/-! ## Further example servers -/

/-- The guest mode 800x600 at 60 Hz and 32 bit, as `xrandr14_get_modes` builds it. -/
def mode800 : DEVMODEW :=
  add_xrandr14_mode zeroDevmode
    { id := 3, width := 800, height := 600, dotClock := 40000000, hTotal := 1056,
      vTotal := 628, modeFlags := 0 } 32 60

/-- The dual-monitor server when the screen resources cannot be read. -/
def blindServer : Server :=
  { dualServer with getScreenResourcesCurrent := none, getScreenResources := none }

/-- The dual-monitor server when it refuses every `XRRSetCrtcConfig`. -/
def refusingServer : Server :=
  { dualServer with acceptsCrtcConfig := fun _ => false }

/-- The dual-monitor server when it lets a CRTC be disabled and refuses to
enable one. -/
def disableOnlyServer : Server :=
  { dualServer with acceptsCrtcConfig := fun cfg => decide (cfg.mode = 0) }

/-- The dual-monitor server when the advertised primary is the Disconnected
output 53 and CRTC 20 sits at (100, 0). -/
def strayPrimaryServer : Server :=
  { dualServer with
    getOutputPrimary := 53
    getCrtcInfo := fun c =>
      if c = 20 then
        some { x := 100, y := 0, width := 1920, height := 1080, mode := 1, rotation := 1,
               outputs := [50] }
      else dualServer.getCrtcInfo c }

/-- Screen resources of the example with more monitors than CRTCs. -/
def crowdedResources : XRRScreenResources :=
  { crtcs := [20], outputs := [50, 51],
    modes :=
      [{ id := 1, width := 1920, height := 1080, dotClock := 148500000,
         hTotal := 2200, vTotal := 1125, modeFlags := 0 }] }

/-- One CRTC and two Connected outputs: output 50 runs 1920x1080 on CRTC 20,
output 51 is Connected and has no CRTC. -/
def crowdedServer : Server :=
  { getScreenResourcesCurrent := some crowdedResources
    getScreenResources := some crowdedResources
    getOutputPrimary := 50
    getOutputInfo := fun o =>
      if o = 50 then
        some { crtc := 20, connection := RR_Connected, crtcs := [20], modes := [1] }
      else if o = 51 then
        some { crtc := 0, connection := RR_Connected, crtcs := [20], modes := [1] }
      else none
    getCrtcInfo := fun c =>
      if c = 20 then
        some { x := 0, y := 0, width := 1920, height := 1080, mode := 1, rotation := 1,
               outputs := [50] }
      else none
    getProviderResources := some []
    getProviderInfo := fun _ => none
    minWidth := 320, minHeight := 200
    acceptsCrtcConfig := fun _ => true
    displayWidth := 1920, displayHeight := 1080, displayWidthMM := 508, displayHeightMM := 285
    screenWidth := 1920, screenHeight := 1080, screenWidthMM := 508, screenHeightMM := 285 }


/-- The dual-monitor server when the advertised primary is the Disconnected
output 53 and CRTC 20 is enabled at (5, 5) with a size of 0x0. -/
def emptyCrtcServer : Server :=
  { dualServer with
    getOutputPrimary := 53
    getCrtcInfo := fun c =>
      if c = 20 then
        some { x := 5, y := 5, width := 0, height := 0, mode := 1, rotation := 1,
               outputs := [50] }
      else dualServer.getCrtcInfo c }

/-! # Theorems -/

/-! ## Exchange with the first element -/

theorem perm_cons_set {α : Type} (a b : α) : ∀ (t : List α) (n : Nat),
    t[n]? = some b → (b :: t.set n a).Perm (a :: t)
  | [], n, h => by simp at h
  | c :: t, 0, h => by
    simp at h
    subst h
    simpa using List.Perm.swap a c t
  | c :: t, n + 1, h => by
    simp at h
    have ih := perm_cons_set a b t n h
    simp only [List.set_cons_succ]
    exact (List.Perm.swap c b _).trans (((ih.cons c)).trans (List.Perm.swap a c t))

theorem swapFirst_perm {α : Type} (l : List α) (p : Nat) : (swapFirst l p).Perm l := by
  unfold swapFirst
  cases l with
  | nil => simp
  | cons a t =>
    cases p with
    | zero => simp
    | succ n =>
      simp only [List.getElem?_cons_zero, List.getElem?_cons_succ]
      cases h : t[n]? with
      | none => simp
      | some b =>
        simp only [List.set_cons_zero, List.set_cons_succ]
        exact perm_cons_set a b t n h

theorem mem_swapFirst {α : Type} (l : List α) (p : Nat) (a : α) :
    a ∈ swapFirst l p ↔ a ∈ l :=
  (swapFirst_perm l p).mem_iff

theorem swapFirst_head {α : Type} (l : List α) (p : Nat) (b : α) (h : l[p]? = some b) :
    (swapFirst l p)[0]? = some b := by
  unfold swapFirst
  cases l with
  | nil => simp at h
  | cons a t =>
    cases p with
    | zero => simp at h; subst h; simp
    | succ n =>
      simp only [List.getElem?_cons_succ] at h
      simp [h]

theorem swapFirst_map {α β : Type} (f : α → β) (l : List α) (p : Nat) :
    (swapFirst l p).map f = swapFirst (l.map f) p := by
  unfold swapFirst
  simp only [List.getElem?_map]
  cases h0 : l[0]? with
  | none => simp
  | some a =>
    cases hp : l[p]? with
    | none => simp
    | some b => simp [List.map_set]

theorem swapFirst_replicate {α : Type} (n p : Nat) (a : α) :
    swapFirst (List.replicate n a) p = List.replicate n a :=
  List.perm_replicate.mp (swapFirst_perm _ p)

/-! ## The adapter loop -/

theorem get_adapters_loop_eq (s : Server) (sr : XRRScreenResources) (P : RECT) :
    ∀ (outs : List Nat) (adapters : List x11drv_adapter) (pa : Nat)
      (L : List x11drv_adapter) (pa1 : Nat),
      get_adapters_loop s sr P outs adapters pa = some (L, pa1) →
      L = adapters ++
        (outs.filter (fun o => is_connected s o && !is_replica s sr o)).map
          (adapter_of_output s P)
  | [], adapters, pa, L, pa1, h => by
    simp [get_adapters_loop] at h
    simp [h.1]
  | o :: rest, adapters, pa, L, pa1, h => by
    unfold get_adapters_loop at h
    cases hoi : s.getOutputInfo o with
    | none => simp [hoi] at h
    | some oi =>
      simp only [hoi] at h
      by_cases hc : oi.connection = RR_Connected
      · simp only [hc, ne_eq, not_true_eq_false, if_false] at h
        by_cases hz : oi.crtc = 0
        · simp only [hz, ne_eq, not_true_eq_false, false_and, if_false] at h
          simp at h
          have ih := get_adapters_loop_eq s sr P rest _ _ L pa1 h
          rw [ih]
          simp [List.filter_cons, is_connected, is_replica, hoi, hc, crtc_of_output, hz,
            adapter_of_output, is_attached, is_primary_output, is_crtc_primary]
        · cases hci : s.getCrtcInfo oi.crtc with
          | none => simp [hz, hci] at h
          | some c =>
            simp only [hz, hci, ne_eq, not_false_eq_true, true_and, if_true] at h
            simp at h
            by_cases hm : c.mode = 0
            · simp [hm, is_crtc_primary] at h
              have ih := get_adapters_loop_eq s sr P rest _ _ L pa1 h
              rw [ih]
              simp [List.filter_cons, is_connected, is_replica, hoi, hc, crtc_of_output, hz,
                adapter_of_output, is_attached, is_primary_output, is_crtc_primary, hci, hm]
            · simp only [hm] at h
              by_cases hmir : find_mirror_primary s c o sr.outputs = true
              · simp [hmir] at h
                have ih := get_adapters_loop_eq s sr P rest _ _ L pa1 h
                rw [ih]
                simp [List.filter_cons, is_connected, is_replica, hoi, hc, crtc_of_output, hz,
                  hci, hm, hmir]
              · simp [hmir] at h
                by_cases hp : is_crtc_primary P (some c) = true
                · simp [hp] at h
                  have ih := get_adapters_loop_eq s sr P rest _ _ L pa1 h
                  rw [ih]
                  simp [List.filter_cons, is_connected, is_replica, hoi, hc, crtc_of_output, hz,
                    adapter_of_output, is_attached, is_primary_output, hci, hm, hmir, hp]
                · simp [hp] at h
                  have ih := get_adapters_loop_eq s sr P rest _ _ L pa1 h
                  rw [ih]
                  simp [List.filter_cons, is_connected, is_replica, hoi, hc, crtc_of_output, hz,
                    adapter_of_output, is_attached, is_primary_output, hci, hm, hmir, hp]
      · simp only [hc, ne_eq, not_false_eq_true, if_true] at h
        have ih := get_adapters_loop_eq s sr P rest _ _ L pa1 h
        rw [ih]
        simp [List.filter_cons, is_connected, hoi, hc]

theorem primary_tracked_append_other (l : List x11drv_adapter) (p : Nat) (a : x11drv_adapter)
    (ha : has_flag a.state_flags DISPLAY_DEVICE_PRIMARY_DEVICE = false)
    (h : primary_tracked l p) : primary_tracked (l ++ [a]) p := by
  intro ⟨x, hx, hxp⟩
  rcases List.mem_append.mp hx with hx | hx
  · obtain ⟨b, hb, hbp⟩ := h ⟨x, hx, hxp⟩
    refine ⟨b, ?_, hbp⟩
    have hlt : p < l.length := by
      by_contra hge
      rw [List.getElem?_eq_none (Nat.le_of_not_lt hge)] at hb
      cases hb
    rw [List.getElem?_append_left hlt]
    exact hb
  · simp at hx
    subst hx
    rw [ha] at hxp
    cases hxp

theorem primary_tracked_append_primary (l : List x11drv_adapter) (a : x11drv_adapter)
    (ha : has_flag a.state_flags DISPLAY_DEVICE_PRIMARY_DEVICE = true) :
    primary_tracked (l ++ [a]) l.length := by
  intro _
  exact ⟨a, by simp, ha⟩

theorem get_adapters_loop_tracked (s : Server) (sr : XRRScreenResources) (P : RECT) :
    ∀ (outs : List Nat) (adapters : List x11drv_adapter) (pa : Nat)
      (L : List x11drv_adapter) (pa1 : Nat),
      get_adapters_loop s sr P outs adapters pa = some (L, pa1) →
      primary_tracked adapters pa → primary_tracked L pa1
  | [], adapters, pa, L, pa1, h, hinv => by
    simp [get_adapters_loop] at h
    rw [← h.1, ← h.2]
    exact hinv
  | o :: rest, adapters, pa, L, pa1, h, hinv => by
    unfold get_adapters_loop at h
    cases hoi : s.getOutputInfo o with
    | none => simp [hoi] at h
    | some oi =>
      simp only [hoi] at h
      by_cases hc : oi.connection = RR_Connected
      · simp only [hc, ne_eq, not_true_eq_false, if_false] at h
        by_cases hz : oi.crtc = 0
        · simp only [hz, ne_eq, not_true_eq_false, false_and, if_false] at h
          simp [is_crtc_primary] at h
          exact get_adapters_loop_tracked s sr P rest _ _ L pa1 h
            (primary_tracked_append_other _ _ _ (show has_flag 0 DISPLAY_DEVICE_PRIMARY_DEVICE = false by decide) hinv)
        · cases hci : s.getCrtcInfo oi.crtc with
          | none => simp [hz, hci] at h
          | some c =>
            simp only [hz, hci, ne_eq, not_false_eq_true, true_and, if_true] at h
            simp at h
            by_cases hm : c.mode = 0
            · simp [hm, is_crtc_primary] at h
              exact get_adapters_loop_tracked s sr P rest _ _ L pa1 h
                (primary_tracked_append_other _ _ _ (show has_flag 0 DISPLAY_DEVICE_PRIMARY_DEVICE = false by decide) hinv)
            · simp only [hm] at h
              by_cases hmir : find_mirror_primary s c o sr.outputs = true
              · simp [hmir] at h
                exact get_adapters_loop_tracked s sr P rest _ _ L pa1 h hinv
              · simp [hmir] at h
                by_cases hp : is_crtc_primary P (some c) = true
                · simp [hp] at h
                  exact get_adapters_loop_tracked s sr P rest _ _ L pa1 h
                    (primary_tracked_append_primary _ _ (show has_flag (DISPLAY_DEVICE_ATTACHED_TO_DESKTOP ||| DISPLAY_DEVICE_PRIMARY_DEVICE) DISPLAY_DEVICE_PRIMARY_DEVICE = true by decide))
                · simp [hp] at h
                  exact get_adapters_loop_tracked s sr P rest _ _ L pa1 h
                    (primary_tracked_append_other _ _ _ (show has_flag DISPLAY_DEVICE_ATTACHED_TO_DESKTOP DISPLAY_DEVICE_PRIMARY_DEVICE = false by decide) hinv)
      · simp only [hc, ne_eq, not_false_eq_true, if_true] at h
        exact get_adapters_loop_tracked s sr P rest _ _ L pa1 h hinv

theorem find_mirror_primary_iff (s : Server) (c : XRRCrtcInfo) (o : Nat) :
    ∀ outs : List Nat, find_mirror_primary s c o outs = true ↔
      ∃ e ∈ outs, e < o ∧ shares_geometry s c.x c.y c.width c.height e = true
  | [] => by simp [find_mirror_primary]
  | e :: rest => by
    have ih := find_mirror_primary_iff s c o rest
    unfold find_mirror_primary
    cases hoi : s.getOutputInfo e with
    | none => simp [ih, shares_geometry, hoi]
    | some eo =>
      simp only
      by_cases hc : eo.connection ≠ RR_Connected ∨ eo.crtc = 0
      · rw [if_pos hc, ih]
        have : shares_geometry s c.x c.y c.width c.height e = false := by
          rcases hc with hc | hc <;> simp [shares_geometry, hoi, hc]
        simp [this]
      · rw [if_neg hc]
        have hc1 : eo.connection = RR_Connected := by
          by_contra h; exact hc (Or.inl h)
        have hc2 : eo.crtc ≠ 0 := fun h => hc (Or.inr h)
        cases hci : s.getCrtcInfo eo.crtc with
        | none => simp [ih, shares_geometry, hoi, hci]
        | some ec =>
          simp only
          by_cases hg : c.x = ec.x ∧ c.y = ec.y ∧ c.width = ec.width ∧ c.height = ec.height ∧ o > e
          · rw [if_pos hg]
            simp only [true_iff]
            refine ⟨e, by simp, hg.2.2.2.2, ?_⟩
            simp [shares_geometry, hoi, hci, hc1, hc2, hg.1, hg.2.1, hg.2.2.1, hg.2.2.2.1]
          · rw [if_neg hg, ih]
            constructor
            · rintro ⟨x, hx, hlt, hsh⟩
              exact ⟨x, by simp [hx], hlt, hsh⟩
            · rintro ⟨x, hx, hlt, hsh⟩
              rcases List.mem_cons.mp hx with rfl | hx
              · exfalso
                apply hg
                simp [shares_geometry, hoi, hci, hc1, hc2] at hsh
                exact ⟨hsh.1.symm, hsh.2.1.symm, hsh.2.2.1.symm, hsh.2.2.2.symm, hlt⟩
              · exact ⟨x, hx, hlt, hsh⟩

theorem is_crtc_primary_iff (P : RECT) (c : XRRCrtcInfo) :
    is_crtc_primary P (some c) = true ↔ c.mode ≠ 0 ∧ crtc_rect c = P := by
  cases P with
  | mk l t r b =>
    simp only [is_crtc_primary, crtc_rect, SetRect, Bool.and_eq_true, decide_eq_true_eq,
      RECT.mk.injEq]
    tauto

/-- The list `xrandr14_get_adapters` returns, up to the exchange of the primary
adapter with the first one: the retained outputs in enumeration order. -/
theorem xrandr14_get_adapters_perm (s : Server) (gpu_id : Nat) (sr : XRRScreenResources)
    (outs : List Nat) (L : List x11drv_adapter)
    (hsr : xrandr_get_screen_resources s = some sr)
    (houts : enumerated_outputs s sr gpu_id = some outs)
    (hL : xrandr14_get_adapters s gpu_id = some L) :
    L.Perm ((outs.filter (fun o => is_connected s o && !is_replica s sr o)).map
      (adapter_of_output s (get_primary_rect s sr))) := by
  unfold xrandr14_get_adapters at hL
  simp only [hsr, houts] at hL
  cases hloop : get_adapters_loop s sr (get_primary_rect s sr) outs [] 0 with
  | none => simp [hloop] at hL
  | some r =>
    obtain ⟨A, pa⟩ := r
    simp only [hloop, Option.some.injEq] at hL
    have hA := get_adapters_loop_eq s sr _ outs [] 0 A pa hloop
    simp only [List.nil_append] at hA
    rw [← hA, ← hL]
    split
    · exact swapFirst_perm A pa
    · exact List.Perm.refl A

theorem has_flag_adapter_primary (s : Server) (P : RECT) (o : Nat) :
    has_flag (adapter_of_output s P o).state_flags DISPLAY_DEVICE_PRIMARY_DEVICE =
      is_primary_output s P o := by
  unfold adapter_of_output
  dsimp only
  cases is_attached s o <;> cases is_primary_output s P o <;> decide

theorem has_flag_adapter_attached (s : Server) (P : RECT) (o : Nat) :
    has_flag (adapter_of_output s P o).state_flags DISPLAY_DEVICE_ATTACHED_TO_DESKTOP =
      is_attached s o := by
  unfold adapter_of_output
  dsimp only
  cases is_attached s o <;> cases is_primary_output s P o <;> decide

/-- Membership in the list returned by `xrandr14_get_adapters`. -/
theorem mem_xrandr14_get_adapters (s : Server) (gpu_id : Nat) (sr : XRRScreenResources)
    (outs : List Nat) (L : List x11drv_adapter)
    (hsr : xrandr_get_screen_resources s = some sr)
    (houts : enumerated_outputs s sr gpu_id = some outs)
    (hL : xrandr14_get_adapters s gpu_id = some L) (a : x11drv_adapter) :
    a ∈ L ↔ ∃ o ∈ outs, is_connected s o = true ∧ is_replica s sr o = false ∧
      a = adapter_of_output s (get_primary_rect s sr) o := by
  rw [(xrandr14_get_adapters_perm s gpu_id sr outs L hsr houts hL).mem_iff]
  simp only [List.mem_map, List.mem_filter, Bool.and_eq_true, Bool.not_eq_true']
  constructor
  · rintro ⟨o, ⟨ho, hc, hr⟩, rfl⟩
    exact ⟨o, ho, hc, hr, rfl⟩
  · rintro ⟨o, ho, hc, hr, rfl⟩
    exact ⟨o, ⟨ho, hc, hr⟩, rfl⟩

/-- A successful `xrandr14_get_adapters` had screen resources and an output list. -/
theorem xrandr14_get_adapters_inputs (s : Server) (gpu_id : Nat) (L : List x11drv_adapter)
    (hL : xrandr14_get_adapters s gpu_id = some L) :
    ∃ sr outs, xrandr_get_screen_resources s = some sr ∧
      enumerated_outputs s sr gpu_id = some outs := by
  unfold xrandr14_get_adapters at hL
  cases hsr : xrandr_get_screen_resources s with
  | none => simp [hsr] at hL
  | some sr =>
    cases houts : enumerated_outputs s sr gpu_id with
    | none => simp [hsr, houts] at hL
    | some outs => exact ⟨sr, outs, rfl, houts⟩

theorem is_attached_iff (s : Server) (o : Nat) (oi : XRROutputInfo)
    (hoi : s.getOutputInfo o = some oi) :
    is_attached s o = true ↔
      ∃ c, oi.crtc ≠ 0 ∧ s.getCrtcInfo oi.crtc = some c ∧ c.mode ≠ 0 := by
  unfold is_attached crtc_of_output
  simp only [hoi]
  by_cases hz : oi.crtc = 0
  · simp [hz]
  · cases hci : s.getCrtcInfo oi.crtc with
    | none => simp [hz, hci]
    | some c => simp [hz, hci]

theorem is_primary_output_iff (s : Server) (P : RECT) (o : Nat) (oi : XRROutputInfo)
    (hoi : s.getOutputInfo o = some oi) :
    is_primary_output s P o = true ↔
      ∃ c, oi.crtc ≠ 0 ∧ s.getCrtcInfo oi.crtc = some c ∧ c.mode ≠ 0 ∧ crtc_rect c = P := by
  unfold is_primary_output crtc_of_output
  simp only [hoi]
  by_cases hz : oi.crtc = 0
  · simp [hz, is_crtc_primary]
  · cases hci : s.getCrtcInfo oi.crtc with
    | none => simp [hz, hci, is_crtc_primary]
    | some c =>
      simp only [hz, ne_eq, not_false_eq_true, if_true, hci, is_crtc_primary_iff]
      simp

theorem detached_not_replica (s : Server) (sr : XRRScreenResources) (o : Nat)
    (h : is_attached s o = false) : is_replica s sr o = false := by
  unfold is_attached at h
  unfold is_replica
  cases hoi : s.getOutputInfo o with
  | none => rfl
  | some oi =>
    simp only [hoi] at h ⊢
    cases hc : crtc_of_output s oi with
    | none => rfl
    | some c =>
      simp only [hc] at h ⊢
      simp [h]

theorem in_mirror_set_shares (s : Server) (x y : Int) (w h : Nat) (o : Nat)
    (hm : in_mirror_set s x y w h o = true) : shares_geometry s x y w h o = true := by
  unfold in_mirror_set at hm
  unfold shares_geometry
  cases hoi : s.getOutputInfo o with
  | none => simp [hoi] at hm
  | some oi =>
    simp only [hoi] at hm ⊢
    cases hci : s.getCrtcInfo oi.crtc with
    | none => simp [hci] at hm
    | some c =>
      simp only [hci] at hm ⊢
      simp at hm ⊢
      tauto

/-- For a member of a mirror set, being a replica means that a Connected output
of the screen-wide list with a CRTC of the same geometry has a smaller id. -/
theorem is_replica_of_member (s : Server) (sr : XRRScreenResources) (x y : Int) (w h : Nat)
    (o : Nat) (hm : in_mirror_set s x y w h o = true) :
    is_replica s sr o = true ↔
      ∃ e ∈ sr.outputs, e < o ∧ shares_geometry s x y w h e = true := by
  unfold in_mirror_set at hm
  unfold is_replica crtc_of_output
  cases hoi : s.getOutputInfo o with
  | none => simp [hoi] at hm
  | some oi =>
    simp only [hoi] at hm ⊢
    cases hci : s.getCrtcInfo oi.crtc with
    | none => simp [hci] at hm
    | some c =>
      simp only [hci] at hm
      simp at hm
      obtain ⟨⟨_, hz⟩, hmode, hx, hy, hw, hh⟩ := hm
      simp only [hz, ne_eq, not_false_eq_true, if_true, hci, hmode, decide_True, Bool.true_and]
      rw [find_mirror_primary_iff, hx, hy, hw, hh]

theorem is_connected_of_member (s : Server) (x y : Int) (w h : Nat) (o : Nat)
    (hm : in_mirror_set s x y w h o = true) : is_connected s o = true := by
  unfold in_mirror_set at hm
  unfold is_connected
  cases hoi : s.getOutputInfo o with
  | none => simp [hoi] at hm
  | some oi =>
    simp only [hoi] at hm ⊢
    simp at hm ⊢
    exact hm.1.1

/-! ## Adapters: mirror sets, primary first, connection, flags -/

/-- Claim C1, as the code has it: let the enumerated output ids be pairwise
distinct and belong to the screen-wide output list, and let `m` be a member of
the mirror set of (x, y, w, h) with the smallest id among the Connected outputs
of the screen-wide list whose CRTC has that geometry.  Then every returned
adapter of the mirror set has id `m`, and `m` is returned exactly once when it is
in the enumerated list and not at all otherwise. -/
theorem mirror_set_one_adapter (s : Server) (gpu_id : Nat) (sr : XRRScreenResources)
    (outs : List Nat) (L : List x11drv_adapter) (x y : Int) (w h : Nat) (m : Nat)
    (hsr : xrandr_get_screen_resources s = some sr)
    (houts : enumerated_outputs s sr gpu_id = some outs)
    (hL : xrandr14_get_adapters s gpu_id = some L)
    (hnd : outs.Nodup) (hsub : ∀ o ∈ outs, o ∈ sr.outputs)
    (hm : m ∈ sr.outputs) (hmem : in_mirror_set s x y w h m = true)
    (hmin : ∀ e ∈ sr.outputs, shares_geometry s x y w h e = true → m ≤ e) :
    (∀ a ∈ L, in_mirror_set s x y w h a.id = true → a.id = m) ∧
      (L.map (fun a => a.id)).count m = if m ∈ outs then 1 else 0 := by
  have hmemL := mem_xrandr14_get_adapters s gpu_id sr outs L hsr houts hL
  have hperm := xrandr14_get_adapters_perm s gpu_id sr outs L hsr houts hL
  have hmrep : is_replica s sr m = false := by
    rw [Bool.eq_false_iff]
    intro hr
    obtain ⟨e, he, hlt, hsh⟩ := (is_replica_of_member s sr x y w h m hmem).mp hr
    have := hmin e he hsh
    omega
  constructor
  · intro a ha hin
    obtain ⟨o, ho, _, hrep, rfl⟩ := (hmemL a).mp ha
    change in_mirror_set s x y w h o = true at hin
    show o = m
    have h1 : m ≤ o := hmin o (hsub o ho) (in_mirror_set_shares s x y w h o hin)
    have h2 : ¬ m < o := by
      intro hlt
      have : is_replica s sr o = true :=
        (is_replica_of_member s sr x y w h o hin).mpr
          ⟨m, hm, hlt, in_mirror_set_shares s x y w h m hmem⟩
      rw [hrep] at this
      cases this
    omega
  · rw [(hperm.map (fun a => a.id)).count_eq, List.map_map]
    have hid : ((fun a : x11drv_adapter => a.id) ∘ adapter_of_output s (get_primary_rect s sr))
        = id := by
      funext o
      rfl
    rw [hid, List.map_id, List.count_filter]
    · by_cases hmo : m ∈ outs
      · rw [if_pos hmo]
        exact List.count_eq_one_of_mem hnd hmo
      · rw [if_neg hmo]
        exact List.count_eq_zero_of_not_mem hmo
    · simp [is_connected_of_member s x y w h m hmem, hmrep]

/-- Counterexample to claim C1 as stated: provider 2 of `mirrorServer` enumerates
the single output 99, a Connected output driven by an enabled CRTC at
(0, 0, 1280, 720), so the enumerated list has a mirror set of size 1; the call
succeeds and returns no adapter, because output 42 of provider 1 is mirrored at
the same geometry and has a smaller id. -/
theorem mirror_set_one_adapter_counterexample :
    xrandr_get_screen_resources mirrorServer = some mirrorResources ∧
      enumerated_outputs mirrorServer mirrorResources 2 = some [99] ∧
      in_mirror_set mirrorServer 0 0 1280 720 99 = true ∧
      xrandr14_get_adapters mirrorServer 2 = some [] := by
  decide

/-- Witness for claim C1: for gpu id 0 on `mirrorServer`, outputs 42 and 99
mirrored at 1280x720 give one adapter, with id 42. -/
theorem mirror_set_one_adapter_witness :
    xrandr14_get_adapters mirrorServer 0 = some [{ id := 42, state_flags := 5 }] ∧
      ((∀ a ∈ [({ id := 42, state_flags := 5 } : x11drv_adapter)],
          in_mirror_set mirrorServer 0 0 1280 720 a.id = true → a.id = 42) ∧
        (([({ id := 42, state_flags := 5 } : x11drv_adapter)]).map (fun a => a.id)).count 42 =
          if 42 ∈ [42, 99] then 1 else 0) :=
  ⟨by decide,
    mirror_set_one_adapter mirrorServer 0 mirrorResources [42, 99] _ 0 0 1280 720 42
      (by decide) (by decide) (by decide) (by decide) (by decide) (by decide) (by decide)
      (by decide)⟩

/-- Claim C2: in every adapter list returned by `xrandr14_get_adapters`, if some
adapter has the PRIMARY flag then the adapter at index 0 has it. -/
theorem primary_adapter_is_first (s : Server) (gpu_id : Nat) (L : List x11drv_adapter)
    (hL : xrandr14_get_adapters s gpu_id = some L)
    (hex : ∃ a ∈ L, has_flag a.state_flags DISPLAY_DEVICE_PRIMARY_DEVICE = true) :
    ∃ b, L[0]? = some b ∧ has_flag b.state_flags DISPLAY_DEVICE_PRIMARY_DEVICE = true := by
  unfold xrandr14_get_adapters at hL
  cases hsr : xrandr_get_screen_resources s with
  | none => simp [hsr] at hL
  | some sr =>
    cases houts : enumerated_outputs s sr gpu_id with
    | none => simp [hsr, houts] at hL
    | some outs =>
      simp only [hsr, houts] at hL
      cases hloop : get_adapters_loop s sr (get_primary_rect s sr) outs [] 0 with
      | none => simp [hloop] at hL
      | some r =>
        obtain ⟨A, pa⟩ := r
        simp only [hloop, Option.some.injEq] at hL
        have htr : primary_tracked A pa :=
          get_adapters_loop_tracked s sr _ outs [] 0 A pa hloop (by
            intro ⟨a, ha, _⟩
            simp at ha)
        obtain ⟨a, ha, hap⟩ := hex
        by_cases hpa : pa = 0
        · rw [if_neg (by simpa using hpa)] at hL
          subst hL
          subst hpa
          exact htr ⟨a, ha, hap⟩
        · rw [if_pos hpa] at hL
          subst hL
          obtain ⟨b, hb, hbp⟩ := htr ⟨a, (mem_swapFirst A pa a).mp ha, hap⟩
          exact ⟨b, swapFirst_head A pa b hb, hbp⟩

/-- Witness for claim C2: on `dualServer` the returned list has a PRIMARY
adapter and it is the first one. -/
theorem primary_adapter_is_first_witness :
    xrandr14_get_adapters dualServer 0 =
        some [{ id := 50, state_flags := 5 }, { id := 51, state_flags := 1 },
              { id := 52, state_flags := 0 }] ∧
      ∃ b, [({ id := 50, state_flags := 5 } : x11drv_adapter), { id := 51, state_flags := 1 },
              { id := 52, state_flags := 0 }][0]? = some b ∧
        has_flag b.state_flags DISPLAY_DEVICE_PRIMARY_DEVICE = true :=
  ⟨by decide,
    primary_adapter_is_first dualServer 0 _ (by decide)
      ⟨{ id := 50, state_flags := 5 }, by decide, by decide⟩⟩

/-- Claim C3: every adapter id returned by `xrandr14_get_adapters` is an output
of the enumerated list whose connection is Connected; in particular it is not
Disconnected. -/
theorem adapters_are_connected_outputs (s : Server) (gpu_id : Nat) (L : List x11drv_adapter)
    (hL : xrandr14_get_adapters s gpu_id = some L) :
    ∀ a ∈ L,
      (∃ sr outs, xrandr_get_screen_resources s = some sr ∧
        enumerated_outputs s sr gpu_id = some outs ∧ a.id ∈ outs) ∧
      ∃ oi, s.getOutputInfo a.id = some oi ∧ oi.connection = RR_Connected ∧
        oi.connection ≠ RR_Disconnected := by
  intro a ha
  obtain ⟨sr, outs, hsr, houts⟩ := xrandr14_get_adapters_inputs s gpu_id L hL
  obtain ⟨o, ho, hc, _, rfl⟩ :=
    (mem_xrandr14_get_adapters s gpu_id sr outs L hsr houts hL a).mp ha
  refine ⟨⟨sr, outs, hsr, houts, ho⟩, ?_⟩
  show ∃ oi, s.getOutputInfo o = some oi ∧ _
  unfold is_connected at hc
  cases hoi : s.getOutputInfo o with
  | none => simp [hoi] at hc
  | some oi =>
    simp [hoi] at hc
    exact ⟨oi, rfl, hc, by rw [hc]; decide⟩

/-- Witness for claim C3: on `dualServer` the Disconnected output 53 is not an
adapter and the three adapters are Connected outputs of the screen list. -/
theorem adapters_are_connected_outputs_witness :
    xrandr14_get_adapters dualServer 0 =
        some [{ id := 50, state_flags := 5 }, { id := 51, state_flags := 1 },
              { id := 52, state_flags := 0 }] ∧
      ∀ a ∈ [({ id := 50, state_flags := 5 } : x11drv_adapter), { id := 51, state_flags := 1 },
              { id := 52, state_flags := 0 }],
        (∃ sr outs, xrandr_get_screen_resources dualServer = some sr ∧
          enumerated_outputs dualServer sr 0 = some outs ∧ a.id ∈ outs) ∧
        ∃ oi, dualServer.getOutputInfo a.id = some oi ∧ oi.connection = RR_Connected ∧
          oi.connection ≠ RR_Disconnected :=
  ⟨by decide, adapters_are_connected_outputs dualServer 0 _ (by decide)⟩

/-- Claim C4: every adapter returned by `xrandr14_get_adapters` carries the id of
an enumerated output; ATTACHED_TO_DESKTOP is set exactly when that output has a
CRTC whose mode is not None; PRIMARY is set exactly when that CRTC is enabled and
its rectangle equals the one of `get_primary_rect`; and every Connected output
with no CRTC or with a disabled CRTC is retained with neither flag. -/
theorem adapter_id_and_flags (s : Server) (gpu_id : Nat) (sr : XRRScreenResources)
    (outs : List Nat) (L : List x11drv_adapter)
    (hsr : xrandr_get_screen_resources s = some sr)
    (houts : enumerated_outputs s sr gpu_id = some outs)
    (hL : xrandr14_get_adapters s gpu_id = some L) :
    (∀ a ∈ L, a.id ∈ outs ∧ ∃ oi, s.getOutputInfo a.id = some oi ∧
      (has_flag a.state_flags DISPLAY_DEVICE_ATTACHED_TO_DESKTOP = true ↔
        ∃ c, oi.crtc ≠ 0 ∧ s.getCrtcInfo oi.crtc = some c ∧ c.mode ≠ 0) ∧
      (has_flag a.state_flags DISPLAY_DEVICE_PRIMARY_DEVICE = true ↔
        ∃ c, oi.crtc ≠ 0 ∧ s.getCrtcInfo oi.crtc = some c ∧ c.mode ≠ 0 ∧
          crtc_rect c = get_primary_rect s sr)) ∧
    (∀ o ∈ outs, ∀ oi, s.getOutputInfo o = some oi → oi.connection = RR_Connected →
      (oi.crtc = 0 ∨ ∃ c, s.getCrtcInfo oi.crtc = some c ∧ c.mode = 0) →
      ({ id := o, state_flags := 0 } : x11drv_adapter) ∈ L) := by
  have hmem := mem_xrandr14_get_adapters s gpu_id sr outs L hsr houts hL
  constructor
  · intro a ha
    obtain ⟨o, ho, hc, _, rfl⟩ := (hmem a).mp ha
    refine ⟨ho, ?_⟩
    rw [has_flag_adapter_attached, has_flag_adapter_primary]
    show ∃ oi, s.getOutputInfo o = some oi ∧ _
    cases hoi : s.getOutputInfo o with
    | none => simp [is_connected, hoi] at hc
    | some oi =>
      exact ⟨oi, rfl, is_attached_iff s o oi hoi, is_primary_output_iff s _ o oi hoi⟩
  · intro o ho oi hoi hconn hdet
    have hatt : is_attached s o = false := by
      rw [Bool.eq_false_iff]
      intro h
      obtain ⟨c, hz, hci, hm⟩ := (is_attached_iff s o oi hoi).mp h
      rcases hdet with hd | ⟨c1, hc1, hm1⟩
      · exact hz hd
      · rw [hci] at hc1
        cases hc1
        exact hm hm1
    have hprim : is_primary_output s (get_primary_rect s sr) o = false := by
      rw [Bool.eq_false_iff]
      intro h
      obtain ⟨c, hz, hci, hm, _⟩ := (is_primary_output_iff s _ o oi hoi).mp h
      have : is_attached s o = true := (is_attached_iff s o oi hoi).mpr ⟨c, hz, hci, hm⟩
      rw [hatt] at this
      cases this
    refine (hmem _).mpr ⟨o, ho, ?_, detached_not_replica s sr o hatt, ?_⟩
    · simp [is_connected, hoi, hconn]
    · simp [adapter_of_output, hatt, hprim]

/-- Witness for claim C4: on `dualServer` the detached Connected output 52 is
retained with no flag. -/
theorem adapter_id_and_flags_witness :
    xrandr14_get_adapters dualServer 0 =
        some [{ id := 50, state_flags := 5 }, { id := 51, state_flags := 1 },
              { id := 52, state_flags := 0 }] ∧
      ({ id := 52, state_flags := 0 } : x11drv_adapter) ∈
        [({ id := 50, state_flags := 5 } : x11drv_adapter), { id := 51, state_flags := 1 },
              { id := 52, state_flags := 0 }] :=
  ⟨by decide,
    (adapter_id_and_flags dualServer 0 dualResources [50, 51, 52, 53] _ (by decide) (by decide)
      (by decide)).2 52 (by decide)
      { crtc := 0, connection := RR_Connected, crtcs := [21, 22], modes := [3] } (by decide)
      (by decide) (Or.inl rfl)⟩

/-! ## The monitor loop -/

theorem get_monitors_loop_eq (s : Server) (env : Env) (P : RECT) (c : XRRCrtcInfo) :
    ∀ (outs : List Nat) (monitors : List x11drv_monitor) (pi : Int)
      (L : List x11drv_monitor) (pi1 : Int),
      get_monitors_loop s env P c outs monitors pi = some (L, pi1) →
      L = monitors ++ List.replicate
          (outs.filter (shares_geometry s c.x c.y c.width c.height)).length
          (monitor_of_crtc env c) ∧
        (is_crtc_primary P (some c) = false → pi1 = pi) ∧
        (0 ≤ pi → 0 ≤ pi1)
  | [], monitors, pi, L, pi1, h => by
    simp [get_monitors_loop] at h
    simp [h.1, h.2]
  | o :: rest, monitors, pi, L, pi1, h => by
    unfold get_monitors_loop at h
    cases hoi : s.getOutputInfo o with
    | none => simp [hoi] at h
    | some oi =>
      simp only [hoi] at h
      by_cases hc : oi.connection = RR_Connected
      · simp only [hc, ne_eq, not_true_eq_false, if_false] at h
        by_cases hz : oi.crtc = 0
        · simp only [hz, not_true_eq_false, if_false] at h
          have ih := get_monitors_loop_eq s env P c rest _ _ L pi1 h
          have hsh : shares_geometry s c.x c.y c.width c.height o = false := by
            simp [shares_geometry, hoi, hz]
          simpa [List.filter_cons, hsh] using ih
        · simp only [hz, not_false_eq_true, if_true] at h
          cases hci : s.getCrtcInfo oi.crtc with
          | none => simp [hci] at h
          | some ec =>
            simp only [hci] at h
            by_cases hg : ec.x = c.x ∧ ec.y = c.y ∧ ec.width = c.width ∧ ec.height = c.height
            · rw [if_pos hg] at h
              have ih := get_monitors_loop_eq s env P c rest _ _ L pi1 h
              have hsh : shares_geometry s c.x c.y c.width c.height o = true := by
                simp [shares_geometry, hoi, hz, hc, hci, hg]
              obtain ⟨ih1, ih2, ih3⟩ := ih
              refine ⟨?_, ?_, ?_⟩
              · rw [ih1]
                simp [List.filter_cons, hsh, List.replicate_succ, monitor_of_crtc, crtc_rect]
              · intro hp
                have := ih2 hp
                simpa [hp] using this
              · intro hpi
                apply ih3
                split
                · exact Int.natCast_nonneg _
                · exact hpi
            · rw [if_neg hg] at h
              have ih := get_monitors_loop_eq s env P c rest _ _ L pi1 h
              have hsh : shares_geometry s c.x c.y c.width c.height o = false := by
                simp only [shares_geometry, hoi, hci]
                simp [hg]
              simpa [List.filter_cons, hsh] using ih
      · simp only [hc, ne_eq, not_false_eq_true, if_true] at h
        have ih := get_monitors_loop_eq s env P c rest _ _ L pi1 h
        have hsh : shares_geometry s c.x c.y c.width c.height o = false := by
          simp [shares_geometry, hoi, hc]
        simpa [List.filter_cons, hsh] using ih

/-- The list built by the active branch of `xrandr14_get_monitors`: one copy of
the moved monitor record per Connected screen output whose CRTC has the geometry
of the adapter CRTC, the first copy rewritten by the fullscreen hack when the
hack is enabled and the CRTC is primary. -/
theorem get_active_monitors_eq (s : Server) (env : Env) (sr : XRRScreenResources)
    (c : XRRCrtcInfo) (L : List x11drv_monitor)
    (hL : get_active_monitors s env sr c = some L) :
    L = List.replicate (sr.outputs.filter (shares_geometry s c.x c.y c.width c.height)).length
          (offset_monitor (get_primary_rect s sr) (monitor_of_crtc env c)) ∨
      (env.fs_hack_enabled = true ∧ is_crtc_primary (get_primary_rect s sr) (some c) = true ∧
        ∃ rest, L = apply_fs_hack env
              (offset_monitor (get_primary_rect s sr) (monitor_of_crtc env c)) :: rest ∧
          List.replicate (sr.outputs.filter (shares_geometry s c.x c.y c.width c.height)).length
              (offset_monitor (get_primary_rect s sr) (monitor_of_crtc env c)) =
            offset_monitor (get_primary_rect s sr) (monitor_of_crtc env c) :: rest) := by
  unfold get_active_monitors at hL
  simp only at hL
  cases hloop : get_monitors_loop s env (get_primary_rect s sr) c sr.outputs [] (-1) with
  | none => simp [hloop] at hL
  | some r =>
    obtain ⟨A, pi1⟩ := r
    simp only [hloop] at hL
    obtain ⟨hA, hpi, _⟩ := get_monitors_loop_eq s env _ c sr.outputs [] (-1) A pi1 hloop
    simp only [List.nil_append] at hA
    have hswap : (if pi1 > 0 then swapFirst A pi1.toNat else A) = A := by
      split
      · rw [hA]
        exact swapFirst_replicate _ _ _
      · rfl
    rw [hswap, hA, List.map_replicate] at hL
    by_cases hcond : pi1 ≥ 0 ∧ env.fs_hack_enabled = true
    · rw [if_pos hcond] at hL
      have hprim : is_crtc_primary (get_primary_rect s sr) (some c) = true := by
        by_contra hp
        have := hpi (by simpa using hp)
        omega
      cases hk : (sr.outputs.filter (shares_geometry s c.x c.y c.width c.height)).length with
      | zero =>
        rw [hk] at hL
        simp at hL
        left
        simp [← hL]
      | succ k =>
        rw [hk, List.replicate_succ] at hL
        simp only [Option.some.injEq] at hL
        right
        exact ⟨hcond.2, hprim, _, hL.symm, by rw [List.replicate_succ]⟩
    · rw [if_neg hcond] at hL
      simp only [Option.some.injEq] at hL
      left
      exact hL.symm

theorem rc_monitor_offset (env : Env) (P : RECT) (c : XRRCrtcInfo) :
    (offset_monitor P (monitor_of_crtc env c)).rc_monitor =
      OffsetRect (crtc_rect c) (-P.left) (-P.top) := rfl

/-- A successful `xrandr14_get_monitors` on an adapter with an enabled CRTC is
the active branch. -/
theorem xrandr14_get_monitors_active (s : Server) (env : Env) (a : Nat)
    (sr : XRRScreenResources) (oi : XRROutputInfo) (c : XRRCrtcInfo)
    (hsr : xrandr_get_screen_resources s = some sr) (hoi : s.getOutputInfo a = some oi)
    (hz : oi.crtc ≠ 0) (hci : s.getCrtcInfo oi.crtc = some c) (hmode : c.mode ≠ 0) :
    xrandr14_get_monitors s env a = get_active_monitors s env sr c := by
  unfold xrandr14_get_monitors
  simp [hsr, hoi, hz, hci, hmode]

/-! ## Monitors: one per member of the mirror set, rectangles relative to the primary -/

/-- Claim C5, as the code has it: for an adapter whose output has an enabled CRTC
`c`, a successful `xrandr14_get_monitors` returns one monitor per Connected
output of the screen whose CRTC geometry equals the one of `c`; every monitor
after the first has the rectangle of `c` moved to the primary origin, and so has
the first one when the fullscreen hack is disabled or `c` is not primary.  For
an adapter with no CRTC or a disabled CRTC the call returns exactly one monitor,
with flags ATTACHED only and zero rectangles. -/
theorem monitors_of_adapter (s : Server) (env : Env) (a : Nat) (sr : XRRScreenResources)
    (oi : XRROutputInfo)
    (hsr : xrandr_get_screen_resources s = some sr) (hoi : s.getOutputInfo a = some oi) :
    (∀ c L, oi.crtc ≠ 0 → s.getCrtcInfo oi.crtc = some c → c.mode ≠ 0 →
      xrandr14_get_monitors s env a = some L →
      L.length = (sr.outputs.filter (shares_geometry s c.x c.y c.width c.height)).length ∧
      (∀ m ∈ L.tail, m.rc_monitor =
        OffsetRect (crtc_rect c) (-(get_primary_rect s sr).left) (-(get_primary_rect s sr).top)) ∧
      (env.fs_hack_enabled = false ∨ is_crtc_primary (get_primary_rect s sr) (some c) = false →
        ∀ m ∈ L, m.rc_monitor =
          OffsetRect (crtc_rect c) (-(get_primary_rect s sr).left)
            (-(get_primary_rect s sr).top))) ∧
    (oi.crtc = 0 ∨ (∃ c, s.getCrtcInfo oi.crtc = some c ∧ c.mode = 0) →
      ∃ m, xrandr14_get_monitors s env a = some [m] ∧
        m.state_flags = DISPLAY_DEVICE_ATTACHED ∧ m.rc_monitor = zeroRect ∧
        m.rc_work = zeroRect ∧ IsRectEmpty m.rc_monitor = true) := by
  constructor
  · intro c L hz hci hmode hL
    rw [xrandr14_get_monitors_active s env a sr oi c hsr hoi hz hci hmode] at hL
    rcases get_active_monitors_eq s env sr c L hL with h | ⟨hh, hp, rest, hLr, hrep⟩
    · refine ⟨by rw [h, List.length_replicate], ?_, ?_⟩
      · intro m hm
        have hm1 : m ∈ L := List.mem_of_mem_tail hm
        rw [h] at hm1
        rw [(List.mem_replicate.mp hm1).2]
        rfl
      · intro _ m hm
        rw [h] at hm
        rw [(List.mem_replicate.mp hm).2]
        rfl
    · have hlen := congrArg List.length hrep
      rw [List.length_replicate, List.length_cons] at hlen
      refine ⟨by rw [hLr, List.length_cons, hlen], ?_, ?_⟩
      · intro m hm
        rw [hLr, List.tail_cons] at hm
        have hm1 : m ∈ List.replicate
            (sr.outputs.filter (shares_geometry s c.x c.y c.width c.height)).length
            (offset_monitor (get_primary_rect s sr) (monitor_of_crtc env c)) := by
          rw [hrep]
          exact List.mem_cons_of_mem _ hm
        rw [(List.mem_replicate.mp hm1).2]
        rfl
      · intro hor
        rcases hor with hf | hf
        · rw [hh] at hf
          cases hf
        · rw [hp] at hf
          cases hf
  · intro hdet
    refine ⟨inactive_monitor, ?_, rfl, rfl, rfl, by decide⟩
    unfold xrandr14_get_monitors
    rcases hdet with hz | ⟨c, hci, hmode⟩
    · simp [hsr, hoi, hz]
    · by_cases hz : oi.crtc = 0
      · simp [hsr, hoi, hz]
      · simp [hsr, hoi, hz, hci, hmode]

/-- Counterexample to claim C5 as stated: the two mirrored 1280x720 outputs of
`mirrorServer` sit at the primary rectangle; with the fullscreen hack enabled at
800x600 the call for adapter 42 returns two monitors whose rectangles differ,
(0, 0, 800, 600) and (0, 0, 1280, 720). -/
theorem monitors_of_adapter_counterexample :
    (xrandr14_get_monitors mirrorServer hackEnv 42).map (fun l => l.map (fun m => m.rc_monitor)) =
      some [{ left := 0, top := 0, right := 800, bottom := 600 },
            { left := 0, top := 0, right := 1280, bottom := 720 }] := by
  decide

/-- Witness for claim C5: the two mirrored 1280x720 outputs of `mirrorServer`
give two monitors for adapter 42, both at (0, 0, 1280, 720). -/
theorem monitors_of_adapter_witness :
    xrandr14_get_monitors mirrorServer plainEnv 42 =
        some [offset_monitor zeroRect (monitor_of_crtc plainEnv
                { x := 0, y := 0, width := 1280, height := 720, mode := 7, rotation := 1,
                  outputs := [42] }),
              offset_monitor zeroRect (monitor_of_crtc plainEnv
                { x := 0, y := 0, width := 1280, height := 720, mode := 7, rotation := 1,
                  outputs := [42] })] ∧
      ∀ m ∈ [offset_monitor zeroRect (monitor_of_crtc plainEnv
                { x := 0, y := 0, width := 1280, height := 720, mode := 7, rotation := 1,
                  outputs := [42] }),
              offset_monitor zeroRect (monitor_of_crtc plainEnv
                { x := 0, y := 0, width := 1280, height := 720, mode := 7, rotation := 1,
                  outputs := [42] })],
        m.rc_monitor = { left := 0, top := 0, right := 1280, bottom := 720 } :=
  ⟨by decide, fun m hm =>
    (((monitors_of_adapter mirrorServer plainEnv 42 mirrorResources
        { crtc := 10, connection := RR_Connected, crtcs := [10], modes := [7] }
        (by decide) (by decide)).1
      { x := 0, y := 0, width := 1280, height := 720, mode := 7, rotation := 1,
        outputs := [42] } _ (by decide) (by decide) (by decide) (by decide)).2.2
      (Or.inl rfl) m hm).trans (by decide)⟩

/-- Claim C6: with the fullscreen hack disabled, for an adapter whose enabled
CRTC is at (x, y) with size (w, h), every monitor returned by
`xrandr14_get_monitors` has
rc_monitor = (x - P.left, y - P.top, x + w - P.left, y + h - P.top) for the
primary rectangle P; when the CRTC is primary the top-left corner is (0, 0). -/
theorem monitor_rect_relative_to_primary (s : Server) (env : Env) (a : Nat)
    (sr : XRRScreenResources) (oi : XRROutputInfo) (c : XRRCrtcInfo)
    (L : List x11drv_monitor)
    (hhack : env.fs_hack_enabled = false)
    (hsr : xrandr_get_screen_resources s = some sr) (hoi : s.getOutputInfo a = some oi)
    (hz : oi.crtc ≠ 0) (hci : s.getCrtcInfo oi.crtc = some c) (hmode : c.mode ≠ 0)
    (hL : xrandr14_get_monitors s env a = some L) :
    (∀ m ∈ L, m.rc_monitor =
      { left := c.x - (get_primary_rect s sr).left,
        top := c.y - (get_primary_rect s sr).top,
        right := c.x + c.width - (get_primary_rect s sr).left,
        bottom := c.y + c.height - (get_primary_rect s sr).top }) ∧
    (is_crtc_primary (get_primary_rect s sr) (some c) = true →
      ∀ m ∈ L, m.rc_monitor.left = 0 ∧ m.rc_monitor.top = 0) := by
  rw [xrandr14_get_monitors_active s env a sr oi c hsr hoi hz hci hmode] at hL
  have hall : ∀ m ∈ L, m.rc_monitor =
      { left := c.x - (get_primary_rect s sr).left,
        top := c.y - (get_primary_rect s sr).top,
        right := c.x + c.width - (get_primary_rect s sr).left,
        bottom := c.y + c.height - (get_primary_rect s sr).top } := by
    intro m hm
    rcases get_active_monitors_eq s env sr c L hL with h | ⟨hh, _⟩
    · rw [h] at hm
      rw [(List.mem_replicate.mp hm).2, rc_monitor_offset]
      simp only [OffsetRect, crtc_rect, SetRect, RECT.mk.injEq]
      omega
    · rw [hhack] at hh
      cases hh
  refine ⟨hall, ?_⟩
  intro hp m hm
  rw [hall m hm]
  obtain ⟨_, hrect⟩ := (is_crtc_primary_iff _ c).mp hp
  have hl : c.x = (get_primary_rect s sr).left := by
    rw [← hrect]; rfl
  have ht : c.y = (get_primary_rect s sr).top := by
    rw [← hrect]; rfl
  simp only
  omega

/-- Witness for claim C6: on `dualServer` the primary 1920x1080 at (0, 0) gives
(0, 0, 1920, 1080) and the secondary 1280x1024 at (1920, 0) gives
(1920, 0, 3200, 1024). -/
theorem monitor_rect_relative_to_primary_witness :
    (xrandr14_get_monitors dualServer plainEnv 50).map
        (fun l => l.map (fun m => m.rc_monitor)) =
        some [{ left := 0, top := 0, right := 1920, bottom := 1080 }] ∧
      (xrandr14_get_monitors dualServer plainEnv 51).map
        (fun l => l.map (fun m => m.rc_monitor)) =
        some [{ left := 1920, top := 0, right := 3200, bottom := 1024 }] ∧
      ∀ m ∈ [offset_monitor (get_primary_rect dualServer dualResources)
              (monitor_of_crtc plainEnv
                { x := 1920, y := 0, width := 1280, height := 1024, mode := 2, rotation := 1,
                  outputs := [51] })],
        m.rc_monitor =
          { left := 1920 - (get_primary_rect dualServer dualResources).left,
            top := 0 - (get_primary_rect dualServer dualResources).top,
            right := 1920 + (1280 : Nat) - (get_primary_rect dualServer dualResources).left,
            bottom := 0 + (1024 : Nat) - (get_primary_rect dualServer dualResources).top } :=
  ⟨by decide, by decide,
    (monitor_rect_relative_to_primary dualServer plainEnv 51 dualResources
      { crtc := 21, connection := RR_Connected, crtcs := [20, 21, 22], modes := [2, 3, 9] }
      { x := 1920, y := 0, width := 1280, height := 1024, mode := 2, rotation := 1,
        outputs := [51] } _ rfl (by decide) (by decide) (by decide) (by decide) (by decide)
      (by decide)).1⟩

/-! ## GPUs -/

theorem find_primary_crtc_eq_any (s : Server) (P : RECT) :
    ∀ crtcs : List Nat,
      find_primary_crtc s P crtcs = crtcs.any (fun crtc => is_crtc_primary P (s.getCrtcInfo crtc))
  | [] => rfl
  | crtc :: rest => by
    have ih := find_primary_crtc_eq_any s P rest
    unfold find_primary_crtc
    cases hci : s.getCrtcInfo crtc with
    | none => simp [ih, hci, is_crtc_primary]
    | some c =>
      simp only [List.any_cons, hci]
      by_cases hp : is_crtc_primary P (some c) = true
      · simp [hp]
      · simp [hp, ih]

theorem first_primary_provider_cons (s : Server) (P : RECT) (provider : Nat)
    (rest : List Nat) :
    first_primary_provider s P (provider :: rest) =
      if owns_primary_crtc s P provider then some 0
      else (first_primary_provider s P rest).map (fun k => k + 1) := rfl

theorem get_gpus2_loop_eq (s : Server) (env : Env) (gp : Bool) (P : RECT) :
    ∀ (providers : List Nat) (i : Nat) (pp : Int) (gpus G : List x11drv_gpu) (pp1 : Int),
      get_gpus2_loop s env gp P providers i pp gpus = some (G, pp1) →
      G.map (fun g => g.id) = gpus.map (fun g => g.id) ++ providers ∧
        pp1 = if pp = -1 then
            (match first_primary_provider s P providers with
              | some k => ((i + k : Nat) : Int)
              | none => -1)
          else pp
  | [], i, pp, gpus, G, pp1, h => by
    simp [get_gpus2_loop] at h
    obtain ⟨h1, h2⟩ := h
    subst h1 h2
    simp only [first_primary_provider, List.append_nil, true_and]
    split <;> simp_all
  | provider :: rest, i, pp, gpus, G, pp1, h => by
    unfold get_gpus2_loop at h
    cases hpi : s.getProviderInfo provider with
    | none => simp [hpi] at h
    | some info =>
      simp only [hpi] at h
      obtain ⟨ih1, ih2⟩ := get_gpus2_loop_eq s env gp P rest (i + 1) _ _ G pp1 h
      constructor
      · rw [ih1]
        have hid : ∀ g : x11drv_gpu, (if gp = true then
            if (get_gpu_properties_from_vulkan env { zeroGpu with id := provider } info).1 = true
            then (get_gpu_properties_from_vulkan env { zeroGpu with id := provider } info).2
            else { (get_gpu_properties_from_vulkan env { zeroGpu with id := provider } info).2
                    with name := info.name }
            else ({ zeroGpu with id := provider } : x11drv_gpu)).id = provider := by
          intro _
          unfold get_gpu_properties_from_vulkan
          cases env.vulkan info with
          | none => split <;> simp
          | some props => split <;> simp; split <;> simp
        simp [hid zeroGpu]
      · have hown : owns_primary_crtc s P provider = find_primary_crtc s P info.crtcs := by
          simp [owns_primary_crtc, hpi, find_primary_crtc_eq_any]
        rw [first_primary_provider_cons, hown, ih2]
        by_cases hpp : pp = -1
        · by_cases hf : find_primary_crtc s P info.crtcs = true
          · simp [hpp, hf]
          · simp only [hpp, hf, and_false, if_false, if_true]
            cases first_primary_provider s P rest with
            | none => simp
            | some k => simp only [Option.map_some']; push_cast; simp; ring
        · have hi : ((i : Nat) : Int) ≠ -1 := by omega
          simp [hpp]

theorem first_primary_provider_some (s : Server) (P : RECT) :
    ∀ (providers : List Nat) (p : Nat), first_primary_provider s P providers = some p →
      (∃ provider, providers[p]? = some provider ∧ owns_primary_crtc s P provider = true) ∧
        ∀ q, q < p → ∀ provider, providers[q]? = some provider →
          owns_primary_crtc s P provider = false
  | [], p, h => by simp [first_primary_provider] at h
  | provider :: rest, p, h => by
    rw [first_primary_provider_cons] at h
    by_cases hown : owns_primary_crtc s P provider = true
    · rw [if_pos hown] at h
      cases h
      exact ⟨⟨provider, by simp, hown⟩, fun q hq => absurd hq (Nat.not_lt_zero q)⟩
    · rw [if_neg hown] at h
      cases hrest : first_primary_provider s P rest with
      | none => simp [hrest] at h
      | some k =>
        simp [hrest] at h
        subst h
        obtain ⟨⟨pr, hpr, hprown⟩, hbefore⟩ := first_primary_provider_some s P rest k hrest
        refine ⟨⟨pr, by simpa using hpr, hprown⟩, ?_⟩
        intro q hq x hx
        cases q with
        | zero =>
          simp at hx
          subst hx
          simpa using hown
        | succ q =>
          simp at hx
          exact hbefore q (by omega) x hx

/-- Claim C7: with screen resources available and zero providers reported,
`xrandr14_get_gpus2` succeeds and returns exactly one GPU, named "Wine Adapter",
with id 0. -/
theorem zero_providers_one_gpu (s : Server) (env : Env) (get_properties : Bool)
    (sr : XRRScreenResources)
    (hsr : xrandr_get_screen_resources s = some sr)
    (hprov : s.getProviderResources = some []) :
    ∃ gpu, xrandr14_get_gpus2 s env get_properties = some [gpu] ∧
      gpu.name = "Wine Adapter" ∧ gpu.id = 0 := by
  refine ⟨{ zeroGpu with name := "Wine Adapter" }, ?_, rfl, rfl⟩
  unfold xrandr14_get_gpus2
  simp [hsr, hprov]

/-- Witness for claim C7: `dualServer` reports no provider. -/
theorem zero_providers_one_gpu_witness :
    ∃ gpu, xrandr14_get_gpus2 dualServer plainEnv true = some [gpu] ∧
      gpu.name = "Wine Adapter" ∧ gpu.id = 0 :=
  zero_providers_one_gpu dualServer plainEnv true dualResources (by decide) (by decide)

/-- Claim C8: with n >= 1 providers, the GPU ids returned by a successful
`xrandr14_get_gpus2` are the provider ids in declaration order, except that
entries 0 and p are exchanged when p > 0 is the index of the first provider
owning a CRTC that matches the primary rectangle; so GPU 0 is that provider
whenever there is one. -/
theorem gpu_ids_primary_first (s : Server) (env : Env) (get_properties : Bool)
    (sr : XRRScreenResources) (providers : List Nat) (gpus : List x11drv_gpu)
    (hsr : xrandr_get_screen_resources s = some sr)
    (hprov : s.getProviderResources = some providers) (hn : providers ≠ [])
    (hG : xrandr14_get_gpus2 s env get_properties = some gpus) :
    gpus.map (fun g => g.id) = expected_gpu_ids s (get_primary_rect s sr) providers ∧
      ∀ p, first_primary_provider s (get_primary_rect s sr) providers = some p →
        ∃ provider, providers[p]? = some provider ∧
          owns_primary_crtc s (get_primary_rect s sr) provider = true ∧
          (gpus.map (fun g => g.id))[0]? = some provider := by
  unfold xrandr14_get_gpus2 at hG
  have hlen : providers.length ≠ 0 := by
    intro h
    exact hn (List.length_eq_zero.mp h)
  simp only [hsr, hprov, hlen, if_false] at hG
  cases hloop : get_gpus2_loop s env get_properties (get_primary_rect s sr) providers 0 (-1) []
    with
  | none => simp [hloop] at hG
  | some r =>
    obtain ⟨G, pp1⟩ := r
    simp only [hloop, Option.some.injEq] at hG
    obtain ⟨hids, hpp⟩ := get_gpus2_loop_eq s env get_properties _ providers 0 (-1) [] G pp1 hloop
    simp only [List.map_nil, List.nil_append, if_true] at hids hpp
    have hmain : gpus.map (fun g => g.id) =
        expected_gpu_ids s (get_primary_rect s sr) providers := by
      unfold expected_gpu_ids
      cases hf : first_primary_provider s (get_primary_rect s sr) providers with
      | none =>
        simp only [hf] at hpp
        rw [← hG, hpp]
        simpa using hids
      | some k =>
        simp only [hf] at hpp
        rw [← hG, hpp]
        by_cases hk : k > 0
        · have hk1 : ((0 + k : Nat) : Int) > 0 := by omega
          rw [if_pos hk1]
          show _ = if k > 0 then swapFirst providers k else providers
          rw [if_pos hk, swapFirst_map, hids]
          simp
        · have hk1 : ¬ ((0 + k : Nat) : Int) > 0 := by omega
          rw [if_neg hk1]
          show _ = if k > 0 then swapFirst providers k else providers
          rw [if_neg hk, hids]
    refine ⟨hmain, ?_⟩
    intro p hp
    obtain ⟨⟨provider, hprov1, hown⟩, _⟩ := first_primary_provider_some s _ providers p hp
    refine ⟨provider, hprov1, hown, ?_⟩
    rw [hmain]
    unfold expected_gpu_ids
    simp only [hp]
    show (if p > 0 then swapFirst providers p else providers)[0]? = some provider
    by_cases hk : p > 0
    · rw [if_pos hk]
      exact swapFirst_head providers p provider hprov1
    · rw [if_neg hk]
      have : p = 0 := by omega
      subst this
      exact hprov1

/-- Witness for claim C8: on `twoGpuServer` the second provider, 8, drives the
primary CRTC and is returned as GPU 0. -/
theorem gpu_ids_primary_first_witness :
    xrandr14_get_gpus2 twoGpuServer plainEnv true =
        some [{ id := 8, name := "NVIDIA-0", vendor_id := 0, device_id := 0, vulkan_uuid := 0 },
              { id := 7, name := "modesetting", vendor_id := 0, device_id := 0,
                vulkan_uuid := 0 }] ∧
      ([{ id := 8, name := "NVIDIA-0", vendor_id := 0, device_id := 0, vulkan_uuid := 0 },
        { id := 7, name := "modesetting", vendor_id := 0, device_id := 0,
          vulkan_uuid := 0 }] : List x11drv_gpu).map (fun g => g.id) =
        expected_gpu_ids twoGpuServer (get_primary_rect twoGpuServer twoGpuResources) [7, 8] ∧
      expected_gpu_ids twoGpuServer (get_primary_rect twoGpuServer twoGpuResources) [7, 8] =
        [8, 7] :=
  ⟨by decide,
    (gpu_ids_primary_first twoGpuServer plainEnv true twoGpuResources [7, 8]
      [{ id := 8, name := "NVIDIA-0", vendor_id := 0, device_id := 0, vulkan_uuid := 0 },
        { id := 7, name := "modesetting", vendor_id := 0, device_id := 0, vulkan_uuid := 0 }]
      (by decide) (by decide) (by decide) (by decide)).1,
    by decide⟩

/-! ## Guest modes of an output -/

theorem find_mode_info_eq_find (id : Nat) :
    ∀ modes : List XRRModeInfo,
      find_mode_info modes id = modes.find? (fun m => decide (m.id = id))
  | [] => rfl
  | m :: rest => by
    have ih := find_mode_info_eq_find id rest
    unfold find_mode_info
    by_cases h : id = m.id
    · simp [h]
    · have h1 : ¬ m.id = id := fun e => h e.symm
      simp [h, h1, ih]

theorem find_mode_info_id (id : Nat) (info : XRRModeInfo) :
    ∀ modes : List XRRModeInfo, find_mode_info modes id = some info → info.id = id ∧ info ∈ modes
  | [], h => by simp [find_mode_info] at h
  | m :: rest, h => by
    unfold find_mode_info at h
    by_cases hid : id = m.id
    · simp [hid] at h
      subst h
      exact ⟨hid.symm, by simp⟩
    · simp [hid] at h
      obtain ⟨h1, h2⟩ := find_mode_info_id id info rest h
      exact ⟨h1, List.mem_cons_of_mem _ h2⟩

theorem add_depth_modes_eq (info : XRRModeInfo) (f : Nat) :
    ∀ (depths : List Nat) (modes : List DEVMODEW),
      add_depth_modes info f depths modes =
        modes ++ depths.map (fun depth => add_xrandr14_mode zeroDevmode info depth f)
  | [], modes => by simp [add_depth_modes]
  | d :: rest, modes => by
    simp [add_depth_modes, add_depth_modes_eq info f rest]

theorem get_modes_loop_eq (env : Env) (sr : XRRScreenResources) :
    ∀ (ids : List Nat) (modes L : List DEVMODEW),
      get_modes_loop env sr ids modes = some L →
      L = modes ++ (found_modes sr ids).flatMap (guest_modes_of env) ∧
        ∀ info ∈ found_modes sr ids, ∃ f, get_frequency info = some f
  | [], modes, L, h => by
    simp [get_modes_loop] at h
    simp [found_modes, h]
  | id :: rest, modes, L, h => by
    unfold get_modes_loop at h
    cases hfind : find_mode_info sr.modes id with
    | none =>
      simp only [hfind] at h
      have ih := get_modes_loop_eq env sr rest modes L h
      have hnone : sr.modes.find? (fun m => decide (m.id = id)) = none := by
        rw [← find_mode_info_eq_find, hfind]
      simpa [found_modes, List.filterMap_cons, hnone] using ih
    | some info =>
      simp only [hfind] at h
      have hsome : sr.modes.find? (fun m => decide (m.id = id)) = some info := by
        rw [← find_mode_info_eq_find, hfind]
      cases hf : get_frequency info with
      | none => simp [hf] at h
      | some f =>
        simp only [hf] at h
        obtain ⟨ih1, ih2⟩ := get_modes_loop_eq env sr rest _ L h
        have hfm : found_modes sr (id :: rest) = info :: found_modes sr rest := by
          simp [found_modes, List.filterMap_cons, hsome]
        rw [hfm]
        constructor
        · rw [ih1, add_depth_modes_eq]
          simp [List.flatMap_cons, guest_modes_of, hf]
        · intro x hx
          rcases List.mem_cons.mp hx with rfl | hx
          · exact ⟨f, hf⟩
          · exact ih2 x hx

theorem add_xrandr14_mode_fields (info : XRRModeInfo) (depth f : Nat) :
    (add_xrandr14_mode zeroDevmode info depth f).dmPelsWidth = info.width ∧
      (add_xrandr14_mode zeroDevmode info depth f).dmPelsHeight = info.height ∧
      (add_xrandr14_mode zeroDevmode info depth f).dmDisplayFrequency = f ∧
      (add_xrandr14_mode zeroDevmode info depth f).dmBitsPerPel = depth ∧
      (add_xrandr14_mode zeroDevmode info depth f).rrmode = info.id ∧
      (add_xrandr14_mode zeroDevmode info depth f).dmDriverExtra = sizeof_RRMode := by
  unfold add_xrandr14_mode
  by_cases hf : f = 0
  · simp [hf, zeroDevmode]
  · simp [hf]

theorem found_modes_id (sr : XRRScreenResources) (ids : List Nat) (info : XRRModeInfo)
    (h : info ∈ found_modes sr ids) : info.id ∈ ids ∧ info ∈ sr.modes := by
  unfold found_modes at h
  obtain ⟨id, hid, hfind⟩ := List.mem_filterMap.mp h
  have h1 := List.find?_some hfind
  have h2 := List.mem_of_find?_eq_some hfind
  simp at h1
  rw [h1]
  exact ⟨hid, h2⟩

theorem found_modes_find (sr : XRRScreenResources) (ids : List Nat) (info : XRRModeInfo)
    (h : info ∈ found_modes sr ids) : find_mode_info sr.modes info.id = some info := by
  unfold found_modes at h
  obtain ⟨id, _, hfind⟩ := List.mem_filterMap.mp h
  have h1 := List.find?_some hfind
  simp at h1
  rw [find_mode_info_eq_find, h1]
  exact hfind

theorem find_free_crtc_some (s : Server) (crtc : Nat) :
    ∀ crtcs : List Nat, find_free_crtc s crtcs = some (some crtc) →
      crtc ∈ crtcs ∧ ∃ ci, s.getCrtcInfo crtc = some ci ∧ ci.outputs = []
  | [], h => by simp [find_free_crtc] at h
  | c :: rest, h => by
    unfold find_free_crtc at h
    cases hci : s.getCrtcInfo c with
    | none => simp [hci] at h
    | some ci =>
      simp only [hci] at h
      by_cases hfree : ci.outputs.length = 0
      · simp [hfree] at h
        subst h
        exact ⟨by simp, ci, hci, List.length_eq_zero.mp hfree⟩
      · simp [hfree] at h
        obtain ⟨h1, h2⟩ := find_free_crtc_some s crtc rest h
        exact ⟨List.mem_cons_of_mem _ h1, h2⟩

theorem set_screen_size_accepts (s : Server) (w h : Int) :
    (set_screen_size s w h).1.acceptsCrtcConfig = s.acceptsCrtcConfig := rfl

theorem apply_crtc_config_accepts (s : Server) (cfg : CrtcConfig) :
    (apply_crtc_config s cfg).acceptsCrtcConfig = s.acceptsCrtcConfig := rfl

/-- What a successful `xrandr14_set_current_mode` leaves behind: the target CRTC
is a real one, it now runs the requested mode, and the output is driven by it. -/
theorem set_current_mode_success (s : Server) (a : Nat) (m : DEVMODEW)
    (sr : XRRScreenResources) (oi : XRROutputInfo)
    (hsr : xrandr_get_screen_resources s = some sr) (hoi : s.getOutputInfo a = some oi)
    (hcrtcs : ∀ c ∈ oi.crtcs, c ≠ 0)
    (hdriven : ∀ c, oi.crtc ≠ 0 → s.getCrtcInfo oi.crtc = some c → c.outputs ≠ [] →
      a ∈ c.outputs)
    (hset : (xrandr14_set_current_mode s a m).ret = some DISP_CHANGE_SUCCESSFUL) :
    xrandr_get_screen_resources (xrandr14_set_current_mode s a m).server = some sr ∧
      ∃ crtc c, crtc ≠ 0 ∧
        (xrandr14_set_current_mode s a m).server.getOutputInfo a =
          some { oi with crtc := crtc } ∧
        oi.connection = RR_Connected ∧
        (xrandr14_set_current_mode s a m).server.getCrtcInfo crtc = some c ∧
        c.mode = m.rrmode := by
  unfold xrandr14_set_current_mode at hset ⊢
  simp only [hsr, hoi] at hset ⊢
  by_cases hconn : oi.connection = RR_Connected
  swap
  · simp [hconn, set_mode_done, DISP_CHANGE_FAILED, DISP_CHANGE_SUCCESSFUL] at hset
  simp only [hconn, ne_eq, not_true_eq_false, if_false] at hset ⊢
  cases hsel : (if oi.crtc ≠ 0 then some (some oi.crtc) else find_free_crtc s oi.crtcs) with
  | none =>
    simp only [ne_eq] at hsel
    simp [hsel, set_mode_done, DISP_CHANGE_FAILED, DISP_CHANGE_SUCCESSFUL] at hset
  | some sel =>
    simp only [ne_eq] at hsel
    cases sel with
    | none => simp [hsel, set_mode_done, DISP_CHANGE_FAILED, DISP_CHANGE_SUCCESSFUL] at hset
    | some crtc =>
      simp only [hsel] at hset ⊢
      cases hci : s.getCrtcInfo crtc with
      | none => simp [hci, set_mode_done, DISP_CHANGE_FAILED, DISP_CHANGE_SUCCESSFUL] at hset
      | some ci =>
        simp only [hci] at hset ⊢
        by_cases hext : m.dmDriverExtra = sizeof_RRMode
        swap
        · simp [hext] at hset
        simp only [hext, ne_eq, not_true_eq_false, if_false] at hset ⊢
        -- the target CRTC and the outputs of the enabling request
        have hcrtc : crtc ≠ 0 ∧
            a ∈ (if ¬ ci.outputs.length = 0 then ci.outputs else [a]) := by
          by_cases hz : oi.crtc = 0
          · simp only [hz, not_true_eq_false, if_false] at hsel
            obtain ⟨hmem, ci1, hci1, hfree⟩ := find_free_crtc_some s crtc oi.crtcs hsel
            rw [hci] at hci1
            cases hci1
            exact ⟨hcrtcs crtc hmem, by simp [hfree]⟩
          · simp only [hz, not_false_eq_true, if_true, Option.some.injEq] at hsel
            subst hsel
            refine ⟨hz, ?_⟩
            by_cases hout : ¬ ci.outputs.length = 0
            · rw [if_pos hout]
              exact hdriven ci hz hci (fun h => hout (by simp [h]))
            · rw [if_neg hout]
              simp
        obtain ⟨hcz, hain⟩ := hcrtc
        generalize (if ¬ ci.outputs.length = 0 then ci.outputs else [a]) = outs at hset hain ⊢
        generalize (if ¬ ci.outputs.length = 0 then ci.rotation else RR_Rotate_0) = rot
          at hset ⊢
        unfold XRRSetCrtcConfig at hset ⊢
        simp only [set_screen_size_accepts, apply_crtc_config_accepts] at hset ⊢
        by_cases hacc1 : s.acceptsCrtcConfig
            { crtc := crtc, x := 0, y := 0, mode := 0, rotation := RR_Rotate_0, outputs := [] }
              = true
        swap
        · simp [hacc1, set_mode_done, DISP_CHANGE_FAILED, DISP_CHANGE_SUCCESSFUL,
            RRSetConfigFailed, RRSetConfigSuccess] at hset
        simp only [hacc1, if_true, ne_eq, not_true_eq_false, if_false, set_screen_size_accepts,
          apply_crtc_config_accepts] at hset ⊢
        by_cases hacc2 : s.acceptsCrtcConfig
            { crtc := crtc, x := ci.x, y := ci.y, mode := m.rrmode, rotation := rot,
              outputs := outs } = true
        swap
        · simp [hacc2, set_mode_done, DISP_CHANGE_FAILED, DISP_CHANGE_SUCCESSFUL,
            RRSetConfigFailed, RRSetConfigSuccess] at hset
        simp only [hacc2, if_true]
        refine ⟨?_, crtc, ?_⟩
        · simp only [set_mode_done, set_screen_size, XRRSetScreenSize, apply_crtc_config,
            xrandr_get_screen_resources] at hsr ⊢
          exact hsr
        · simp only [set_mode_done, set_screen_size, XRRSetScreenSize, apply_crtc_config, hci,
            hoi, Option.map_some', if_true, List.not_mem_nil, if_false]
          simp only [hain, if_true]
          refine ⟨_, hcz, ?_, ?_, rfl, rfl⟩
          · split <;> simp [hconn]
          · trivial

/-- Claim C10: let `m` be a guest mode returned by `xrandr14_get_modes` for the
Connected output `a`, in a server state where no mode of the table and no
candidate CRTC has the id None and where the CRTC that drives `a` lists `a`
among its outputs.  If `xrandr14_set_current_mode a m` returns
DISP_CHANGE_SUCCESSFUL, the server applying each accepted request, then
`xrandr14_get_current_mode a` on the resulting server succeeds and reports the
width, height and display frequency of `m`. -/
theorem set_then_get_current_mode (s : Server) (env : Env) (a flags : Nat)
    (sr : XRRScreenResources) (oi : XRROutputInfo) (L : List DEVMODEW) (m mode : DEVMODEW)
    (hsr : xrandr_get_screen_resources s = some sr) (hoi : s.getOutputInfo a = some oi)
    (hmodes : ∀ info ∈ sr.modes, info.id ≠ 0)
    (hcrtcs : ∀ c ∈ oi.crtcs, c ≠ 0)
    (hdriven : ∀ c, oi.crtc ≠ 0 → s.getCrtcInfo oi.crtc = some c → c.outputs ≠ [] →
      a ∈ c.outputs)
    (hL : xrandr14_get_modes s env a flags = some L) (hm : m ∈ L)
    (hset : (xrandr14_set_current_mode s a m).ret = some DISP_CHANGE_SUCCESSFUL) :
    ∃ cur, xrandr14_get_current_mode (xrandr14_set_current_mode s a m).server env a mode =
        some cur ∧
      cur.dmPelsWidth = m.dmPelsWidth ∧ cur.dmPelsHeight = m.dmPelsHeight ∧
      cur.dmDisplayFrequency = m.dmDisplayFrequency := by
  obtain ⟨hsr1, crtc, c, hcz, hoi1, hconn, hci1, hmode⟩ :=
    set_current_mode_success s a m sr oi hsr hoi hcrtcs hdriven hset
  unfold xrandr14_get_modes at hL
  simp only [hsr, hoi, hconn, ne_eq, not_true_eq_false, if_false] at hL
  obtain ⟨hLeq, hfreq⟩ := get_modes_loop_eq env sr oi.modes [] L hL
  rw [hLeq, List.nil_append] at hm
  obtain ⟨info, hinfo, hmem⟩ := List.mem_flatMap.mp hm
  obtain ⟨depth, _, rfl⟩ := List.mem_map.mp hmem
  obtain ⟨f, hf⟩ := hfreq info hinfo
  have hgetD : (get_frequency info).getD 0 = f := by rw [hf]; rfl
  rw [hgetD] at hmode hci1 hoi1 hsr1 ⊢
  have hfind := found_modes_find sr oi.modes info hinfo
  have hid : info.id ≠ 0 := hmodes info (found_modes_id sr oi.modes info hinfo).2
  obtain ⟨hw, hh, hfr, _, hrr, _⟩ := add_xrandr14_mode_fields info depth f
  rw [hrr] at hmode
  rw [hw, hh, hfr]
  unfold xrandr14_get_current_mode
  simp only [hsr1, hoi1, hcz, ne_eq, not_false_eq_true, hci1, true_and, if_true, if_false,
    hconn, not_true_eq_false, false_or, hmode, hid, hfind, hf]
  simp

/-- Witness for claim C10: on `dualServer`, setting output 50 to the 800x600
guest mode returned for it and reading the current mode back gives 800x600 at
60 Hz. -/
theorem set_then_get_current_mode_witness :
    (xrandr14_set_current_mode dualServer 50
        (add_xrandr14_mode zeroDevmode
          { id := 3, width := 800, height := 600, dotClock := 40000000, hTotal := 1056,
            vTotal := 628, modeFlags := 0 } 32 60)).ret = some DISP_CHANGE_SUCCESSFUL ∧
      ∃ cur, xrandr14_get_current_mode
          (xrandr14_set_current_mode dualServer 50
            (add_xrandr14_mode zeroDevmode
              { id := 3, width := 800, height := 600, dotClock := 40000000, hTotal := 1056,
                vTotal := 628, modeFlags := 0 } 32 60)).server plainEnv 50 zeroDevmode =
            some cur ∧
        cur.dmPelsWidth = 800 ∧ cur.dmPelsHeight = 600 ∧ cur.dmDisplayFrequency = 60 :=
  ⟨by decide,
    set_then_get_current_mode dualServer plainEnv 50 0 dualResources
      { crtc := 20, connection := RR_Connected, crtcs := [20, 21, 22], modes := [1, 2, 3] }
      _
      (add_xrandr14_mode zeroDevmode
        { id := 3, width := 800, height := 600, dotClock := 40000000, hTotal := 1056,
          vTotal := 628, modeFlags := 0 } 32 60)
      zeroDevmode (by decide) (by decide) (by decide) (by decide)
      (fun c _ hc _ => by
        cases hc
        decide)
      (show xrandr14_get_modes dualServer plainEnv 50 0 =
        some ((found_modes dualResources [1, 2, 3]).flatMap (guest_modes_of plainEnv))
        by decide)
      (by decide) (by decide)⟩


/-! ## When the enumerations return -/

theorem ite_ite_returns {α : Type} (A B : Prop) [Decidable A] [Decidable B]
    (X Y Z : Option α) (hX : ∃ r, X = some r) (hY : ∃ r, Y = some r) (hZ : ∃ r, Z = some r) :
    ∃ r, (if A then if B then X else Y else Z) = some r := by
  by_cases hA : A
  · by_cases hB : B
    · simpa [hA, hB] using hX
    · simpa [hA, hB] using hY
  · simpa [hA] using hZ

theorem get_adapters_loop_returns (s : Server) (sr : XRRScreenResources) (P : RECT) :
    ∀ (outs : List Nat) (adapters : List x11drv_adapter) (pa : Nat),
      (∀ o ∈ outs, output_answers s o) →
      ∃ r, get_adapters_loop s sr P outs adapters pa = some r
  | [], adapters, pa, _ => ⟨_, rfl⟩
  | o :: rest, adapters, pa, h => by
    have hrest : ∀ x ∈ rest, output_answers s x := fun x hx => h x (List.mem_cons_of_mem _ hx)
    obtain ⟨oi, hoi, hcrtc⟩ := h o (by simp)
    unfold get_adapters_loop
    simp only [hoi]
    by_cases hc : oi.connection = RR_Connected
    · have hcond : ¬ (oi.crtc ≠ 0 ∧ s.getCrtcInfo oi.crtc = none) :=
        fun hh => hcrtc hc hh.1 hh.2
      simp only [hc, ne_eq, not_true_eq_false, if_false]
      rw [if_neg (by simpa using hcond)]
      apply ite_ite_returns
      · exact get_adapters_loop_returns s sr P rest _ _ hrest
      · exact get_adapters_loop_returns s sr P rest _ _ hrest
      · exact get_adapters_loop_returns s sr P rest _ _ hrest
    · simp only [hc, ne_eq, not_false_eq_true, if_true]
      exact get_adapters_loop_returns s sr P rest _ _ hrest

/-- The call `xrandr14_get_adapters` succeeds when the screen resources and the
output list are available and the server answers for every enumerated output. -/
theorem xrandr14_get_adapters_returns (s : Server) (gpu_id : Nat) (sr : XRRScreenResources)
    (outs : List Nat)
    (hsr : xrandr_get_screen_resources s = some sr)
    (houts : enumerated_outputs s sr gpu_id = some outs)
    (hans : ∀ o ∈ outs, output_answers s o) :
    ∃ L, xrandr14_get_adapters s gpu_id = some L := by
  obtain ⟨r, hr⟩ := get_adapters_loop_returns s sr (get_primary_rect s sr) outs [] 0 hans
  unfold xrandr14_get_adapters
  simp only [hsr, houts, hr]
  exact ⟨_, rfl⟩

theorem get_monitors_loop_returns (s : Server) (env : Env) (P : RECT) (c : XRRCrtcInfo) :
    ∀ (outs : List Nat) (monitors : List x11drv_monitor) (pi : Int),
      (∀ o ∈ outs, output_answers s o) →
      ∃ r, get_monitors_loop s env P c outs monitors pi = some r
  | [], monitors, pi, _ => ⟨_, rfl⟩
  | o :: rest, monitors, pi, h => by
    have hrest : ∀ x ∈ rest, output_answers s x := fun x hx => h x (List.mem_cons_of_mem _ hx)
    obtain ⟨oi, hoi, hcrtc⟩ := h o (by simp)
    unfold get_monitors_loop
    simp only [hoi]
    by_cases hc : oi.connection = RR_Connected
    · simp only [hc, ne_eq, not_true_eq_false, if_false]
      by_cases hz : oi.crtc = 0
      · simp only [hz, not_true_eq_false, if_false]
        exact get_monitors_loop_returns s env P c rest _ _ hrest
      · simp only [hz, not_false_eq_true, if_true]
        cases hci : s.getCrtcInfo oi.crtc with
        | none => exact absurd hci (hcrtc hc hz)
        | some ec =>
          simp only
          split
          · exact get_monitors_loop_returns s env P c rest _ _ hrest
          · exact get_monitors_loop_returns s env P c rest _ _ hrest
    · simp only [hc, ne_eq, not_false_eq_true, if_true]
      exact get_monitors_loop_returns s env P c rest _ _ hrest

/-- The call `xrandr14_get_monitors` succeeds for an adapter with an enabled
CRTC when the server answers for every output of the screen. -/
theorem xrandr14_get_monitors_returns (s : Server) (env : Env) (a : Nat)
    (sr : XRRScreenResources) (oi : XRROutputInfo) (c : XRRCrtcInfo)
    (hsr : xrandr_get_screen_resources s = some sr) (hoi : s.getOutputInfo a = some oi)
    (hz : oi.crtc ≠ 0) (hci : s.getCrtcInfo oi.crtc = some c) (hmode : c.mode ≠ 0)
    (hans : ∀ o ∈ sr.outputs, output_answers s o) :
    ∃ L, xrandr14_get_monitors s env a = some L := by
  rw [xrandr14_get_monitors_active s env a sr oi c hsr hoi hz hci hmode]
  obtain ⟨r, hr⟩ := get_monitors_loop_returns s env (get_primary_rect s sr) c sr.outputs [] (-1)
    hans
  unfold get_active_monitors
  simp only [hr]
  split
  · split
    · exact ⟨_, rfl⟩
    · exact ⟨_, rfl⟩
  · exact ⟨_, rfl⟩

theorem get_modes_loop_returns (env : Env) (sr : XRRScreenResources) :
    ∀ (ids : List Nat) (modes : List DEVMODEW),
      (∀ info ∈ found_modes sr ids, ∃ f, get_frequency info = some f) →
      ∃ L, get_modes_loop env sr ids modes = some L
  | [], modes, _ => ⟨_, rfl⟩
  | id :: rest, modes, h => by
    unfold get_modes_loop
    cases hfind : find_mode_info sr.modes id with
    | none =>
      have hnone : sr.modes.find? (fun m => decide (m.id = id)) = none := by
        rw [← find_mode_info_eq_find, hfind]
      have hfm : found_modes sr (id :: rest) = found_modes sr rest := by
        simp [found_modes, List.filterMap_cons, hnone]
      rw [hfm] at h
      exact get_modes_loop_returns env sr rest modes h
    | some info =>
      have hsome : sr.modes.find? (fun m => decide (m.id = id)) = some info := by
        rw [← find_mode_info_eq_find, hfind]
      have hfm : found_modes sr (id :: rest) = info :: found_modes sr rest := by
        simp [found_modes, List.filterMap_cons, hsome]
      rw [hfm] at h
      obtain ⟨f, hf⟩ := h info (by simp)
      simp only [hf]
      exact get_modes_loop_returns env sr rest _ (fun x hx => h x (List.mem_cons_of_mem _ hx))

/-- The call `xrandr14_get_modes` returns for a Connected output when
`get_frequency` is defined on every supported mode found in the mode table. -/
theorem xrandr14_get_modes_returns (s : Server) (env : Env) (id flags : Nat)
    (sr : XRRScreenResources) (oi : XRROutputInfo)
    (hsr : xrandr_get_screen_resources s = some sr) (hoi : s.getOutputInfo id = some oi)
    (hconn : oi.connection = RR_Connected)
    (hfreq : ∀ info ∈ found_modes sr oi.modes, ∃ f, get_frequency info = some f) :
    ∃ L, xrandr14_get_modes s env id flags = some L := by
  unfold xrandr14_get_modes
  simp only [hsr, hoi, hconn, ne_eq, not_true_eq_false, if_false]
  exact get_modes_loop_returns env sr oi.modes [] hfreq


/-! ## Device names -/

/-- The adapter loop of `xrandr14_get_id` indexes the concatenation of the adapter lists. -/
theorem get_id_loop_eq (s : Server) (display_idx : Int) :
    ∀ (gpus : List x11drv_gpu) (display_count : Int) (all : List x11drv_adapter),
      all_adapters s gpus = some all → display_count ≤ display_idx →
      get_id_loop s display_idx gpus display_count =
        match all[(display_idx - display_count).toNat]? with
        | some adapter => GetIdResult.found adapter.id
        | none => GetIdResult.failure
  | [], dc, all, hall, _ => by
    simp [all_adapters] at hall
    subst hall
    simp [get_id_loop]
  | gpu :: rest, dc, all, hall, hle => by
    unfold all_adapters at hall
    cases ha : xrandr14_get_adapters s gpu.id with
    | none => simp [ha] at hall
    | some adapters =>
      cases hb : all_adapters s rest with
      | none => simp [ha, hb] at hall
      | some others =>
        simp only [ha, hb, Option.some.injEq] at hall
        subst hall
        unfold get_id_loop
        simp only [ha]
        by_cases hlt : display_idx - dc < adapters.length
        · have hnn : ¬ display_idx - dc < 0 := by omega
          have hidx : (display_idx - dc).toNat < adapters.length := by omega
          rw [if_pos hlt, if_neg hnn, List.getElem?_append_left hidx]
          cases hget : adapters[(display_idx - dc).toNat]? with
          | none =>
            rw [List.getElem?_eq_none_iff] at hget
            omega
          | some a => rfl
        · rw [if_neg hlt]
          have ih := get_id_loop_eq s display_idx rest (dc + adapters.length) others hb
            (by omega)
          rw [ih]
          have hge : adapters.length ≤ (display_idx - dc).toNat := by omega
          rw [List.getElem?_append_right hge]
          have : (display_idx - (dc + adapters.length)).toNat =
              (display_idx - dc).toNat - adapters.length := by omega
          rw [this]

theorem toINT_of_range (z : Int) (h0 : 0 ≤ z) (h1 : z < 2 ^ 31) : toINT z = z := by
  unfold toINT Int.bmod
  have : z % ((2 ^ 32 : Nat) : Int) = z := Int.emod_eq_of_lt h0 (by norm_num; omega)
  rw [this]
  norm_num
  omega


/-- Within the range of the 32-bit `display_idx`, `xrandr14_get_id` does what
it is meant to do: let the text after the 11-character prefix parse fully as
the number N with 1 <= N <= 2^31, let `xrandr14_get_gpus2` succeed and let T be
the length of the concatenation of the adapter lists of the GPUs in enumeration
order.  Then the call returns the id of the N-th adapter (1-based) of the
concatenation when N <= T, and failure when N > T. -/
theorem get_id_nth_adapter (s : Server) (env : Env) (device_name : List Char) (N : Int)
    (gpus : List x11drv_gpu) (all : List x11drv_adapter)
    (hparse : strtolW (device_name.drop 11) = (N, []))
    (hN1 : 1 ≤ N) (hN2 : N ≤ 2 ^ 31)
    (hgpus : xrandr14_get_gpus2 s env false = some gpus)
    (hall : all_adapters s gpus = some all) :
    (N ≤ all.length →
      ∃ adapter, all[(N - 1).toNat]? = some adapter ∧
        xrandr14_get_id s env device_name = GetIdResult.found adapter.id) ∧
    ((all.length : Int) < N → xrandr14_get_id s env device_name = GetIdResult.failure) := by
  have hidx : toINT (N - 1) = N - 1 := toINT_of_range (N - 1) (by omega) (by omega)
  have hget : xrandr14_get_id s env device_name =
      match all[(N - 1).toNat]? with
      | some adapter => GetIdResult.found adapter.id
      | none => GetIdResult.failure := by
    unfold xrandr14_get_id
    simp only [hparse, hidx, ne_eq, not_true_eq_false, if_false, hgpus]
    rw [get_id_loop_eq s (N - 1) gpus 0 all hall (by omega)]
    simp
  constructor
  · intro hle
    have hlt : (N - 1).toNat < all.length := by omega
    refine ⟨all[(N - 1).toNat], List.getElem?_eq_getElem hlt, ?_⟩
    rw [hget, List.getElem?_eq_getElem hlt]
  · intro hgt
    rw [hget, List.getElem?_eq_none (by omega)]

/-- The statement `get_id_nth_adapter` on `dualServer`, which has one GPU with
the adapters 50, 51 and 52: display 2 is adapter 51 and display 4 does not
exist. -/
theorem get_id_nth_adapter_witness :
    xrandr14_get_id dualServer plainEnv "\\\\.\\DISPLAY2".toList = GetIdResult.found 51 ∧
      xrandr14_get_id dualServer plainEnv "\\\\.\\DISPLAY4".toList = GetIdResult.failure ∧
      ∃ adapter,
        [({ id := 50, state_flags := 5 } : x11drv_adapter), { id := 51, state_flags := 1 },
          { id := 52, state_flags := 0 }][((2 : Int) - 1).toNat]? = some adapter ∧
        xrandr14_get_id dualServer plainEnv "\\\\.\\DISPLAY2".toList =
          GetIdResult.found adapter.id :=
  ⟨by decide, by decide,
    (get_id_nth_adapter dualServer plainEnv "\\\\.\\DISPLAY2".toList 2
      [{ id := 0, name := "Wine Adapter", vendor_id := 0, device_id := 0, vulkan_uuid := 0 }]
      [{ id := 50, state_flags := 5 }, { id := 51, state_flags := 1 },
        { id := 52, state_flags := 0 }]
      (by decide) (by decide) (by decide) (by decide) (by decide)).1 (by decide)⟩

/-- Claim C11, on the code: `dualServer` has T = 3 adapters, and the names
with N = 2^32 + 1, N = 2^32 and N = 2^31 + 1 parse fully with N > T.  The
`long` N - 1 is narrowed into the 32-bit `display_idx` without a check: for
N = 2^32 + 1 it becomes 0 and the call returns TRUE with the id of the first
adapter; for N = 2^32 and N = 2^31 + 1 it becomes negative and the call
returns TRUE with an id read in front of the adapter array.  The claim asks for
failure in all three cases. -/
theorem get_id_narrowed_display :
    strtolW ("\\\\.\\DISPLAY4294967297".toList.drop 11) = (4294967297, []) ∧
      (all_adapters dualServer
          [{ id := 0, name := "Wine Adapter", vendor_id := 0, device_id := 0,
             vulkan_uuid := 0 }]).map List.length = some 3 ∧
      xrandr14_get_id dualServer plainEnv "\\\\.\\DISPLAY4294967297".toList =
        GetIdResult.found 50 ∧
      xrandr14_get_id dualServer plainEnv "\\\\.\\DISPLAY4294967296".toList =
        GetIdResult.out_of_bounds (-1) ∧
      xrandr14_get_id dualServer plainEnv "\\\\.\\DISPLAY2147483649".toList =
        GetIdResult.out_of_bounds (-2147483648) := by
  decide

/-- Claim C12, on the code: for the names with the number 0, with no digits and
with a negative number `xrandr14_get_id` does not return failure; the text
parses fully, `display_idx` is negative, `adapter_idx < adapter_count` holds
and the call returns TRUE with an id read in front of the adapter array.  A
name with trailing characters after the number is refused. -/
theorem get_id_nonpositive_display :
    xrandr14_get_id dualServer plainEnv "\\\\.\\DISPLAY0".toList =
        GetIdResult.out_of_bounds (-1) ∧
      xrandr14_get_id dualServer plainEnv "\\\\.\\DISPLAY".toList =
        GetIdResult.out_of_bounds (-1) ∧
      xrandr14_get_id dualServer plainEnv "\\\\.\\DISPLAY-3".toList =
        GetIdResult.out_of_bounds (-4) ∧
      xrandr14_get_id dualServer plainEnv "\\\\.\\DISPLAY1x".toList = GetIdResult.failure := by
  decide

/-- A name whose number is followed by further characters is refused before any
GPU or adapter is read. -/
theorem get_id_trailing_text (s : Server) (env : Env) (device_name : List Char)
    (h : (strtolW (device_name.drop 11)).2 ≠ []) :
    xrandr14_get_id s env device_name = GetIdResult.failure := by
  unfold xrandr14_get_id
  simp [h]



/-! ## The XRandR 1.0 and 1.2 settings handlers -/

theorem normalize_mode_lt (mode : Int) (count : Nat) (h : 0 < count) :
    normalize_mode mode count < count :=
  Nat.mod_lt _ h

theorem toUInt_lt (z : Int) : toUInt z < 2 ^ 32 := by
  unfold toUInt
  have h1 : 0 ≤ z % 2 ^ 32 := Int.emod_nonneg z (by norm_num)
  have h2 : z % 2 ^ 32 < 2 ^ 32 := Int.emod_lt_of_pos z (by norm_num)
  omega

theorem toUInt_of_nonneg (z : Int) (h0 : 0 ≤ z) (h1 : z < 2 ^ 32) : toUInt z = z.toNat := by
  unfold toUInt
  rw [Int.emod_eq_of_lt h0 h1]

theorem toUInt_natCast (n : Nat) (h : n < 2 ^ 32) : toUInt (n : Int) = n := by
  rw [toUInt_of_nonneg (n : Int) (by omega) (by omega)]
  simp

theorem normalize_mode_idem (mode : Int) (count : Nat) :
    normalize_mode ((normalize_mode mode count : Nat) : Int) count = normalize_mode mode count := by
  unfold normalize_mode
  have h1 : toUInt mode % count ≤ toUInt mode := Nat.mod_le _ _
  have h2 := toUInt_lt mode
  rw [toUInt_natCast _ (by omega)]
  exact Nat.mod_mod _ _

theorem normalize_mode_of_nonneg (mode : Int) (count : Nat) (h0 : 0 ≤ mode)
    (h1 : mode < 2 ^ 31) : (normalize_mode mode count : Int) = mode % (count : Int) := by
  unfold normalize_mode
  rw [toUInt_of_nonneg mode h0 (by omega)]
  have : mode = ((mode.toNat : Nat) : Int) := by omega
  rw [this]
  simp only [Int.toNat_ofNat]
  exact Int.natCast_mod _ _


theorem xrandr12_set_current_mode_cache (g : Globals) (s : Server) (mode : Int)
    (r : Set12Result) (h : xrandr12_set_current_mode g s mode = some r) :
    (r.ret = DISP_CHANGE_SUCCESSFUL →
      r.globals = { g with
        xrandr_current_mode := (normalize_mode mode g.xrandr_mode_count : Int) } ∧
      ∃ cfg, XCall.SetCrtcConfig cfg RRSetConfigSuccess ∈ r.calls ∧
        cfg.mode = g.xrandr12_modes.getD (normalize_mode mode g.xrandr_mode_count) 0) ∧
    (r.ret ≠ DISP_CHANGE_SUCCESSFUL → r.globals = g) := by
  unfold xrandr12_set_current_mode at h
  split at h
  · cases h
  · simp only at h
    split at h
    · cases h
      simp [DISP_CHANGE_FAILED, DISP_CHANGE_SUCCESSFUL]
    · split at h
      · cases h
        simp [DISP_CHANGE_FAILED, DISP_CHANGE_SUCCESSFUL]
      · split at h
        · cases h
          simp [DISP_CHANGE_FAILED, DISP_CHANGE_SUCCESSFUL]
        · split at h
          · cases h
            simp [DISP_CHANGE_FAILED, DISP_CHANGE_SUCCESSFUL]
          · split at h
            · cases h
              simp [DISP_CHANGE_FAILED, DISP_CHANGE_SUCCESSFUL]
            · rename_i hok
              cases h
              simp only [ne_eq, not_not] at hok
              refine ⟨fun _ => ⟨rfl, ?_⟩, fun hne => absurd rfl hne⟩
              apply Exists.intro
              refine ⟨?_, ?_⟩
              · rw [hok]
                exact List.mem_cons_of_mem _ (List.mem_cons_of_mem _
                  (List.mem_cons_of_mem _ (List.mem_cons_self _ _)))
              · rfl

theorem XRRSetScreenConfig_size (ls : LegacyServer) (size rotation rate : Nat)
    (h : (XRRSetScreenConfig ls size rotation rate).1 = RRSetConfigSuccess) :
    (XRRSetScreenConfig ls size rotation rate).2.currentSize = size := by
  unfold XRRSetScreenConfig at h ⊢
  split
  · rfl
  · rename_i hacc
    simp [hacc, RRSetConfigFailed, RRSetConfigSuccess] at h

theorem xrandr10_set_current_mode_cache (g : Globals) (ls : LegacyServer) (mode : Int)
    (r : Set10Result) (h : xrandr10_set_current_mode g ls mode = some r) :
    (r.ret = DISP_CHANGE_SUCCESSFUL →
      r.globals = { g with
        xrandr_current_mode := (normalize_mode mode g.xrandr_mode_count : Int) } ∧
      r.server.currentSize =
        g.xrandr10_modes.getD (normalize_mode mode g.xrandr_mode_count) 0) ∧
    (r.ret ≠ DISP_CHANGE_SUCCESSFUL → r.globals = g) := by
  unfold xrandr10_set_current_mode at h
  split at h
  · cases h
  · simp only at h
    split at h
    · rename_i hok
      cases h
      exact ⟨fun _ => ⟨rfl, XRRSetScreenConfig_size _ _ _ _ hok⟩, fun hne => absurd rfl hne⟩
    · cases h
      simp [DISP_CHANGE_FAILED, DISP_CHANGE_SUCCESSFUL]

theorem xrandr12_set_current_mode_returns (g : Globals) (s : Server) (mode : Int)
    (hcount : 0 < g.xrandr_mode_count) : ∃ r, xrandr12_set_current_mode g s mode = some r := by
  unfold xrandr12_set_current_mode
  rw [if_neg (by omega)]
  simp only
  split
  · exact ⟨_, rfl⟩
  · split
    · exact ⟨_, rfl⟩
    · split
      · exact ⟨_, rfl⟩
      · split
        · exact ⟨_, rfl⟩
        · split
          · exact ⟨_, rfl⟩
          · exact ⟨_, rfl⟩

theorem xrandr10_set_current_mode_returns (g : Globals) (ls : LegacyServer) (mode : Int)
    (hcount : 0 < g.xrandr_mode_count) : ∃ r, xrandr10_set_current_mode g ls mode = some r := by
  unfold xrandr10_set_current_mode
  rw [if_neg (by omega)]
  simp only
  split
  · exact ⟨_, rfl⟩
  · exact ⟨_, rfl⟩


theorem xrandr12_set_current_mode_normalized (g : Globals) (s : Server) (mode : Int) :
    xrandr12_set_current_mode g s mode =
      xrandr12_set_current_mode g s (normalize_mode mode g.xrandr_mode_count : Nat) := by
  unfold xrandr12_set_current_mode
  simp only [normalize_mode_idem]

theorem xrandr10_set_current_mode_normalized (g : Globals) (ls : LegacyServer) (mode : Int) :
    xrandr10_set_current_mode g ls mode =
      xrandr10_set_current_mode g ls (normalize_mode mode g.xrandr_mode_count : Nat) := by
  unfold xrandr10_set_current_mode
  simp only [normalize_mode_idem]

/-- Claim C13, as the code has it: with `xrandr_mode_count > 0`, the index that
`xrandr12_set_current_mode` and `xrandr10_set_current_mode` use and cache is
the remainder of `mode`, converted to `unsigned int`, by `xrandr_mode_count`.
It lies in [0, xrandr_mode_count) and is the mathematical `mode mod
xrandr_mode_count` when `mode >= 0`.  Both calls return, cache that index on
success, send the table entry of that index to the server, and behave on `mode`
as on the index itself. -/
theorem set_current_mode_index (g : Globals) (s : Server) (ls : LegacyServer) (mode : Int)
    (hcount : 0 < g.xrandr_mode_count) :
    normalize_mode mode g.xrandr_mode_count < g.xrandr_mode_count ∧
      (0 ≤ mode → mode < 2 ^ 31 →
        (normalize_mode mode g.xrandr_mode_count : Int) = mode % (g.xrandr_mode_count : Int)) ∧
      (∃ r, xrandr12_set_current_mode g s mode = some r ∧
        (r.ret = DISP_CHANGE_SUCCESSFUL →
          r.globals.xrandr_current_mode = (normalize_mode mode g.xrandr_mode_count : Int) ∧
          ∃ cfg, XCall.SetCrtcConfig cfg RRSetConfigSuccess ∈ r.calls ∧
            cfg.mode = g.xrandr12_modes.getD (normalize_mode mode g.xrandr_mode_count) 0)) ∧
      (∃ r, xrandr10_set_current_mode g ls mode = some r ∧
        (r.ret = DISP_CHANGE_SUCCESSFUL →
          r.globals.xrandr_current_mode = (normalize_mode mode g.xrandr_mode_count : Int) ∧
          r.server.currentSize =
            g.xrandr10_modes.getD (normalize_mode mode g.xrandr_mode_count) 0)) ∧
      xrandr12_set_current_mode g s mode =
        xrandr12_set_current_mode g s (normalize_mode mode g.xrandr_mode_count : Nat) ∧
      xrandr10_set_current_mode g ls mode =
        xrandr10_set_current_mode g ls (normalize_mode mode g.xrandr_mode_count : Nat) := by
  refine ⟨normalize_mode_lt mode _ hcount, normalize_mode_of_nonneg mode _, ?_, ?_,
    xrandr12_set_current_mode_normalized g s mode,
    xrandr10_set_current_mode_normalized g ls mode⟩
  · obtain ⟨r, hr⟩ := xrandr12_set_current_mode_returns g s mode hcount
    refine ⟨r, hr, fun hok => ?_⟩
    obtain ⟨hg, hcfg⟩ := (xrandr12_set_current_mode_cache g s mode r hr).1 hok
    exact ⟨by rw [hg], hcfg⟩
  · obtain ⟨r, hr⟩ := xrandr10_set_current_mode_returns g ls mode hcount
    refine ⟨r, hr, fun hok => ?_⟩
    obtain ⟨hg, hsize⟩ := (xrandr10_set_current_mode_cache g ls mode r hr).1 hok
    exact ⟨by rw [hg], hsize⟩

/-- Witness for claim C13: with three modes, mode 5 is index 2. -/
theorem set_current_mode_index_witness :
    normalize_mode 5 threeModes.xrandr_mode_count = 2 ∧
      ((normalize_mode 5 threeModes.xrandr_mode_count : Nat) : Int) =
        5 % (threeModes.xrandr_mode_count : Int) :=
  ⟨by decide,
    (set_current_mode_index threeModes dualServer legacyServer 5 (by decide)).2.1 (by decide)
      (by decide)⟩

/-- Counterexample to claim C13 as stated: with three modes and `mode = -1`
both calls succeed and cache index 0, while the mathematical value of
-1 mod 3 is 2. -/
theorem set_current_mode_index_counterexample :
    (xrandr12_set_current_mode threeModes dualServer (-1)).map
        (fun r => (r.ret, r.globals.xrandr_current_mode)) = some (DISP_CHANGE_SUCCESSFUL, 0) ∧
      (xrandr10_set_current_mode threeModes legacyServer (-1)).map
        (fun r => (r.ret, r.globals.xrandr_current_mode)) = some (DISP_CHANGE_SUCCESSFUL, 0) ∧
      (-1 : Int) % (threeModes.xrandr_mode_count : Int) = 2 := by
  decide

/-- C14 as stated fails: with three modes, `xrandr12_set_current_mode(-1)` and
`xrandr10_set_current_mode(-1)` return DISP_CHANGE_SUCCESSFUL and the getter
that follows returns 0, while -1 modulo 3 is 2. -/
theorem get_current_mode_after_set_counterexample :
    (xrandr12_set_current_mode threeModes dualServer (-1)).map
        (fun r => (r.ret, (xrandr12_get_current_mode r.globals r.server).1)) =
      some (DISP_CHANGE_SUCCESSFUL, 0) ∧
    (xrandr10_set_current_mode threeModes legacyServer (-1)).map
        (fun r => (r.ret, (xrandr10_get_current_mode r.globals r.server).1)) =
      some (DISP_CHANGE_SUCCESSFUL, 0) ∧
    (-1 : Int) % (threeModes.xrandr_mode_count : Int) = 2 := by
  decide

/-- C14, amended: after a call of `xrandr12_set_current_mode` (or of
`xrandr10_set_current_mode`) that returns DISP_CHANGE_SUCCESSFUL, the matching
`get_current_mode` returns the index just set, which is the remainder of
`mode`, converted to `unsigned int`, by `xrandr_mode_count`, whatever the
server would answer, and leaves the variables as they are.  For `mode >= 0`
that index is `mode` modulo `xrandr_mode_count`. -/
theorem get_current_mode_after_set (g : Globals) (s : Server) (ls : LegacyServer)
    (mode : Int) :
    (∀ r, xrandr12_set_current_mode g s mode = some r → r.ret = DISP_CHANGE_SUCCESSFUL →
      ∀ s1, xrandr12_get_current_mode r.globals s1 =
        ((normalize_mode mode g.xrandr_mode_count : Int), r.globals)) ∧
    (∀ r, xrandr10_set_current_mode g ls mode = some r → r.ret = DISP_CHANGE_SUCCESSFUL →
      ∀ ls1, xrandr10_get_current_mode r.globals ls1 =
        ((normalize_mode mode g.xrandr_mode_count : Int), r.globals)) ∧
    (0 ≤ mode → mode < 2 ^ 31 →
      (normalize_mode mode g.xrandr_mode_count : Int) = mode % (g.xrandr_mode_count : Int)) := by
  have hne : ((normalize_mode mode g.xrandr_mode_count : Nat) : Int) ≠ -1 := by omega
  refine ⟨?_, ?_, fun h0 h1 => normalize_mode_of_nonneg mode g.xrandr_mode_count h0 h1⟩
  · intro r hr hok s1
    obtain ⟨hg, _⟩ := (xrandr12_set_current_mode_cache g s mode r hr).1 hok
    unfold xrandr12_get_current_mode
    rw [hg]
    simp only [ne_eq, hne, not_false_eq_true, if_true]
  · intro r hr hok ls1
    obtain ⟨hg, _⟩ := (xrandr10_set_current_mode_cache g ls mode r hr).1 hok
    unfold xrandr10_get_current_mode
    rw [hg]
    simp only [ne_eq, hne, not_false_eq_true, if_true]

/-- Witness for claim C14: with three modes on `dualServer`, setting mode 5
succeeds and the getter then returns 2, which is 5 modulo 3, also on a server
without resources. -/
theorem get_current_mode_after_set_witness :
    (xrandr12_set_current_mode threeModes dualServer 5).map (fun r => r.ret) =
        some DISP_CHANGE_SUCCESSFUL ∧
      (normalize_mode 5 threeModes.xrandr_mode_count : Int) =
        5 % (threeModes.xrandr_mode_count : Int) ∧
      ∀ s1, xrandr12_get_current_mode { threeModes with xrandr_current_mode := 2 } s1 =
        ((normalize_mode 5 threeModes.xrandr_mode_count : Int),
          { threeModes with xrandr_current_mode := 2 }) :=
  ⟨by decide,
    (get_current_mode_after_set threeModes dualServer legacyServer 5).2.2 (by decide)
      (by decide),
    (get_current_mode_after_set threeModes dualServer legacyServer 5).1
      { ret := DISP_CHANGE_SUCCESSFUL,
        globals := { threeModes with xrandr_current_mode := 2 },
        server := ((xrandr12_set_current_mode threeModes dualServer 5).map
          (fun r => r.server)).getD dualServer,
        calls := ((xrandr12_set_current_mode threeModes dualServer 5).map
          (fun r => r.calls)).getD [],
        display_update := true }
      (by rfl) rfl⟩


/-- Claim C15, as the code has it: `xrandr_current_mode` is changed exactly by
a mode change that succeeds, and then it holds the index just set, which is
never the sentinel -1; a failed `xrandr10_set_current_mode` or
`xrandr12_set_current_mode` leaves every variable as it was.  While the cache
holds an index the getters return it and do not ask the server; only a cache
of -1 makes them search the table for the mode the server reports, and a hit
at index `i` is returned and cached. -/
theorem current_mode_cache (g : Globals) (s : Server) (ls : LegacyServer) (mode : Int) :
    (∀ r, xrandr12_set_current_mode g s mode = some r →
      (r.ret = DISP_CHANGE_SUCCESSFUL →
        r.globals.xrandr_current_mode = (normalize_mode mode g.xrandr_mode_count : Int) ∧
        r.globals.xrandr_current_mode ≠ -1) ∧
      (r.ret ≠ DISP_CHANGE_SUCCESSFUL → r.globals = g)) ∧
    (∀ r, xrandr10_set_current_mode g ls mode = some r →
      (r.ret = DISP_CHANGE_SUCCESSFUL →
        r.globals.xrandr_current_mode = (normalize_mode mode g.xrandr_mode_count : Int) ∧
        r.globals.xrandr_current_mode ≠ -1) ∧
      (r.ret ≠ DISP_CHANGE_SUCCESSFUL → r.globals = g)) ∧
    (g.xrandr_current_mode ≠ -1 →
      xrandr12_get_current_mode g s = (g.xrandr_current_mode, g) ∧
      xrandr10_get_current_mode g ls = (g.xrandr_current_mode, g)) ∧
    (g.xrandr_current_mode = -1 →
      (∀ resources crtc_info i, s.getScreenResourcesCurrent = some resources →
        g.primary_crtc < resources.crtcs.length →
        s.getCrtcInfo (resources.crtcs.getD g.primary_crtc 0) = some crtc_info →
        find_index_from (fun id : Nat => decide (id = crtc_info.mode))
          (g.xrandr12_modes.take g.xrandr_mode_count) 0 = some i →
        xrandr12_get_current_mode g s = ((i : Int), { g with xrandr_current_mode := (i : Int) })) ∧
      (∀ i, find_index_from
          (fun entry : Nat × x11drv_mode_info =>
            decide (entry.1 = ls.currentSize) &&
              decide (entry.2.refresh_rate = ls.currentRate))
          ((g.xrandr10_modes.zip g.dd_modes).take g.xrandr_mode_count) 0 = some i →
        xrandr10_get_current_mode g ls =
          ((i : Int), { g with xrandr_current_mode := (i : Int) }))) := by
  have hne : ((normalize_mode mode g.xrandr_mode_count : Nat) : Int) ≠ -1 := by omega
  refine ⟨?_, ?_, ?_, ?_⟩
  · intro r hr
    obtain ⟨h1, h2⟩ := xrandr12_set_current_mode_cache g s mode r hr
    refine ⟨fun hok => ?_, h2⟩
    rw [(h1 hok).1]
    exact ⟨rfl, hne⟩
  · intro r hr
    obtain ⟨h1, h2⟩ := xrandr10_set_current_mode_cache g ls mode r hr
    refine ⟨fun hok => ?_, h2⟩
    rw [(h1 hok).1]
    exact ⟨rfl, hne⟩
  · intro hc
    constructor
    · unfold xrandr12_get_current_mode
      rw [if_pos hc]
    · unfold xrandr10_get_current_mode
      rw [if_pos hc]
  · intro hc
    constructor
    · intro resources crtc_info i hres hlt hci hfind
      unfold xrandr12_get_current_mode
      simp only [hc, ne_eq, not_true_eq_false, if_false, hres, Nat.not_le.mpr hlt, hci, hfind]
    · intro i hfind
      unfold xrandr10_get_current_mode
      simp [hc, hfind]

/-- Witness for claim C15: on `dualServer` with three modes, setting mode 5
succeeds and the cache then holds index 2. -/
theorem current_mode_cache_witness :
    (xrandr12_set_current_mode threeModes dualServer 5).map
        (fun r => (r.ret, r.globals.xrandr_current_mode)) =
        some (DISP_CHANGE_SUCCESSFUL, 2) ∧
      xrandr12_get_current_mode { threeModes with xrandr_current_mode := 2 } dualServer =
        (2, { threeModes with xrandr_current_mode := 2 }) :=
  ⟨by decide,
    ((current_mode_cache { threeModes with xrandr_current_mode := 2 } dualServer legacyServer
      5).2.2.1 (by decide)).1⟩

/-- Counterexample to claim C15 as stated: after the successful calls
`xrandr12_set_current_mode(5)` and `xrandr10_set_current_mode(5)` on a table of
three modes the cache holds 2, not the sentinel -1, and the getter returns 2
although the server reports the mode of index 0. -/
theorem current_mode_cache_counterexample :
    (xrandr12_set_current_mode threeModes dualServer 5).map
        (fun r => (r.ret, r.globals.xrandr_current_mode)) =
        some (DISP_CHANGE_SUCCESSFUL, 2) ∧
      (xrandr10_set_current_mode threeModes legacyServer 5).map
        (fun r => (r.ret, r.globals.xrandr_current_mode)) =
        some (DISP_CHANGE_SUCCESSFUL, 2) ∧
      (xrandr12_get_current_mode { threeModes with xrandr_current_mode := 2 } dualServer).1 = 2 ∧
      (xrandr12_get_current_mode threeModes dualServer).1 = 0 := by
  decide


/-! ## The dual-monitor mode change -/

/-- C20 as stated fails: on `dualServer` (primary CRTC 20 at 1920x1080 and
(0,0), secondary CRTC 21 at 1280x1024 and (1920,0)) the change of the primary
output 50 to 800x600 succeeds and leaves the screen 1024 high, not 1080: the
screen size is computed after the primary CRTC has been disabled. -/
theorem dual_set_primary_800x600_counterexample :
    (xrandr14_set_current_mode dualServer 50
      (add_xrandr14_mode zeroDevmode
        { id := 3, width := 800, height := 600, dotClock := 40000000, hTotal := 1056,
          vTotal := 628, modeFlags := 0 } 32 60)).ret = some DISP_CHANGE_SUCCESSFUL ∧
    (xrandr14_set_current_mode dualServer 50
      (add_xrandr14_mode zeroDevmode
        { id := 3, width := 800, height := 600, dotClock := 40000000, hTotal := 1056,
          vTotal := 628, modeFlags := 0 } 32 60)).server.screenHeight ≠ 1080 := by
  decide

/-- C20, amended: on `dualServer` the change of the primary output 50 to
800x600 disables CRTC 20, sizes the screen to 3200x1024, which is
max(1920+1280, 0+800) x max(1024, 0+600) over the CRTCs still enabled and the
new mode at the CRTC's origin, and enables CRTC 20 again at (0,0) with the
800x600 mode 3 and its output; the CRTC then is 800x600 and
`xrandr14_get_current_mode` on the output reports 800x600 at 60 Hz. -/
theorem dual_set_primary_800x600 :
    get_screen_size dualServer dualResources = (3200, 1080) ∧
    (xrandr14_set_current_mode dualServer 50
      (add_xrandr14_mode zeroDevmode
        { id := 3, width := 800, height := 600, dotClock := 40000000, hTotal := 1056,
          vTotal := 628, modeFlags := 0 } 32 60)).ret = some DISP_CHANGE_SUCCESSFUL ∧
    (xrandr14_set_current_mode dualServer 50
      (add_xrandr14_mode zeroDevmode
        { id := 3, width := 800, height := 600, dotClock := 40000000, hTotal := 1056,
          vTotal := 628, modeFlags := 0 } 32 60)).calls =
      [XCall.GrabServer,
       XCall.SetCrtcConfig
         { crtc := 20, x := 0, y := 0, mode := 0, rotation := 1, outputs := [] }
         RRSetConfigSuccess,
       XCall.SetScreenSize 3200 1024 846 270,
       XCall.SetCrtcConfig
         { crtc := 20, x := 0, y := 0, mode := 3, rotation := 1, outputs := [50] }
         RRSetConfigSuccess,
       XCall.UngrabServer, XCall.Flush] ∧
    ((xrandr14_set_current_mode dualServer 50
      (add_xrandr14_mode zeroDevmode
        { id := 3, width := 800, height := 600, dotClock := 40000000, hTotal := 1056,
          vTotal := 628, modeFlags := 0 } 32 60)).server.screenWidth,
     (xrandr14_set_current_mode dualServer 50
      (add_xrandr14_mode zeroDevmode
        { id := 3, width := 800, height := 600, dotClock := 40000000, hTotal := 1056,
          vTotal := 628, modeFlags := 0 } 32 60)).server.screenHeight) = (3200, 1024) ∧
    (xrandr14_set_current_mode dualServer 50
      (add_xrandr14_mode zeroDevmode
        { id := 3, width := 800, height := 600, dotClock := 40000000, hTotal := 1056,
          vTotal := 628, modeFlags := 0 } 32 60)).server.getCrtcInfo 20 =
      some { x := 0, y := 0, width := 800, height := 600, mode := 3, rotation := 1,
             outputs := [50] } ∧
    (xrandr14_get_current_mode
      (xrandr14_set_current_mode dualServer 50
        (add_xrandr14_mode zeroDevmode
          { id := 3, width := 800, height := 600, dotClock := 40000000, hTotal := 1056,
            vTotal := 628, modeFlags := 0 } 32 60)).server plainEnv 50 zeroDevmode).map
      (fun cur => (cur.dmPelsWidth, cur.dmPelsHeight, cur.dmDisplayFrequency)) =
      some (800, 600, 60) := by
  refine ⟨by decide, by decide, by decide, by decide, by decide, by decide⟩


/-! ## The XRandR 1.2 mode table builder -/

theorem rotated_mode_id (rotation : Nat) (mode : XRRModeInfo) :
    (rotated_mode rotation mode).id = mode.id := by
  unfold rotated_mode
  split <;> rfl

theorem rotated_mode_size (rotation : Nat) (mode : XRRModeInfo) :
    ((rotated_mode rotation mode).width, (rotated_mode rotation mode).height) =
      if is_rotated rotation then (mode.height, mode.width) else (mode.width, mode.height) := by
  unfold rotated_mode
  split <;> rfl

/-- A mode that `X11DRV_Settings_AddOneMode` takes is the next entry of the table. -/
theorem AddOneMode_taken (senv : SettingsEnv) (st : Settings) (w h freq : Nat)
    (hacc : senv.accepts st
      { width := w, height := h, bpp := senv.screen_bpp, refresh_rate := freq } = true) :
    X11DRV_Settings_AddOneMode senv st w h 0 freq =
      (true, { st with modes := st.modes ++
        [{ width := w, height := h, bpp := senv.screen_bpp, refresh_rate := freq }] }) := by
  unfold X11DRV_Settings_AddOneMode
  simp [hacc]

theorem AddOneMode_refused (senv : SettingsEnv) (st : Settings) (w h freq : Nat)
    (hacc : ¬ senv.accepts st
      { width := w, height := h, bpp := senv.screen_bpp, refresh_rate := freq } = true) :
    X11DRV_Settings_AddOneMode senv st w h 0 freq = (false, st) := by
  unfold X11DRV_Settings_AddOneMode
  simp [hacc]

/-- What the mode loop of `xrandr12_init_modes` does: it keeps a sublist of the
output's modes; for each kept mode, the rotated copy fits the primary size, its
id goes to the end of `xrandr12_modes` and one guest mode goes to the end of
the settings table. -/
theorem init12_loop_spec (senv : SettingsEnv) (resources : XRRScreenResources)
    (rotation : Nat) (primary : Nat × Nat) (refresh : Nat) :
    ∀ (ids : List Nat) (st : Settings) (table : List Nat),
      ∃ kept : List XRRModeInfo,
        (init12_loop senv resources rotation primary refresh ids st table).2 =
          table ++ kept.map (fun k => k.id) ∧
        (init12_loop senv resources rotation primary refresh ids st table).1.modes =
          st.modes ++ kept.map (fun k =>
            { width := k.width, height := k.height, bpp := senv.screen_bpp,
              refresh_rate := refresh }) ∧
        (init12_loop senv resources rotation primary refresh ids st table).1.nmodes =
          st.nmodes ∧
        List.Sublist (kept.map (fun k => k.id)) ids ∧
        ∀ k ∈ kept, k.width ≤ primary.1 ∧ k.height ≤ primary.2 ∧
          ∃ mode, find_mode_info resources.modes k.id = some mode ∧
            k = rotated_mode rotation mode
  | [], st, table => ⟨[], by simp [init12_loop]⟩
  | id :: rest, st, table => by
    unfold init12_loop
    cases hfind : find_mode_info resources.modes id with
    | none =>
      obtain ⟨kept, h1, h2, h3, h4, h5⟩ :=
        init12_loop_spec senv resources rotation primary refresh rest st table
      exact ⟨kept, h1, h2, h3, List.Sublist.cons _ h4, h5⟩
    | some mode =>
      dsimp only
      by_cases hfit : (rotated_mode rotation mode).width ≤ primary.1 ∧
          (rotated_mode rotation mode).height ≤ primary.2
      · rw [if_pos hfit]
        by_cases htaken : senv.accepts st
            { width := (rotated_mode rotation mode).width,
              height := (rotated_mode rotation mode).height,
              bpp := senv.screen_bpp, refresh_rate := refresh } = true
        · rw [AddOneMode_taken senv st _ _ _ htaken]
          dsimp only
          rw [if_pos rfl]
          obtain ⟨kept, h1, h2, h3, h4, h5⟩ :=
            init12_loop_spec senv resources rotation primary refresh rest
              { st with modes := st.modes ++
                [{ width := (rotated_mode rotation mode).width,
                   height := (rotated_mode rotation mode).height,
                   bpp := senv.screen_bpp, refresh_rate := refresh }] }
              (table ++ [(rotated_mode rotation mode).id])
          refine ⟨rotated_mode rotation mode :: kept, ?_, ?_, ?_, ?_, ?_⟩
          · rw [h1]; simp
          · rw [h2]; simp
          · rw [h3]
          · have hid : (rotated_mode rotation mode).id = id := by
              rw [rotated_mode_id]
              exact (find_mode_info_id id mode resources.modes hfind).1
            simp only [List.map_cons, hid]
            exact List.Sublist.cons₂ _ h4
          · intro k hk
            rcases List.mem_cons.mp hk with hk | hk
            · subst hk
              refine ⟨hfit.1, hfit.2, mode, ?_, rfl⟩
              rw [rotated_mode_id, (find_mode_info_id id mode resources.modes hfind).1]
              exact hfind
            · exact h5 k hk
        · rw [AddOneMode_refused senv st _ _ _ htaken]
          dsimp only
          rw [if_neg (by decide)]
          obtain ⟨kept, h1, h2, h3, h4, h5⟩ :=
            init12_loop_spec senv resources rotation primary refresh rest st table
          exact ⟨kept, h1, h2, h3, List.Sublist.cons _ h4, h5⟩
      · rw [if_neg hfit]
        obtain ⟨kept, h1, h2, h3, h4, h5⟩ :=
          init12_loop_spec senv resources rotation primary refresh rest st table
        exact ⟨kept, h1, h2, h3, List.Sublist.cons _ h4, h5⟩

/-- The last entry with the id is an entry with the id. -/
theorem find_primary_mode_some (mode : Nat) (pm : XRRModeInfo) :
    ∀ (modes : List XRRModeInfo) (acc : Option XRRModeInfo),
      find_primary_mode mode modes acc = some pm →
        (pm.id = mode ∧ pm ∈ modes) ∨ acc = some pm
  | [], acc, h => by
    unfold find_primary_mode at h
    exact Or.inr h
  | info :: rest, acc, h => by
    unfold find_primary_mode at h
    by_cases hid : info.id = mode
    · rw [if_pos hid] at h
      rcases find_primary_mode_some mode pm rest (some info) h with h1 | h1
      · exact Or.inl ⟨h1.1, List.mem_cons_of_mem _ h1.2⟩
      · cases h1
        exact Or.inl ⟨hid, List.mem_cons_self _ _⟩
    · rw [if_neg hid] at h
      rcases find_primary_mode_some mode pm rest acc h with h1 | h1
      · exact Or.inl ⟨h1.1, List.mem_cons_of_mem _ h1.2⟩
      · exact Or.inr h1

/-- The shape of a successful `xrandr12_init_modes`: the primary CRTC, its
first output, and the result in terms of the mode loop. -/
theorem xrandr12_init_modes_success (s : Server) (senv : SettingsEnv) (g : Globals)
    (st : Settings) (r : Init12Result)
    (h : xrandr12_init_modes s senv g st = some r) (hret : r.ret = 0) :
    ∃ resources crtc_info crtc_idx output_info refresh,
      xrandr_get_screen_resources s = some resources ∧
      xrandr12_get_primary_crtc_info s resources.crtcs 0 = some (crtc_info, crtc_idx) ∧
      crtc_info.outputs ≠ [] ∧
      s.getOutputInfo (crtc_info.outputs.getD 0 0) = some output_info ∧
      output_info.modes ≠ [] ∧
      primary_refresh (find_primary_mode crtc_info.mode resources.modes none) = some refresh ∧
      r.settings.real_mode =
        primary_size crtc_info (find_primary_mode crtc_info.mode resources.modes none) ∧
      r.emitted =
        (init12_loop senv resources crtc_info.rotation
          (primary_size crtc_info (find_primary_mode crtc_info.mode resources.modes none))
          refresh output_info.modes
          (X11DRV_Settings_SetHandlers st output_info.modes.length) []).1.modes ∧
      r.globals.xrandr12_modes =
        (init12_loop senv resources crtc_info.rotation
          (primary_size crtc_info (find_primary_mode crtc_info.mode resources.modes none))
          refresh output_info.modes
          (X11DRV_Settings_SetHandlers st output_info.modes.length) []).2 ∧
      r.globals.xrandr_mode_count = r.globals.xrandr12_modes.length ∧
      r.globals.dd_modes = r.emitted ++ senv.depth_modes r.emitted ∧
      r.globals.primary_crtc = crtc_idx := by
  unfold xrandr12_init_modes at h
  cases hres : xrandr_get_screen_resources s with
  | none =>
    rw [hres] at h
    simp only [Option.some.injEq] at h
    subst h
    simp at hret
  | some resources =>
    rw [hres] at h
    dsimp only at h
    cases hcrtc : xrandr12_get_primary_crtc_info s resources.crtcs 0 with
    | none =>
      rw [hcrtc] at h
      simp only [Option.some.injEq] at h
      subst h
      simp at hret
    | some p =>
      obtain ⟨crtc_info, crtc_idx⟩ := p
      rw [hcrtc] at h
      dsimp only at h
      by_cases hout : crtc_info.outputs.length = 0
      · rw [if_pos hout] at h
        simp only [Option.some.injEq] at h
        subst h
        simp at hret
      · rw [if_neg hout] at h
        cases hoi : s.getOutputInfo (crtc_info.outputs.getD 0 0) with
        | none =>
          rw [hoi] at h
          simp only [Option.some.injEq] at h
          subst h
          simp at hret
        | some output_info =>
          rw [hoi] at h
          dsimp only at h
          by_cases hn : output_info.modes.length = 0
          · rw [if_pos hn] at h
            simp only [Option.some.injEq] at h
            subst h
            simp at hret
          · rw [if_neg hn] at h
            cases hrefresh :
                primary_refresh (find_primary_mode crtc_info.mode resources.modes none) with
            | none =>
              rw [hrefresh] at h
              simp at h
            | some refresh =>
              rw [hrefresh] at h
              simp only [Option.some.injEq] at h
              subst h
              refine ⟨resources, crtc_info, crtc_idx, output_info, refresh, rfl, hcrtc,
                ?_, hoi, ?_, hrefresh, rfl, rfl, rfl, rfl, rfl, rfl⟩
              · intro e; rw [e] at hout; exact hout rfl
              · intro e; rw [e] at hn; exact hn rfl


/-- With a settings collaborator that takes every mode, the mode loop of
`xrandr12_init_modes` keeps every mode whose rotated copy fits. -/
theorem init12_loop_retains (senv : SettingsEnv) (resources : XRRScreenResources)
    (rotation : Nat) (primary : Nat × Nat) (refresh : Nat)
    (hacc : ∀ st info, senv.accepts st info = true) :
    ∀ (ids : List Nat) (st : Settings) (table : List Nat),
      ∀ id ∈ ids, ∀ mode, find_mode_info resources.modes id = some mode →
        (rotated_mode rotation mode).width ≤ primary.1 →
        (rotated_mode rotation mode).height ≤ primary.2 →
        id ∈ (init12_loop senv resources rotation primary refresh ids st table).2
  | [], _, _, id, hid, _, _, _, _ => by cases hid
  | id0 :: rest, st, table, id, hid, mode, hfind, hw, hh => by
    unfold init12_loop
    cases hfind0 : find_mode_info resources.modes id0 with
    | none =>
      dsimp only
      rcases List.mem_cons.mp hid with e | hmem
      · subst e; rw [hfind] at hfind0; cases hfind0
      · exact init12_loop_retains senv resources rotation primary refresh hacc rest st table
          id hmem mode hfind hw hh
    | some mode0 =>
      dsimp only
      by_cases hfit : (rotated_mode rotation mode0).width ≤ primary.1 ∧
          (rotated_mode rotation mode0).height ≤ primary.2
      · rw [if_pos hfit, AddOneMode_taken senv st _ _ _ (hacc _ _)]
        dsimp only
        rw [if_pos rfl]
        rcases List.mem_cons.mp hid with e | hmem
        · subst e
          obtain ⟨kept, h1, _⟩ := init12_loop_spec senv resources rotation primary refresh rest
            { st with modes := st.modes ++
              [{ width := (rotated_mode rotation mode0).width,
                 height := (rotated_mode rotation mode0).height,
                 bpp := senv.screen_bpp, refresh_rate := refresh }] }
            (table ++ [(rotated_mode rotation mode0).id])
          rw [h1, rotated_mode_id, (find_mode_info_id id mode0 resources.modes hfind0).1]
          simp
        · exact init12_loop_retains senv resources rotation primary refresh hacc rest _ _
            id hmem mode hfind hw hh
      · rw [if_neg hfit]
        rcases List.mem_cons.mp hid with e | hmem
        · subst e
          rw [hfind] at hfind0
          cases hfind0
          exact absurd ⟨hw, hh⟩ hfit
        · exact init12_loop_retains senv resources rotation primary refresh hacc rest st table
            id hmem mode hfind hw hh

/-- C16: when `xrandr12_init_modes` succeeds, the size it takes for the primary
(the one handed to `X11DRV_Settings_SetRealMode`) is the size of the primary
CRTC's current mode, width and height exchanged when the CRTC is rotated by 90
or 270 degrees; every guest mode it emits is the rotated size of a mode of the
screen and is within that size in width and in height. -/
theorem init_modes_within_primary (s : Server) (senv : SettingsEnv) (g : Globals)
    (st : Settings) (r : Init12Result)
    (h : xrandr12_init_modes s senv g st = some r) (hret : r.ret = 0) :
    ∃ resources crtc_info crtc_idx,
      xrandr_get_screen_resources s = some resources ∧
      xrandr12_get_primary_crtc_info s resources.crtcs 0 = some (crtc_info, crtc_idx) ∧
      r.settings.real_mode =
        primary_size crtc_info (find_primary_mode crtc_info.mode resources.modes none) ∧
      (∀ pm, find_primary_mode crtc_info.mode resources.modes none = some pm →
        pm.id = crtc_info.mode ∧ pm ∈ resources.modes ∧
        r.settings.real_mode =
          if is_rotated crtc_info.rotation then (pm.height, pm.width)
          else (pm.width, pm.height)) ∧
      ∀ m ∈ r.emitted,
        m.width ≤ r.settings.real_mode.1 ∧ m.height ≤ r.settings.real_mode.2 ∧
        ∃ mode ∈ resources.modes,
          (m.width, m.height) =
            if is_rotated crtc_info.rotation then (mode.height, mode.width)
            else (mode.width, mode.height) := by
  obtain ⟨resources, crtc_info, crtc_idx, output_info, refresh, hres, hcrtc, _, _, _, _,
    hreal, hem, _, _, _, _⟩ := xrandr12_init_modes_success s senv g st r h hret
  refine ⟨resources, crtc_info, crtc_idx, hres, hcrtc, hreal, ?_, ?_⟩
  · intro pm hpm
    rcases find_primary_mode_some crtc_info.mode pm resources.modes none hpm with h1 | h1
    · refine ⟨h1.1, h1.2, ?_⟩
      rw [hreal, hpm]
      rfl
    · cases h1
  · intro m hm
    obtain ⟨kept, _, h2, _, _, h5⟩ := init12_loop_spec senv resources crtc_info.rotation
      (primary_size crtc_info (find_primary_mode crtc_info.mode resources.modes none))
      refresh output_info.modes
      (X11DRV_Settings_SetHandlers st output_info.modes.length) []
    rw [hem, h2] at hm
    simp only [X11DRV_Settings_SetHandlers, List.nil_append, List.mem_map] at hm
    obtain ⟨k, hk, hkm⟩ := hm
    obtain ⟨hw, hh, mode, hfind, hrot⟩ := h5 k hk
    subst hkm
    rw [hreal]
    refine ⟨hw, hh, mode, (find_mode_info_id _ _ _ hfind).2, ?_⟩
    dsimp only
    rw [hrot]
    exact rotated_mode_size _ _

/-- C16, on the rotated example: the primary size is 1080x1920 and both guest
modes are within it. -/
theorem init_modes_within_primary_witness :
    ∃ resources crtc_info crtc_idx,
      xrandr_get_screen_resources rotatedServer = some resources ∧
      xrandr12_get_primary_crtc_info rotatedServer resources.crtcs 0 =
        some (crtc_info, crtc_idx) ∧
      rotatedTables.settings.real_mode =
        primary_size crtc_info (find_primary_mode crtc_info.mode resources.modes none) ∧
      (∀ pm, find_primary_mode crtc_info.mode resources.modes none = some pm →
        pm.id = crtc_info.mode ∧ pm ∈ resources.modes ∧
        rotatedTables.settings.real_mode =
          if is_rotated crtc_info.rotation then (pm.height, pm.width)
          else (pm.width, pm.height)) ∧
      ∀ m ∈ rotatedTables.emitted,
        m.width ≤ rotatedTables.settings.real_mode.1 ∧
        m.height ≤ rotatedTables.settings.real_mode.2 ∧
        ∃ mode ∈ resources.modes,
          (m.width, m.height) =
            if is_rotated crtc_info.rotation then (mode.height, mode.width)
            else (mode.width, mode.height) :=
  init_modes_within_primary rotatedServer plainSettings initialGlobals emptySettings
    rotatedTables (by rfl) rfl


/-- C17: after a successful `xrandr12_init_modes`, every entry of
`xrandr12_modes` below `xrandr_mode_count` is the id of a mode in the list of
the primary output (the first output of the primary CRTC), the entries follow
the order of that list, and `xrandr_mode_count` is both the length of the table
and the number of guest modes the builder emitted; entry `i` of the table is
the id of the mode whose rotated copy is guest mode `i`.  The depth variants
come after the emitted modes in `dd_modes`. -/
theorem init_modes_parallel_table (s : Server) (senv : SettingsEnv) (g : Globals)
    (st : Settings) (r : Init12Result)
    (h : xrandr12_init_modes s senv g st = some r) (hret : r.ret = 0) :
    ∃ resources crtc_info crtc_idx output_info refresh,
      xrandr_get_screen_resources s = some resources ∧
      xrandr12_get_primary_crtc_info s resources.crtcs 0 = some (crtc_info, crtc_idx) ∧
      s.getOutputInfo (crtc_info.outputs.getD 0 0) = some output_info ∧
      primary_refresh (find_primary_mode crtc_info.mode resources.modes none) = some refresh ∧
      List.Sublist r.globals.xrandr12_modes output_info.modes ∧
      r.globals.xrandr_mode_count = r.emitted.length ∧
      r.globals.xrandr12_modes.length = r.emitted.length ∧
      r.globals.dd_modes = r.emitted ++ senv.depth_modes r.emitted ∧
      ∀ i, i < r.globals.xrandr_mode_count →
        ∃ mode, r.globals.xrandr12_modes[i]? = some mode.id ∧
          mode.id ∈ output_info.modes ∧
          find_mode_info resources.modes mode.id = some mode ∧
          r.emitted[i]? = some
            { width := (rotated_mode crtc_info.rotation mode).width,
              height := (rotated_mode crtc_info.rotation mode).height,
              bpp := senv.screen_bpp, refresh_rate := refresh } := by
  obtain ⟨resources, crtc_info, crtc_idx, output_info, refresh, hres, hcrtc, _, hoi, _,
    hrefresh, _, hem, htab, hcount, hdd, _⟩ := xrandr12_init_modes_success s senv g st r h hret
  obtain ⟨kept, h1, h2, _, h4, h5⟩ := init12_loop_spec senv resources crtc_info.rotation
    (primary_size crtc_info (find_primary_mode crtc_info.mode resources.modes none))
    refresh output_info.modes
    (X11DRV_Settings_SetHandlers st output_info.modes.length) []
  have hnil : (X11DRV_Settings_SetHandlers st output_info.modes.length).modes = [] := rfl
  rw [List.nil_append] at h1
  rw [hnil, List.nil_append] at h2
  rw [h1] at htab
  rw [h2] at hem
  refine ⟨resources, crtc_info, crtc_idx, output_info, refresh, hres, hcrtc, hoi, hrefresh,
    ?_, ?_, ?_, hdd, ?_⟩
  · rw [htab]; exact h4
  · rw [hcount, htab, hem]; simp
  · rw [htab, hem]; simp
  · intro i hi
    rw [hcount, htab, List.length_map] at hi
    obtain ⟨_, _, mode, hfind, hk⟩ := h5 (kept.get ⟨i, hi⟩) (List.get_mem _ _ _)
    have hid : mode.id = (kept.get ⟨i, hi⟩).id := by
      rw [hk, rotated_mode_id]
    refine ⟨mode, ?_, ?_, ?_, ?_⟩
    · rw [htab, List.getElem?_map, List.getElem?_eq_getElem hi, hid]
      rfl
    · apply h4.subset
      rw [hid]
      exact List.mem_map_of_mem _ (List.get_mem _ _ _)
    · rw [hid]; exact hfind
    · rw [hem, List.getElem?_map, List.getElem?_eq_getElem hi]
      simp only [Option.map_some']
      rw [← hk]
      rfl

/-- C17, on the rotated example: the table is [1, 3] out of the output's list
[1, 4, 3], and two guest modes were emitted. -/
theorem init_modes_parallel_table_witness :
    ∃ resources crtc_info crtc_idx output_info refresh,
      xrandr_get_screen_resources rotatedServer = some resources ∧
      xrandr12_get_primary_crtc_info rotatedServer resources.crtcs 0 =
        some (crtc_info, crtc_idx) ∧
      rotatedServer.getOutputInfo (crtc_info.outputs.getD 0 0) = some output_info ∧
      primary_refresh (find_primary_mode crtc_info.mode resources.modes none) = some refresh ∧
      List.Sublist rotatedTables.globals.xrandr12_modes output_info.modes ∧
      rotatedTables.globals.xrandr_mode_count = rotatedTables.emitted.length ∧
      rotatedTables.globals.xrandr12_modes.length = rotatedTables.emitted.length ∧
      rotatedTables.globals.dd_modes =
        rotatedTables.emitted ++ plainSettings.depth_modes rotatedTables.emitted ∧
      ∀ i, i < rotatedTables.globals.xrandr_mode_count →
        ∃ mode, rotatedTables.globals.xrandr12_modes[i]? = some mode.id ∧
          mode.id ∈ output_info.modes ∧
          find_mode_info resources.modes mode.id = some mode ∧
          rotatedTables.emitted[i]? = some
            { width := (rotated_mode crtc_info.rotation mode).width,
              height := (rotated_mode crtc_info.rotation mode).height,
              bpp := plainSettings.screen_bpp, refresh_rate := refresh } :=
  init_modes_parallel_table rotatedServer plainSettings initialGlobals emptySettings
    rotatedTables (by rfl) rfl

/-- C18 as stated fails: on `rotatedServer` the primary CRTC is rotated by 90
degrees with the logical size 1080x1920 and its output supports the 1920x1080
mode 1 and the 1080x1920 mode 4; the table keeps mode 1, not mode 4. -/
theorem rotated_primary_modes_counterexample :
    rotatedServer.getCrtcInfo 40 =
      some { x := 0, y := 0, width := 1080, height := 1920, mode := 1,
             rotation := RR_Rotate_90, outputs := [70] } ∧
    (rotatedServer.getOutputInfo 70).map (fun o => o.modes) = some [1, 4, 3] ∧
    (find_mode_info rotatedResources.modes 1).map (fun m => (m.width, m.height)) =
      some (1920, 1080) ∧
    (find_mode_info rotatedResources.modes 4).map (fun m => (m.width, m.height)) =
      some (1080, 1920) ∧
    (xrandr12_init_modes rotatedServer plainSettings initialGlobals emptySettings).map
      (fun r => (r.ret, r.globals.xrandr12_modes)) = some (0, [1, 3]) ∧
    (xrandr12_init_modes rotatedServer plainSettings initialGlobals emptySettings).map
      (fun r => r.emitted.map (fun m => (m.width, m.height))) =
      some [(1080, 1920), (600, 800)] := by
  refine ⟨by rfl, by rfl, by rfl, by rfl, by rfl, by rfl⟩

/-- C18, amended: with a primary CRTC rotated by 90 degrees that runs the mode
`pm` (1920x1080 for a logical size of 1080x1920), the builder takes
`pm.height` x `pm.width` as the primary size; with a settings collaborator that
takes every mode it is offered, a mode of the primary output is in
`xrandr12_modes` exactly when its height is at most `pm.height` and its width
at most `pm.width`.  So the 1920x1080 mode
itself is kept (the guest sees it as 1080x1920), a 1080x1920 mode is not, and
no guest mode is wider than `pm.height` or higher than `pm.width`. -/
theorem rotated_primary_modes (s : Server) (senv : SettingsEnv) (g : Globals)
    (st : Settings) (r : Init12Result) (resources : XRRScreenResources)
    (crtc_info : XRRCrtcInfo) (crtc_idx : Nat) (output_info : XRROutputInfo)
    (pm : XRRModeInfo)
    (h : xrandr12_init_modes s senv g st = some r) (hret : r.ret = 0)
    (hres : xrandr_get_screen_resources s = some resources)
    (hcrtc : xrandr12_get_primary_crtc_info s resources.crtcs 0 = some (crtc_info, crtc_idx))
    (hoi : s.getOutputInfo (crtc_info.outputs.getD 0 0) = some output_info)
    (hpm : find_primary_mode crtc_info.mode resources.modes none = some pm)
    (hrot : crtc_info.rotation &&& RR_Rotate_90 ≠ 0)
    (hacc : ∀ st info, senv.accepts st info = true) :
    r.settings.real_mode = (pm.height, pm.width) ∧
    (∀ id ∈ output_info.modes, ∀ mode, find_mode_info resources.modes id = some mode →
      (id ∈ r.globals.xrandr12_modes ↔ mode.height ≤ pm.height ∧ mode.width ≤ pm.width)) ∧
    (∀ id ∈ output_info.modes, ∀ mode, find_mode_info resources.modes id = some mode →
      id ∈ r.globals.xrandr12_modes →
      ∃ m ∈ r.emitted, m.width = mode.height ∧ m.height = mode.width) ∧
    ∀ m ∈ r.emitted, m.width ≤ pm.height ∧ m.height ≤ pm.width := by
  obtain ⟨resources', crtc_info', crtc_idx', output_info', refresh, hres', hcrtc', _, hoi', _,
    _, hreal, hem, htab, _, _, _⟩ := xrandr12_init_modes_success s senv g st r h hret
  rw [hres] at hres'
  cases hres'
  rw [hcrtc] at hcrtc'
  cases hcrtc'
  rw [hoi] at hoi'
  cases hoi'
  have hr : is_rotated crtc_info.rotation = true := by
    unfold is_rotated
    simp [hrot]
  have hsize : primary_size crtc_info (find_primary_mode crtc_info.mode resources.modes none) =
      (pm.height, pm.width) := by
    rw [hpm]
    unfold primary_size
    simp [hr]
  have hrm : ∀ mode : XRRModeInfo, (rotated_mode crtc_info.rotation mode).width = mode.height ∧
      (rotated_mode crtc_info.rotation mode).height = mode.width := by
    intro mode
    unfold rotated_mode
    simp [hr]
  rw [hsize] at hreal hem htab
  obtain ⟨kept, h1, h2, _, _, h5⟩ := init12_loop_spec senv resources crtc_info.rotation
    (pm.height, pm.width) refresh output_info.modes
    (X11DRV_Settings_SetHandlers st output_info.modes.length) []
  have hnil : (X11DRV_Settings_SetHandlers st output_info.modes.length).modes = [] := rfl
  rw [List.nil_append] at h1
  rw [hnil, List.nil_append] at h2
  have hkept : ∀ id ∈ r.globals.xrandr12_modes, ∀ mode,
      find_mode_info resources.modes id = some mode →
      rotated_mode crtc_info.rotation mode ∈ kept ∧
        mode.height ≤ pm.height ∧ mode.width ≤ pm.width := by
    intro id hid mode hfind
    rw [htab, h1, List.mem_map] at hid
    obtain ⟨k, hk, hkid⟩ := hid
    obtain ⟨hw, hh, mode', hfind', hkm⟩ := h5 k hk
    rw [hkid, hfind] at hfind'
    cases hfind'
    rw [hkm] at hw hh hk
    rw [(hrm mode).1] at hw
    rw [(hrm mode).2] at hh
    exact ⟨hk, hw, hh⟩
  refine ⟨hreal, ?_, ?_, ?_⟩
  · intro id hid mode hfind
    constructor
    · intro hin
      exact (hkept id hin mode hfind).2
    · intro hfit
      rw [htab]
      apply init12_loop_retains senv resources crtc_info.rotation (pm.height, pm.width)
        refresh hacc output_info.modes _ [] id hid mode hfind
      · rw [(hrm mode).1]; exact hfit.1
      · rw [(hrm mode).2]; exact hfit.2
  · intro id _ mode hfind hin
    refine ⟨{ width := (rotated_mode crtc_info.rotation mode).width,
              height := (rotated_mode crtc_info.rotation mode).height,
              bpp := senv.screen_bpp, refresh_rate := refresh }, ?_, ?_, ?_⟩
    · rw [hem, h2]
      exact List.mem_map_of_mem
        (fun k : XRRModeInfo =>
          ({ width := k.width, height := k.height, bpp := senv.screen_bpp,
             refresh_rate := refresh } : x11drv_mode_info))
        (hkept id hin mode hfind).1
    · exact (hrm mode).1
    · exact (hrm mode).2
  · intro m hm
    rw [hem, h2, List.mem_map] at hm
    obtain ⟨k, hk, hkm⟩ := hm
    obtain ⟨hw, hh, _⟩ := h5 k hk
    subst hkm
    exact ⟨hw, hh⟩

/-- C18 amended, on the rotated example: the primary runs the 1920x1080 mode
1, the size taken for the primary is 1080x1920, and a mode of output 70 is in
the table exactly when it is at most 1920 wide and 1080 high. -/
theorem rotated_primary_modes_witness :
    rotatedTables.settings.real_mode = (1080, 1920) ∧
    (∀ id ∈ [1, 4, 3], ∀ mode, find_mode_info rotatedResources.modes id = some mode →
      (id ∈ rotatedTables.globals.xrandr12_modes ↔ mode.height ≤ 1080 ∧ mode.width ≤ 1920)) ∧
    (∀ id ∈ [1, 4, 3], ∀ mode, find_mode_info rotatedResources.modes id = some mode →
      id ∈ rotatedTables.globals.xrandr12_modes →
      ∃ m ∈ rotatedTables.emitted, m.width = mode.height ∧ m.height = mode.width) ∧
    ∀ m ∈ rotatedTables.emitted, m.width ≤ 1080 ∧ m.height ≤ 1920 :=
  rotated_primary_modes rotatedServer openSettings initialGlobals emptySettings
    rotatedTables rotatedResources
    { x := 0, y := 0, width := 1080, height := 1920, mode := 1,
      rotation := RR_Rotate_90, outputs := [70] }
    0
    { crtc := 40, connection := RR_Connected, crtcs := [40], modes := [1, 4, 3] }
    { id := 1, width := 1920, height := 1080, dotClock := 148500000,
      hTotal := 2200, vTotal := 1125, modeFlags := 0 }
    (by rfl) rfl (by rfl) (by rfl) (by rfl) (by rfl) (by decide) (fun _ _ => rfl)


/-! ## The XRandR 1.0 mode table builder -/

theorem init10_rates_spec (senv : SettingsEnv) (size : Nat × Nat) (i : Nat) :
    ∀ (rates : List Nat) (st : Settings) (table : List Nat),
      (init10_rates senv size i rates st table).2 = table ++ List.replicate rates.length i ∧
      ((∀ st info, senv.accepts st info = true) →
        (init10_rates senv size i rates st table).1.modes =
          st.modes ++ rates.map (fun rate =>
            { width := size.1, height := size.2, bpp := senv.screen_bpp,
              refresh_rate := rate }))
  | [], st, table => by simp [init10_rates]
  | rate :: rest, st, table => by
    unfold init10_rates
    obtain ⟨h1, h3⟩ := init10_rates_spec senv size i rest
      (X11DRV_Settings_AddOneMode senv st size.1 size.2 0 rate).2 (table ++ [i])
    refine ⟨?_, ?_⟩
    · rw [h1]
      simp [List.replicate_succ]
    · intro hacc
      rw [h3 hacc, AddOneMode_taken senv st _ _ _ (hacc _ _)]
      simp

theorem init10_loop_spec (senv : SettingsEnv) (ls : LegacyServer) :
    ∀ (sizes : List (Nat × Nat)) (i : Nat) (st : Settings) (table : List Nat),
      (init10_loop senv ls sizes i st table).2 = table ++ legacy_table_spec ls sizes i ∧
      ((∀ st info, senv.accepts st info = true) →
        (init10_loop senv ls sizes i st table).1.modes =
          st.modes ++ legacy_modes_spec ls senv.screen_bpp sizes i)
  | [], i, st, table => by simp [init10_loop, legacy_table_spec, legacy_modes_spec]
  | size :: rest, i, st, table => by
    unfold init10_loop legacy_table_spec legacy_modes_spec
    by_cases hr : (ls.rates i).length ≠ 0
    · rw [if_pos hr]
      have hne : ls.rates i ≠ [] := fun e => hr (by rw [e]; rfl)
      have hmax : max 1 (ls.rates i).length = (ls.rates i).length := by omega
      rw [if_neg hne, hmax]
      dsimp only
      obtain ⟨r1, r3⟩ := init10_rates_spec senv size i (ls.rates i) st table
      obtain ⟨h1, h3⟩ := init10_loop_spec senv ls rest (i + 1)
        (init10_rates senv size i (ls.rates i) st table).1
        (init10_rates senv size i (ls.rates i) st table).2
      refine ⟨?_, ?_⟩
      · rw [h1, r1]; simp
      · intro hacc
        rw [h3 hacc, r3 hacc]
        simp
    · rw [if_neg hr]
      have he : ls.rates i = [] := by
        cases hrates : ls.rates i with
        | nil => rfl
        | cons a b => rw [hrates] at hr; simp at hr
      rw [if_pos he, he]
      obtain ⟨h1, h3⟩ := init10_loop_spec senv ls rest (i + 1)
        (X11DRV_Settings_AddOneMode senv st size.1 size.2 0 0).2 (table ++ [i])
      refine ⟨?_, ?_⟩
      · rw [h1]; simp
      · intro hacc
        rw [h3 hacc, AddOneMode_taken senv st _ _ _ (hacc _ _)]
        simp

/-- The length of the specification's table is the sum of max(1, |R_i|). -/
theorem legacy_table_spec_length (ls : LegacyServer) :
    ∀ (sizes : List (Nat × Nat)) (i : Nat),
      (legacy_table_spec ls sizes i).length =
        ((List.range sizes.length).map (fun j => max 1 (ls.rates (i + j)).length)).sum
  | [], i => by simp [legacy_table_spec]
  | _ :: rest, i => by
    unfold legacy_table_spec
    rw [List.length_append, List.length_replicate, legacy_table_spec_length ls rest (i + 1),
      List.length_cons, List.range_succ_eq_map, List.map_cons, List.sum_cons, List.map_map]
    congr 2
    apply List.map_congr_left
    intro j _
    simp only [Function.comp, Nat.succ_eq_add_one]
    congr 3
    omega

/-- The number `nmodes` the source computes is the length of that table. -/
theorem init10_nmodes_eq (ls : LegacyServer) :
    ∀ (sizes : List (Nat × Nat)) (i : Nat),
      init10_nmodes ls sizes i = (legacy_table_spec ls sizes i).length
  | [], i => by simp [init10_nmodes, legacy_table_spec]
  | _ :: rest, i => by
    unfold init10_nmodes legacy_table_spec
    rw [List.length_append, List.length_replicate, init10_nmodes_eq ls rest (i + 1)]
    congr 1
    by_cases hr : (ls.rates i).length ≠ 0
    · rw [if_pos hr]; omega
    · rw [if_neg hr]; omega


/-- C19 as stated fails: the legacy server offers three sizes with the rate
lists [60, 50], [60] and [], so the claim asks for four guest modes; after
`xrandr10_init_modes` no mode is emitted and `xrandr_mode_count` is still 0. -/
theorem legacy_init_modes_counterexample :
    legacyServer.sizes.length = 3 ∧
    ((List.range legacyServer.sizes.length).map
      (fun i => max 1 (legacyServer.rates i).length)).sum = 4 ∧
    (xrandr10_init_modes legacyServer plainSettings initialGlobals emptySettings).1.xrandr_mode_count
      = 0 ∧
    (xrandr10_init_modes legacyServer plainSettings initialGlobals emptySettings).1.xrandr10_modes
      = [] ∧
    (xrandr10_init_modes legacyServer plainSettings initialGlobals emptySettings).2.modes = [] := by
  refine ⟨by rfl, by rfl, by rfl, by rfl, by rfl⟩

/-- C19, amended: `xrandr10_init_modes` logs that XRandR 1.2 is required and
returns; it emits no guest mode and leaves the tables and `xrandr_mode_count`
as they were.  The statements behind that `return` are the builder of the
claim: run on a non-empty list of sizes they would record size id `i` once per
rate of size `i`, or once when the size has no rate, so that
`xrandr_mode_count` is the sum of max(1, |R_i|), and, with a settings
collaborator that takes every mode, would emit the matching guest modes in
order, followed by the depth variants. -/
theorem legacy_init_modes (ls : LegacyServer) (senv : SettingsEnv) (g : Globals)
    (st : Settings) (hsizes : ls.sizes ≠ []) :
    xrandr10_init_modes ls senv g st = (g, st) ∧
    (xrandr10_init_modes_after_return ls senv g st).1.xrandr10_modes =
      legacy_table_spec ls ls.sizes 0 ∧
    (xrandr10_init_modes_after_return ls senv g st).1.xrandr_mode_count =
      ((List.range ls.sizes.length).map (fun i => max 1 (ls.rates i).length)).sum ∧
    ((∀ st info, senv.accepts st info = true) →
      (xrandr10_init_modes_after_return ls senv g st).1.dd_modes =
        legacy_modes_spec ls senv.screen_bpp ls.sizes 0 ++
          senv.depth_modes (legacy_modes_spec ls senv.screen_bpp ls.sizes 0)) := by
  have hlen : ¬ ls.sizes.length = 0 := by
    intro e
    exact hsizes (List.length_eq_zero.mp e)
  obtain ⟨h1, h3⟩ := init10_loop_spec senv ls ls.sizes 0
    (X11DRV_Settings_SetHandlers st (init10_nmodes ls ls.sizes 0)) []
  have hnil : (X11DRV_Settings_SetHandlers st (init10_nmodes ls ls.sizes 0)).modes = [] :=
    rfl
  rw [List.nil_append] at h1
  rw [hnil, List.nil_append] at h3
  unfold xrandr10_init_modes_after_return
  rw [if_neg hlen]
  dsimp only
  refine ⟨rfl, h1, ?_, ?_⟩
  · rw [h1, legacy_table_spec_length]
    simp
  · intro htaken
    unfold X11DRV_Settings_AddDepthModes
    dsimp only
    rw [h3 htaken]

/-- C19 amended, on the legacy example: the function itself changes nothing;
the statements behind its `return` would give the table [0, 0, 1, 2] and four
guest modes, 1920x1080 at 60 and 50 Hz, 1280x1024 at 60 Hz and 800x600 at 0. -/
theorem legacy_init_modes_witness :
    xrandr10_init_modes legacyServer openSettings initialGlobals emptySettings =
      (initialGlobals, emptySettings) ∧
    (xrandr10_init_modes_after_return legacyServer openSettings initialGlobals
      emptySettings).1.xrandr10_modes = [0, 0, 1, 2] ∧
    (xrandr10_init_modes_after_return legacyServer openSettings initialGlobals
      emptySettings).1.xrandr_mode_count = 4 ∧
    (xrandr10_init_modes_after_return legacyServer openSettings initialGlobals
      emptySettings).1.dd_modes.take 4 =
      [{ width := 1920, height := 1080, bpp := 32, refresh_rate := 60 },
       { width := 1920, height := 1080, bpp := 32, refresh_rate := 50 },
       { width := 1280, height := 1024, bpp := 32, refresh_rate := 60 },
       { width := 800, height := 600, bpp := 32, refresh_rate := 0 }] := by
  obtain ⟨h1, h2, h3, h4⟩ :=
    legacy_init_modes legacyServer openSettings initialGlobals emptySettings (by decide)
  refine ⟨h1, ?_, ?_, ?_⟩
  · rw [h2]; rfl
  · rw [h3]; rfl
  · rw [h4 (fun _ _ => rfl)]; rfl


/-! ## The refresh rate -/

/-- The rounded quotient of a 32-bit dot clock fits in 32 bits. -/
theorem rounded_quotient_lt (clock d : Nat) (hclock : clock < 2 ^ 32) (hd : d ≠ 0) :
    (clock + d / 2) / d < 2 ^ 32 := by
  rw [Nat.div_lt_iff_lt_mul (Nat.pos_of_ne_zero hd)]
  have h2 : d / 2 ≤ d - 1 := by omega
  have h3 : (2 : Nat) ^ 32 = 4294967296 := by norm_num
  rw [h3] at hclock ⊢
  rcases Nat.exists_eq_succ_of_ne_zero hd with ⟨k, rfl⟩
  simp only [Nat.succ_eq_add_one] at h2 ⊢
  have h4 : 4294967296 * (k + 1) = 4294967296 * k + 4294967296 := by ring
  rw [h4]
  omega

/-- C24 as stated fails: for hTotal = vTotal = 65535 with the double-scan flag
and a dot clock of 4294705154 the rounded quotient by 2 * 65535 * 65535 is 0,
and `get_frequency` returns 1, because the doubling is done in 32 bits.  The
product itself is taken in 32 bits (hTotal = 65536, vTotal = 65537), and so is
the result (a dot clock of 2^32 + 60 over one dot). -/
theorem get_frequency_rounded_counterexample :
    get_frequency
      { id := 1, width := 640, height := 480, dotClock := 4294705154, hTotal := 65535,
        vTotal := 65535, modeFlags := RR_DoubleScan } = some 1 ∧
    frequency_spec
      { id := 1, width := 640, height := 480, dotClock := 4294705154, hTotal := 65535,
        vTotal := 65535, modeFlags := RR_DoubleScan } = 0 ∧
    get_frequency
      { id := 1, width := 640, height := 480, dotClock := 3932160, hTotal := 65536,
        vTotal := 65537, modeFlags := 0 } = some 60 ∧
    frequency_spec
      { id := 1, width := 640, height := 480, dotClock := 3932160, hTotal := 65536,
        vTotal := 65537, modeFlags := 0 } = 0 ∧
    get_frequency
      { id := 1, width := 640, height := 480, dotClock := 4294967356, hTotal := 1,
        vTotal := 1, modeFlags := 0 } = some 60 ∧
    frequency_spec
      { id := 1, width := 640, height := 480, dotClock := 4294967356, hTotal := 1,
        vTotal := 1, modeFlags := 0 } = 4294967356 := by
  decide

/-- C24, amended: for a mode whose hTotal*vTotal, and its double when the
double-scan flag is set, fits in 32 bits, whose dot clock fits in 32 bits and
whose adjusted divisor is not 0, `get_frequency` returns 0 when hTotal*vTotal
is 0 and otherwise the dot clock divided by the adjusted divisor, rounded to
the nearest integer, the divisor being hTotal*vTotal doubled under double-scan
and then halved under interlace. -/
theorem get_frequency_rounded (mode : XRRModeInfo)
    (hfit : mode.hTotal * mode.vTotal < 2 ^ 32)
    (hdouble : mode.modeFlags &&& RR_DoubleScan ≠ 0 → mode.hTotal * mode.vTotal * 2 < 2 ^ 32)
    (hclock : mode.dotClock < 2 ^ 32)
    (hdiv : mode.hTotal * mode.vTotal ≠ 0 → adjusted_dots_spec mode ≠ 0) :
    get_frequency mode = some (frequency_spec mode) ∧
    (mode.hTotal * mode.vTotal = 0 → get_frequency mode = some 0) ∧
    (mode.hTotal * mode.vTotal ≠ 0 →
      get_frequency mode =
        some ((mode.dotClock + adjusted_dots_spec mode / 2) / adjusted_dots_spec mode)) := by
  have hmain : get_frequency mode = some (frequency_spec mode) := by
    unfold get_frequency frequency_spec
    simp only [Nat.mod_eq_of_lt hfit]
    by_cases h0 : mode.hTotal * mode.vTotal = 0
    · simp [h0]
    · have hd := hdiv h0
      have hadj : (if mode.modeFlags &&& RR_Interlace ≠ 0 then
            (if mode.modeFlags &&& RR_DoubleScan ≠ 0 then
              (mode.hTotal * mode.vTotal * 2) % 2 ^ 32
             else mode.hTotal * mode.vTotal) / 2
          else
            (if mode.modeFlags &&& RR_DoubleScan ≠ 0 then
              (mode.hTotal * mode.vTotal * 2) % 2 ^ 32
             else mode.hTotal * mode.vTotal)) = adjusted_dots_spec mode := by
        unfold adjusted_dots_spec
        by_cases hds : mode.modeFlags &&& RR_DoubleScan ≠ 0
        · simp only [hds, if_true, Nat.mod_eq_of_lt (hdouble hds)]
        · simp only [hds, if_false]
      have hlt : adjusted_dots_spec mode < 2 ^ 32 := by
        unfold adjusted_dots_spec
        by_cases hds : mode.modeFlags &&& RR_DoubleScan ≠ 0
        · have := hdouble hds
          simp only [hds, if_true]
          split <;> omega
        · simp only [hds, if_false]
          split <;> omega
      rw [if_neg h0, if_neg h0]
      simp only [hadj, hd, if_false]
      have hsum : mode.dotClock + adjusted_dots_spec mode / 2 < 2 ^ 64 := by
        have : (2 : Nat) ^ 32 = 4294967296 := by norm_num
        have : (2 : Nat) ^ 64 = 18446744073709551616 := by norm_num
        omega
      rw [Nat.mod_eq_of_lt hsum, Nat.mod_eq_of_lt (rounded_quotient_lt _ _ hclock hd)]
  refine ⟨hmain, ?_, ?_⟩
  · intro h0
    rw [hmain]
    unfold frequency_spec
    rw [if_pos h0]
  · intro h0
    rw [hmain]
    unfold frequency_spec
    rw [if_neg h0]

/-- C24 amended, on the 1920x1080 mode of the examples: 148500000 / (2200 * 1125)
is 60. -/
theorem get_frequency_rounded_witness :
    get_frequency
      { id := 1, width := 1920, height := 1080, dotClock := 148500000, hTotal := 2200,
        vTotal := 1125, modeFlags := 0 } = some 60 :=
  (get_frequency_rounded
    { id := 1, width := 1920, height := 1080, dotClock := 148500000, hTotal := 2200,
      vTotal := 1125, modeFlags := 0 }
    (by decide) (by decide) (by decide) (by decide)).1

/-- C28, on the code: for hTotal = vTotal = 1 with the interlace flag the
product is 1, the halved divisor is 0 and `get_frequency` divides by zero; the
same happens for hTotal = 65536, vTotal = 32768 with the double-scan flag,
where the product 2^31 doubles to 0 modulo 2^32. -/
theorem get_frequency_divides_by_zero :
    (1 * 1) % 2 ^ 32 ≠ 0 ∧
    get_frequency
      { id := 1, width := 640, height := 480, dotClock := 25175000, hTotal := 1, vTotal := 1,
        modeFlags := RR_Interlace } = none ∧
    (65536 * 32768) % 2 ^ 32 ≠ 0 ∧
    get_frequency
      { id := 1, width := 640, height := 480, dotClock := 25175000, hTotal := 65536,
        vTotal := 32768, modeFlags := RR_DoubleScan } = none := by
  decide


/-! ## Adapters: the array bound and the PRIMARY flag -/

/-- C25, on the code: on `crowdedServer` there is one CRTC, so the array
`adapters` has room for one entry, and the Connected outputs 50 (attached) and
51 (no CRTC) are both written: `adapter_count` reaches 2 and the second write
is behind the end of the array. -/
theorem adapters_exceed_crtc_count :
    adapters_crtc_count crowdedServer 0 = some 1 ∧
    xrandr14_get_adapters crowdedServer 0 =
      some [{ id := 50, state_flags := 5 }, { id := 51, state_flags := 0 }] ∧
    (xrandr14_get_adapters crowdedServer 0).map List.length = some 2 := by
  decide

/-- A list without duplicates whose elements are all equal has at most one element. -/
theorem length_le_one_of_nodup {α : Type} :
    ∀ l : List α, l.Nodup → (∀ a ∈ l, ∀ b ∈ l, a = b) → l.length ≤ 1
  | [], _, _ => by simp
  | [_], _, _ => by simp
  | a :: b :: rest, hnd, hall => by
    have hab : a = b := hall a (by simp) b (by simp)
    rw [hab] at hnd
    simp at hnd

/-- Two enabled CRTCs with the same rectangle have the same geometry. -/
theorem crtc_rect_inj (c1 c2 : XRRCrtcInfo) (h : crtc_rect c1 = crtc_rect c2) :
    c1.x = c2.x ∧ c1.y = c2.y ∧ c1.width = c2.width ∧ c1.height = c2.height := by
  unfold crtc_rect SetRect at h
  simp only [RECT.mk.injEq] at h
  obtain ⟨hx, hy, hr, hb⟩ := h
  refine ⟨hx, hy, ?_, ?_⟩
  · rw [hx] at hr; omega
  · rw [hy] at hb; omega

/-- Of two attached outputs of the screen with the same CRTC rectangle, the
one with the larger id is a replica. -/
theorem same_rect_replica (s : Server) (sr : XRRScreenResources)
    (o1 o2 : Nat) (oi1 oi2 : XRROutputInfo) (c1 c2 : XRRCrtcInfo) (h1 : o1 ∈ sr.outputs)
    (hoi1 : s.getOutputInfo o1 = some oi1) (hconn : oi1.connection = RR_Connected)
    (hz1 : oi1.crtc ≠ 0) (hci1 : s.getCrtcInfo oi1.crtc = some c1)
    (hoi2 : s.getOutputInfo o2 = some oi2)
    (hz2 : oi2.crtc ≠ 0) (hci2 : s.getCrtcInfo oi2.crtc = some c2) (hm2 : c2.mode ≠ 0)
    (hrect : crtc_rect c1 = crtc_rect c2) (hlt : o1 < o2) :
    is_replica s sr o2 = true := by
  obtain ⟨hx, hy, hw, hh⟩ := crtc_rect_inj c1 c2 hrect
  have hshare : shares_geometry s c2.x c2.y c2.width c2.height o1 = true := by
    simp [shares_geometry, hoi1, hconn, hz1, hci1, hx, hy, hw, hh]
  simp only [is_replica, hoi2, crtc_of_output, hz2, ne_eq, not_false_eq_true, if_true,
    hci2, Bool.and_eq_true, decide_eq_true_eq]
  exact ⟨hm2, (find_mirror_primary_iff s c2 o2 sr.outputs).mpr ⟨o1, h1, hlt, hshare⟩⟩

/-- Of two retained outputs of the screen that both pass `is_crtc_primary`,
the one with the larger id would be a replica: retained PRIMARY outputs
coincide. -/
theorem retained_primary_unique (s : Server) (sr : XRRScreenResources) (P : RECT)
    (o1 o2 : Nat) (h1 : o1 ∈ sr.outputs)
    (hc1 : is_connected s o1 = true) (hp1 : is_primary_output s P o1 = true)
    (hr2 : is_replica s sr o2 = false) (hp2 : is_primary_output s P o2 = true) :
    o2 ≤ o1 := by
  by_contra hlt
  have hlt : o1 < o2 := by omega
  cases hoi1 : s.getOutputInfo o1 with
  | none => simp [is_connected, hoi1] at hc1
  | some oi1 =>
    cases hoi2 : s.getOutputInfo o2 with
    | none => simp [is_primary_output, hoi2] at hp2
    | some oi2 =>
      obtain ⟨c1, hz1, hci1, hm1, hrect1⟩ := (is_primary_output_iff s P o1 oi1 hoi1).mp hp1
      obtain ⟨c2, hz2, hci2, hm2, hrect2⟩ := (is_primary_output_iff s P o2 oi2 hoi2).mp hp2
      have hconn : oi1.connection = RR_Connected := by
        simpa [is_connected, hoi1] using hc1
      rw [same_rect_replica s sr o1 o2 oi1 oi2 c1 c2 h1 hoi1 hconn hz1 hci1 hoi2 hz2 hci2 hm2
        (hrect1.trans hrect2.symm) hlt] at hr2
      cases hr2

/-- C27: when the enumerated output ids are pairwise distinct and all belong to
the screen-wide output list, the adapter list returned by
`xrandr14_get_adapters` has at most one adapter with the PRIMARY flag, and any
two retained attached outputs have different CRTC rectangles. -/
theorem at_most_one_primary_adapter (s : Server) (gpu_id : Nat) (sr : XRRScreenResources)
    (outs : List Nat) (L : List x11drv_adapter)
    (hsr : xrandr_get_screen_resources s = some sr)
    (houts : enumerated_outputs s sr gpu_id = some outs)
    (hL : xrandr14_get_adapters s gpu_id = some L)
    (hnd : outs.Nodup) (hsub : ∀ o ∈ outs, o ∈ sr.outputs) :
    (L.filter (fun a => has_flag a.state_flags DISPLAY_DEVICE_PRIMARY_DEVICE)).length ≤ 1 ∧
    (∀ a ∈ L, ∀ b ∈ L,
      has_flag a.state_flags DISPLAY_DEVICE_PRIMARY_DEVICE = true →
      has_flag b.state_flags DISPLAY_DEVICE_PRIMARY_DEVICE = true → a = b) ∧
    ∀ a ∈ L, ∀ b ∈ L, a.id ≠ b.id →
      ∀ oa ob ca cb, s.getOutputInfo a.id = some oa → s.getOutputInfo b.id = some ob →
        oa.crtc ≠ 0 → ob.crtc ≠ 0 →
        s.getCrtcInfo oa.crtc = some ca → s.getCrtcInfo ob.crtc = some cb →
        ca.mode ≠ 0 → cb.mode ≠ 0 → crtc_rect ca ≠ crtc_rect cb := by
  have hperm := xrandr14_get_adapters_perm s gpu_id sr outs L hsr houts hL
  have huniq : ∀ o1 ∈ outs, ∀ o2 ∈ outs,
      (is_connected s o1 && !is_replica s sr o1) = true →
      is_primary_output s (get_primary_rect s sr) o1 = true →
      (is_connected s o2 && !is_replica s sr o2) = true →
      is_primary_output s (get_primary_rect s sr) o2 = true → o1 = o2 := by
    intro o1 ho1 o2 ho2 hk1 hp1 hk2 hp2
    simp only [Bool.and_eq_true, Bool.not_eq_true'] at hk1 hk2
    have h12 := retained_primary_unique s sr _ o1 o2 (hsub o1 ho1) hk1.1 hp1 hk2.2 hp2
    have h21 := retained_primary_unique s sr _ o2 o1 (hsub o2 ho2) hk2.1 hp2 hk1.2 hp1
    omega
  refine ⟨?_, ?_, ?_⟩
  · rw [(hperm.filter _).length_eq, List.filter_map, List.length_map, List.filter_filter]
    apply length_le_one_of_nodup _ (hnd.filter _)
    intro a ha b hb
    simp only [List.mem_filter, Function.comp, has_flag_adapter_primary,
      Bool.and_eq_true] at ha hb
    exact huniq a ha.1 b hb.1 (by rw [Bool.and_eq_true]; exact ha.2.2) ha.2.1
      (by rw [Bool.and_eq_true]; exact hb.2.2) hb.2.1
  · intro a ha b hb hpa hpb
    obtain ⟨o1, ho1, hc1, hr1, rfl⟩ :=
      (mem_xrandr14_get_adapters s gpu_id sr outs L hsr houts hL a).mp ha
    obtain ⟨o2, ho2, hc2, hr2, rfl⟩ :=
      (mem_xrandr14_get_adapters s gpu_id sr outs L hsr houts hL b).mp hb
    rw [has_flag_adapter_primary] at hpa hpb
    have : o1 = o2 := huniq o1 ho1 o2 ho2 (by simp [hc1, hr1]) hpa (by simp [hc2, hr2]) hpb
    rw [this]
  · intro a ha b hb hne oa ob ca cb hoa hob hza hzb hca hcb hma hmb hrect
    obtain ⟨o1, ho1, hc1, hr1, rfl⟩ :=
      (mem_xrandr14_get_adapters s gpu_id sr outs L hsr houts hL a).mp ha
    obtain ⟨o2, ho2, hc2, hr2, rfl⟩ :=
      (mem_xrandr14_get_adapters s gpu_id sr outs L hsr houts hL b).mp hb
    have hid1 : (adapter_of_output s (get_primary_rect s sr) o1).id = o1 := rfl
    have hid2 : (adapter_of_output s (get_primary_rect s sr) o2).id = o2 := rfl
    rw [hid1] at hoa hne
    rw [hid2] at hob hne
    have hconn1 : oa.connection = RR_Connected := by
      simpa [is_connected, hoa] using hc1
    have hconn2 : ob.connection = RR_Connected := by
      simpa [is_connected, hob] using hc2
    rcases Nat.lt_or_gt_of_ne hne with hlt | hgt
    · rw [same_rect_replica s sr o1 o2 oa ob ca cb (hsub o1 ho1) hoa hconn1 hza hca hob hzb hcb
        hmb hrect hlt] at hr2
      cases hr2
    · rw [same_rect_replica s sr o2 o1 ob oa cb ca (hsub o2 ho2) hob hconn2 hzb hcb hoa hza hca
        hma hrect.symm hgt] at hr1
      cases hr1

/-- C27, on the dual-monitor example: of the three adapters only adapter 50 has
the PRIMARY flag. -/
theorem at_most_one_primary_adapter_witness :
    ([({ id := 50, state_flags := 5 } : x11drv_adapter), { id := 51, state_flags := 1 },
        { id := 52, state_flags := 0 }].filter
      (fun a => has_flag a.state_flags DISPLAY_DEVICE_PRIMARY_DEVICE)).length ≤ 1 :=
  (at_most_one_primary_adapter dualServer 0 dualResources [50, 51, 52, 53]
    [{ id := 50, state_flags := 5 }, { id := 51, state_flags := 1 },
      { id := 52, state_flags := 0 }]
    (by decide) (by decide) (by decide) (by decide) (by decide)).1


/-! ## The primary rectangle fallback -/

/-- The rectangle of a CRTC with positive width and height is not empty. -/
theorem crtc_rect_not_empty (x y : Int) (w h : Nat) (hw : 0 < w) (hh : 0 < h) :
    IsRectEmpty (SetRect x y (x + w) (y + h)) = false := by
  unfold IsRectEmpty SetRect
  simp only [Bool.or_eq_false_iff, decide_eq_false_iff_not, ge_iff_le, not_le]
  constructor <;> omega

/-- What the fallback loop of `get_primary_rect` computes, in terms of the
enabled CRTCs of the list: the rectangle of the first one at the origin, or no
primary rectangle and the first rectangle, which an earlier non-empty
`first_rect` overrides. -/
theorem get_primary_rect_loop_spec (s : Server) :
    ∀ (crtcs : List Nat) (first_rect : RECT),
      (∀ c ∈ enabled_crtcs s crtcs, 0 < c.width ∧ 0 < c.height) →
      (∀ c, (enabled_crtcs s crtcs).find? (fun c => decide (c.x = 0 ∧ c.y = 0)) = some c →
        (get_primary_rect_loop s crtcs first_rect).1 = SetRect 0 0 c.width c.height) ∧
      ((enabled_crtcs s crtcs).find? (fun c => decide (c.x = 0 ∧ c.y = 0)) = none →
        (get_primary_rect_loop s crtcs first_rect).1 = zeroRect ∧
        (get_primary_rect_loop s crtcs first_rect).2 =
          if IsRectEmpty first_rect then
            match (enabled_crtcs s crtcs).head? with
            | some c => SetRect c.x c.y (c.x + c.width) (c.y + c.height)
            | none => first_rect
          else first_rect)
  | [], first_rect, _ => by
    simp [enabled_crtcs, get_primary_rect_loop]
  | crtc :: rest, first_rect, hsize => by
    unfold get_primary_rect_loop
    cases hci : s.getCrtcInfo crtc with
    | none =>
      have he : enabled_crtcs s (crtc :: rest) = enabled_crtcs s rest := by
        simp [enabled_crtcs, hci]
      rw [he] at hsize ⊢
      exact get_primary_rect_loop_spec s rest first_rect hsize
    | some ci =>
      dsimp only
      by_cases hmode : ci.mode = 0
      · have he : enabled_crtcs s (crtc :: rest) = enabled_crtcs s rest := by
          simp [enabled_crtcs, hci, hmode]
        rw [he] at hsize ⊢
        rw [if_pos hmode]
        exact get_primary_rect_loop_spec s rest first_rect hsize
      · have he : enabled_crtcs s (crtc :: rest) = ci :: enabled_crtcs s rest := by
          simp [enabled_crtcs, hci, hmode]
        rw [he] at hsize ⊢
        rw [if_neg hmode]
        by_cases horigin : ci.x = 0 ∧ ci.y = 0
        · rw [if_pos horigin]
          have hfind : (ci :: enabled_crtcs s rest).find?
              (fun c => decide (c.x = 0 ∧ c.y = 0)) = some ci := by
            simp [List.find?, horigin]
          rw [hfind]
          constructor
          · intro c hc
            cases hc
            rfl
          · intro hc
            cases hc
        · rw [if_neg horigin]
          have hfind : (ci :: enabled_crtcs s rest).find?
              (fun c => decide (c.x = 0 ∧ c.y = 0)) =
              (enabled_crtcs s rest).find? (fun c => decide (c.x = 0 ∧ c.y = 0)) := by
            simp [List.find?, horigin]
          rw [hfind]
          have hrest : ∀ c ∈ enabled_crtcs s rest, 0 < c.width ∧ 0 < c.height :=
            fun c hc => hsize c (List.mem_cons_of_mem _ hc)
          have hci_size := hsize ci (List.mem_cons_self _ _)
          obtain ⟨ih1, ih2⟩ := get_primary_rect_loop_spec s rest
            (if IsRectEmpty first_rect then
              SetRect ci.x ci.y (ci.x + ci.width) (ci.y + ci.height)
             else first_rect) hrest
          refine ⟨ih1, ?_⟩
          intro hnone
          obtain ⟨h1, h2⟩ := ih2 hnone
          refine ⟨h1, ?_⟩
          rw [h2]
          by_cases hempty : IsRectEmpty first_rect = true
          · simp only [hempty, if_true, List.head?_cons,
              crtc_rect_not_empty ci.x ci.y ci.width ci.height hci_size.1 hci_size.2]
            simp
          · simp only [hempty, if_false]
            simp [hempty]

/-- The fallback part of `get_primary_rect` is the fallback of the specification
when every enabled CRTC has a positive width and height. -/
theorem get_primary_rect_fallback_eq (s : Server) (resources : XRRScreenResources)
    (hsize : ∀ c ∈ enabled_crtcs s resources.crtcs, 0 < c.width ∧ 0 < c.height) :
    get_primary_rect_fallback s resources = fallback_rect_spec s resources := by
  obtain ⟨h1, h2⟩ := get_primary_rect_loop_spec s resources.crtcs zeroRect hsize
  unfold get_primary_rect_fallback fallback_rect_spec
  cases hfind : (enabled_crtcs s resources.crtcs).find?
      (fun c => decide (c.x = 0 ∧ c.y = 0)) with
  | some c =>
    have hmem := List.mem_of_find?_eq_some hfind
    have hc := hsize c hmem
    have hne : IsRectEmpty (SetRect 0 0 (c.width : Int) (c.height : Int)) = false := by
      have := crtc_rect_not_empty 0 0 c.width c.height hc.1 hc.2
      simpa using this
    dsimp only
    rw [h1 c hfind, hne]
    simp
  | none =>
    obtain ⟨h3, h4⟩ := h2 hfind
    dsimp only
    rw [h3, h4]
    have hz : IsRectEmpty zeroRect = true := by decide
    simp only [hz, if_true]

/-- C22 as stated fails: on `emptyCrtcServer` the advertised primary output 53
is Disconnected, no enabled CRTC is at (0, 0) and the first enabled CRTC is
CRTC 20 at (5, 5) with a size of 0x0, so the claim asks for (5, 5, 5, 5);
`get_primary_rect` returns the rectangle of CRTC 21, because an empty
`first_rect` counts as not set. -/
theorem primary_rect_fallback_counterexample :
    primary_unusable emptyCrtcServer = true ∧
    enabled_crtcs emptyCrtcServer dualResources.crtcs =
      [{ x := 5, y := 5, width := 0, height := 0, mode := 1, rotation := 1,
         outputs := [50] },
       { x := 1920, y := 0, width := 1280, height := 1024, mode := 2, rotation := 1,
         outputs := [51] }] ∧
    fallback_rect_spec emptyCrtcServer dualResources = SetRect 5 5 5 5 ∧
    get_primary_rect emptyCrtcServer dualResources = SetRect 1920 0 3200 1024 := by
  decide

/-- C22, amended: when the advertised primary output is absent, not Connected,
without a CRTC, or on a disabled CRTC, and every enabled CRTC has a positive
width and height, `get_primary_rect` returns (0, 0, w, h) of the first enabled CRTC in
declaration order at (0, 0) if there is one, otherwise (x, y, x+w, y+h) of the
first enabled CRTC in declaration order, otherwise the empty rectangle. -/
theorem primary_rect_fallback (s : Server) (resources : XRRScreenResources)
    (hprimary : primary_unusable s = true)
    (hsize : ∀ c ∈ enabled_crtcs s resources.crtcs, 0 < c.width ∧ 0 < c.height) :
    get_primary_rect s resources = fallback_rect_spec s resources ∧
    (∀ c, (enabled_crtcs s resources.crtcs).find? (fun c => decide (c.x = 0 ∧ c.y = 0)) =
        some c →
      get_primary_rect s resources = SetRect 0 0 c.width c.height) ∧
    ((enabled_crtcs s resources.crtcs).find? (fun c => decide (c.x = 0 ∧ c.y = 0)) = none →
      ∀ c, (enabled_crtcs s resources.crtcs).head? = some c →
        get_primary_rect s resources = SetRect c.x c.y (c.x + c.width) (c.y + c.height)) ∧
    (enabled_crtcs s resources.crtcs = [] →
      get_primary_rect s resources = zeroRect ∧
      IsRectEmpty (get_primary_rect s resources) = true) := by
  have hfb := get_primary_rect_fallback_eq s resources hsize
  have hmain : get_primary_rect s resources = fallback_rect_spec s resources := by
    unfold get_primary_rect
    unfold primary_unusable at hprimary
    by_cases hp : s.getOutputPrimary = 0
    · rw [if_pos hp]; exact hfb
    · rw [if_neg hp] at hprimary ⊢
      cases hoi : s.getOutputInfo s.getOutputPrimary with
      | none => exact hfb
      | some oi =>
        rw [hoi] at hprimary
        dsimp only at hprimary ⊢
        by_cases hc : oi.connection ≠ RR_Connected ∨ oi.crtc = 0
        · rw [if_pos hc]; exact hfb
        · rw [if_neg hc]
          cases hci : s.getCrtcInfo oi.crtc with
          | none => exact hfb
          | some ci =>
            rw [hci] at hprimary
            dsimp only at hprimary ⊢
            have hmode : ci.mode = 0 := by
              simp only [Bool.or_eq_true, decide_eq_true_eq] at hprimary
              rcases hprimary with (h | h) | h
              · exact absurd (Or.inl h) hc
              · exact absurd (Or.inr h) hc
              · exact h
            rw [if_pos hmode]; exact hfb
  refine ⟨hmain, ?_, ?_, ?_⟩
  · intro c hc
    rw [hmain]
    unfold fallback_rect_spec
    rw [hc]
  · intro hnone c hc
    rw [hmain]
    unfold fallback_rect_spec
    rw [hnone, hc]
  · intro hnil
    have : get_primary_rect s resources = zeroRect := by
      rw [hmain]
      unfold fallback_rect_spec
      rw [hnil]
      rfl
    rw [this]
    exact ⟨rfl, by decide⟩

/-- C22, on two servers whose advertised primary output 53 is Disconnected:
with CRTC 20 at (0, 0) the rectangle is (0, 0, 1920, 1080); with CRTC 20 at
(100, 0) and CRTC 21 at (1920, 0) it is the rectangle of CRTC 20, the first
enabled one. -/
theorem primary_rect_fallback_witness :
    get_primary_rect { dualServer with getOutputPrimary := 53 } dualResources =
      SetRect 0 0 1920 1080 ∧
    get_primary_rect strayPrimaryServer dualResources = SetRect 100 0 2020 1080 :=
  ⟨(primary_rect_fallback { dualServer with getOutputPrimary := 53 } dualResources
      (by decide) (by decide)).2.1
      { x := 0, y := 0, width := 1920, height := 1080, mode := 1, rotation := 1,
        outputs := [50] } (by decide),
   (primary_rect_fallback strayPrimaryServer dualResources (by decide) (by decide)).2.2.1
      (by decide)
      { x := 100, y := 0, width := 1920, height := 1080, mode := 1, rotation := 1,
        outputs := [50] } (by decide)⟩


/-! ## The target CRTC of a mode change -/

/-- When every candidate answers, the free CRTC loop finds the first candidate
without outputs. -/
theorem find_free_crtc_eq (s : Server) :
    ∀ crtcs : List Nat, (∀ c ∈ crtcs, ∃ ci, s.getCrtcInfo c = some ci) →
      find_free_crtc s crtcs = some (crtcs.find? (crtc_is_free s))
  | [], _ => rfl
  | c :: rest, h => by
    obtain ⟨ci, hci⟩ := h c (List.mem_cons_self _ _)
    have ih := find_free_crtc_eq s rest (fun c hc => h c (List.mem_cons_of_mem _ hc))
    unfold find_free_crtc
    rw [hci]
    dsimp only
    by_cases hfree : ci.outputs.length = 0
    · rw [if_pos hfree]
      have : crtc_is_free s c = true := by simp [crtc_is_free, hci, hfree]
      rw [List.find?_cons_of_pos _ this]
    · rw [if_neg hfree, ih]
      have : ¬ crtc_is_free s c = true := by simp [crtc_is_free, hci, hfree]
      rw [List.find?_cons_of_neg _ this]

/-- The target search of `xrandr14_set_current_mode` is the one of the
specification when every candidate CRTC answers. -/
theorem target_crtc_eq (s : Server) (oi : XRROutputInfo)
    (hanswer : ∀ c ∈ oi.crtcs, ∃ ci, s.getCrtcInfo c = some ci) :
    (if oi.crtc ≠ 0 then some (some oi.crtc) else find_free_crtc s oi.crtcs) =
      some (target_crtc_spec s oi) := by
  unfold target_crtc_spec
  by_cases h : oi.crtc ≠ 0
  · rw [if_pos h, if_pos h]
  · rw [if_neg h, if_neg h, find_free_crtc_eq s oi.crtcs hanswer]

/-- C23: in `xrandr14_set_current_mode` for a Connected output whose candidate
CRTCs answer, called with a mode that carries its `RRMode`: the target is the
CRTC of the output if it has one, otherwise the first candidate without
attached outputs; without such a candidate the call returns
DISP_CHANGE_FAILED and issues no `XRRSetCrtcConfig` and no screen resize.  The
target is disabled first; once that is accepted, the screen is resized and the
target is enabled at its position with the requested mode, with its own
outputs and rotation when it has outputs, and with the requested output alone
and rotation 0 otherwise. -/
theorem set_current_mode_target (s : Server) (id : Nat) (mode : DEVMODEW)
    (sr : XRRScreenResources) (oi : XRROutputInfo)
    (hsr : xrandr_get_screen_resources s = some sr) (hoi : s.getOutputInfo id = some oi)
    (hconn : oi.connection = RR_Connected)
    (hanswer : ∀ c ∈ oi.crtcs, ∃ ci, s.getCrtcInfo c = some ci)
    (hextra : mode.dmDriverExtra = sizeof_RRMode) :
    (oi.crtc ≠ 0 → target_crtc_spec s oi = some oi.crtc) ∧
    (oi.crtc = 0 → target_crtc_spec s oi = oi.crtcs.find? (crtc_is_free s)) ∧
    (target_crtc_spec s oi = none →
      (xrandr14_set_current_mode s id mode).ret = some DISP_CHANGE_FAILED ∧
      (xrandr14_set_current_mode s id mode).calls =
        [XCall.GrabServer, XCall.UngrabServer, XCall.Flush]) ∧
    (∀ crtc ci, target_crtc_spec s oi = some crtc → s.getCrtcInfo crtc = some ci →
      (s.acceptsCrtcConfig
          { crtc := crtc, x := 0, y := 0, mode := 0, rotation := RR_Rotate_0,
            outputs := [] } = false →
        (xrandr14_set_current_mode s id mode).ret = some DISP_CHANGE_FAILED ∧
        (xrandr14_set_current_mode s id mode).calls =
          [XCall.GrabServer,
           XCall.SetCrtcConfig
             { crtc := crtc, x := 0, y := 0, mode := 0, rotation := RR_Rotate_0,
               outputs := [] } RRSetConfigFailed,
           XCall.UngrabServer, XCall.Flush]) ∧
      (s.acceptsCrtcConfig
          { crtc := crtc, x := 0, y := 0, mode := 0, rotation := RR_Rotate_0,
            outputs := [] } = true →
        ∃ resize status,
          (∃ w h mmw mmh, resize = XCall.SetScreenSize w h mmw mmh) ∧
          (xrandr14_set_current_mode s id mode).calls =
            [XCall.GrabServer,
             XCall.SetCrtcConfig
               { crtc := crtc, x := 0, y := 0, mode := 0, rotation := RR_Rotate_0,
                 outputs := [] } RRSetConfigSuccess,
             resize,
             XCall.SetCrtcConfig
               { crtc := crtc, x := ci.x, y := ci.y, mode := mode.rrmode,
                 rotation := if ci.outputs.length ≠ 0 then ci.rotation else RR_Rotate_0,
                 outputs := if ci.outputs.length ≠ 0 then ci.outputs else [id] } status,
             XCall.UngrabServer, XCall.Flush])) := by
  have htarget := target_crtc_eq s oi hanswer
  refine ⟨?_, ?_, ?_, ?_⟩
  · intro h
    unfold target_crtc_spec
    rw [if_pos h]
  · intro h
    unfold target_crtc_spec
    rw [if_neg (by simp [h])]
  · intro hnone
    rw [hnone] at htarget
    unfold xrandr14_set_current_mode
    simp only [hsr, hoi, hconn, ne_eq, not_true_eq_false, if_false]
    simp only [ne_eq] at htarget
    rw [htarget]
    exact ⟨rfl, rfl⟩
  · intro crtc ci hsome hci
    rw [hsome] at htarget
    simp only [ne_eq] at htarget
    constructor
    · intro hrefuse
      unfold xrandr14_set_current_mode
      simp only [hsr, hoi, hconn, ne_eq, not_true_eq_false, if_false]
      rw [htarget]
      simp only [hci, hextra, not_true_eq_false, if_false, XRRSetCrtcConfig, hrefuse]
      exact ⟨rfl, rfl⟩
    · intro haccept
      unfold xrandr14_set_current_mode
      simp only [hsr, hoi, hconn, ne_eq, not_true_eq_false, if_false]
      rw [htarget]
      simp only [hci, hextra, not_true_eq_false, if_false, XRRSetCrtcConfig, haccept, if_true]
      exact ⟨_, _, ⟨_, _, _, _, rfl⟩, rfl⟩

/-- C23, on the dual-monitor example: output 52 has no CRTC, its candidates are
21 (driving output 51) and 22 (free), so CRTC 22 is the target; it is disabled,
the screen is resized and CRTC 22 is enabled with output 52 alone and
rotation 0. -/
theorem set_current_mode_target_witness :
    target_crtc_spec dualServer
      { crtc := 0, connection := RR_Connected, crtcs := [21, 22], modes := [3] } = some 22 ∧
    ∃ resize status,
      (∃ w h mmw mmh, resize = XCall.SetScreenSize w h mmw mmh) ∧
      (xrandr14_set_current_mode dualServer 52 mode800).calls =
        [XCall.GrabServer,
         XCall.SetCrtcConfig
           { crtc := 22, x := 0, y := 0, mode := 0, rotation := RR_Rotate_0, outputs := [] }
           RRSetConfigSuccess,
         resize,
         XCall.SetCrtcConfig
           { crtc := 22, x := 0, y := 0, mode := 3, rotation := RR_Rotate_0, outputs := [52] }
           status,
         XCall.UngrabServer, XCall.Flush] :=
  ⟨by decide,
    ((set_current_mode_target dualServer 52 mode800 dualResources
        { crtc := 0, connection := RR_Connected, crtcs := [21, 22], modes := [3] }
        (by decide) (by decide) (by decide)
        (fun c hc => by
          simp only [List.mem_cons, List.mem_singleton, List.not_mem_nil, or_false] at hc
          rcases hc with rfl | rfl <;> exact ⟨_, rfl⟩)
        (by decide)).2.2.2 22
      { x := 0, y := 0, width := 0, height := 0, mode := 0, rotation := 1, outputs := [] }
      (by decide) (by decide)).2 (by decide)⟩


/-! ## The server grab of a mode change -/

/-- A grab, requests that are neither grab nor ungrab, an ungrab and a flush
form a scoped grab. -/
theorem grab_scoped_of_requests (requests : List XCall)
    (h1 : XCall.GrabServer ∉ requests) (h2 : XCall.UngrabServer ∉ requests) :
    grab_scoped (XCall.GrabServer :: requests ++ [XCall.UngrabServer, XCall.Flush]) = true := by
  have hc1 : requests.count XCall.GrabServer = 0 := List.count_eq_zero_of_not_mem h1
  have hc2 : requests.count XCall.UngrabServer = 0 := List.count_eq_zero_of_not_mem h2
  have hlen : (XCall.GrabServer :: requests ++ [XCall.UngrabServer, XCall.Flush]).length - 2 =
      requests.length + 1 := by
    simp
  have hdrop : List.drop (requests.length + 1)
      (XCall.GrabServer :: requests ++ [XCall.UngrabServer, XCall.Flush]) =
      [XCall.UngrabServer, XCall.Flush] := by
    rw [List.cons_append, List.drop_succ_cons, List.drop_left]
  unfold grab_scoped
  rw [hlen, hdrop]
  simp only [List.cons_append, List.count_cons, List.count_append, hc1, hc2, List.count_nil,
    List.head?_cons]
  decide

/-- The calls of `xrandr14_set_current_mode`: none when the screen resources are
missing, the grab alone when the `assert` stops the process, and otherwise a
grab, up to three requests, the ungrab and the flush. -/
theorem xrandr14_set_current_mode_calls (s : Server) (id : Nat) (mode : DEVMODEW) :
    (xrandr_get_screen_resources s = none ∧
      (xrandr14_set_current_mode s id mode).calls = [] ∧
      (xrandr14_set_current_mode s id mode).ret = some DISP_CHANGE_FAILED) ∨
    (xrandr_get_screen_resources s ≠ none ∧ mode.dmDriverExtra ≠ sizeof_RRMode ∧
      (xrandr14_set_current_mode s id mode).calls = [XCall.GrabServer] ∧
      (xrandr14_set_current_mode s id mode).ret = none) ∨
    (xrandr_get_screen_resources s ≠ none ∧
      (xrandr14_set_current_mode s id mode).ret ≠ none ∧
      ∃ requests,
        (xrandr14_set_current_mode s id mode).calls =
          XCall.GrabServer :: requests ++ [XCall.UngrabServer, XCall.Flush] ∧
        XCall.GrabServer ∉ requests ∧ XCall.UngrabServer ∉ requests) := by
  unfold xrandr14_set_current_mode
  cases hsr : xrandr_get_screen_resources s with
  | none => exact Or.inl ⟨rfl, rfl, rfl⟩
  | some sr =>
    right
    have hne : (some sr : Option XRRScreenResources) ≠ none := by simp
    have hfail : ∀ s1 : Server,
        (set_mode_done s1 [XCall.GrabServer] DISP_CHANGE_FAILED).ret ≠ none ∧
        ∃ requests,
          (set_mode_done s1 [XCall.GrabServer] DISP_CHANGE_FAILED).calls =
            XCall.GrabServer :: requests ++ [XCall.UngrabServer, XCall.Flush] ∧
          XCall.GrabServer ∉ requests ∧ XCall.UngrabServer ∉ requests := by
      intro s1
      exact ⟨by simp [set_mode_done], [], rfl, by simp, by simp⟩
    dsimp only
    cases hoi : s.getOutputInfo id with
    | none => exact Or.inr ⟨hne, hfail s⟩
    | some oi =>
      dsimp only
      by_cases hconn : oi.connection ≠ RR_Connected
      · rw [if_pos hconn]
        exact Or.inr ⟨hne, hfail s⟩
      · rw [if_neg hconn]
        cases htarget : (if oi.crtc ≠ 0 then some (some oi.crtc)
            else find_free_crtc s oi.crtcs) with
        | none => exact Or.inr ⟨hne, hfail s⟩
        | some t =>
          cases t with
          | none => exact Or.inr ⟨hne, hfail s⟩
          | some crtc =>
            dsimp only
            cases hci : s.getCrtcInfo crtc with
            | none => exact Or.inr ⟨hne, hfail s⟩
            | some ci =>
              dsimp only
              by_cases hextra : mode.dmDriverExtra ≠ sizeof_RRMode
              · rw [if_pos hextra]
                exact Or.inl ⟨hne, hextra, rfl, rfl⟩
              · rw [if_neg hextra]
                right
                refine ⟨hne, ?_⟩
                split
                · refine ⟨by simp [set_mode_done], [_], rfl, by simp, by simp⟩
                · refine ⟨by simp [set_mode_done], [_, _, _], rfl, ?_, ?_⟩ <;>
                    simp [set_screen_size]

/-- The calls of `xrandr12_set_current_mode`: none when the screen resources or
the primary CRTC are missing, and otherwise a grab, the requests, the ungrab
and the flush. -/
theorem xrandr12_set_current_mode_calls (g : Globals) (s : Server) (mode : Int)
    (r : Set12Result) (h : xrandr12_set_current_mode g s mode = some r) :
    ((s.getScreenResourcesCurrent = none ∨
        ∃ resources, s.getScreenResourcesCurrent = some resources ∧
          (resources.crtcs.length ≤ g.primary_crtc ∨
            s.getCrtcInfo (resources.crtcs.getD g.primary_crtc 0) = none)) ∧
      r.calls = [] ∧ r.ret = DISP_CHANGE_FAILED) ∨
    ((∃ resources crtc_info, s.getScreenResourcesCurrent = some resources ∧
        g.primary_crtc < resources.crtcs.length ∧
        s.getCrtcInfo (resources.crtcs.getD g.primary_crtc 0) = some crtc_info) ∧
      ∃ requests,
        r.calls = XCall.GrabServer :: requests ++ [XCall.UngrabServer, XCall.Flush] ∧
        XCall.GrabServer ∉ requests ∧ XCall.UngrabServer ∉ requests) := by
  unfold xrandr12_set_current_mode at h
  by_cases hcount : g.xrandr_mode_count = 0
  · rw [if_pos hcount] at h
    cases h
  · rw [if_neg hcount] at h
    dsimp only at h
    cases hres : s.getScreenResourcesCurrent with
    | none =>
      rw [hres] at h
      simp only [Option.some.injEq] at h
      subst h
      exact Or.inl ⟨Or.inl rfl, rfl, rfl⟩
    | some resources =>
      rw [hres] at h
      dsimp only at h
      by_cases hlen : resources.crtcs.length ≤ g.primary_crtc
      · rw [if_pos hlen] at h
        simp only [Option.some.injEq] at h
        subst h
        exact Or.inl ⟨Or.inr ⟨resources, rfl, Or.inl hlen⟩, rfl, rfl⟩
      · rw [if_neg hlen] at h
        cases hci : s.getCrtcInfo (resources.crtcs.getD g.primary_crtc 0) with
        | none =>
          rw [hci] at h
          simp only [Option.some.injEq] at h
          subst h
          exact Or.inl ⟨Or.inr ⟨resources, rfl, Or.inr hci⟩, rfl, rfl⟩
        | some ci =>
          rw [hci] at h
          dsimp only at h
          right
          refine ⟨⟨resources, ci, rfl, by omega, hci⟩, ?_⟩
          split at h
          · simp only [Option.some.injEq] at h
            subst h
            exact ⟨[_], rfl, by simp, by simp⟩
          · split at h
            · simp only [Option.some.injEq] at h
              subst h
              refine ⟨[_, _, _], rfl, ?_, ?_⟩ <;> simp [set_screen_size]
            · simp only [Option.some.injEq] at h
              subst h
              refine ⟨[_, _, _], rfl, ?_, ?_⟩ <;> simp [set_screen_size]

/-- C21 as stated fails: when the screen resources cannot be read, both mode
changes return DISP_CHANGE_FAILED before the grab; the server is grabbed and
ungrabbed zero times, not once. -/
theorem grab_held_for_requests_counterexample :
    (xrandr14_set_current_mode blindServer 50 mode800).ret = some DISP_CHANGE_FAILED ∧
    (xrandr14_set_current_mode blindServer 50 mode800).calls.count XCall.GrabServer = 0 ∧
    (xrandr14_set_current_mode blindServer 50 mode800).calls.count XCall.UngrabServer = 0 ∧
    (xrandr12_set_current_mode threeModes blindServer 2).map
      (fun r => (r.ret, r.calls.count XCall.GrabServer, r.calls.count XCall.UngrabServer)) =
      some (DISP_CHANGE_FAILED, 0, 0) := by
  decide

/-- C21, amended: a mode change grabs the server only once it has what it
needs to address the CRTC.  `xrandr14_set_current_mode` issues no call at all
when the screen resources are missing; otherwise, on every path on which it
returns, success or failure, the server is grabbed exactly once, first, and
ungrabbed exactly once, after the requests and before the flush and the
return; when the `assert` on `dmDriverExtra` fails the process stops with the
grab held.  `xrandr12_set_current_mode` issues no call when the screen
resources or the primary CRTC are missing, and otherwise grabs and ungrabs in
the same way on every path. -/
theorem grab_held_for_requests (s : Server) (id : Nat) (mode : DEVMODEW) (g : Globals)
    (mode12 : Int) :
    (xrandr_get_screen_resources s = none →
      (xrandr14_set_current_mode s id mode).calls = []) ∧
    (xrandr_get_screen_resources s ≠ none →
      (xrandr14_set_current_mode s id mode).ret ≠ none →
      grab_scoped (xrandr14_set_current_mode s id mode).calls = true) ∧
    ((xrandr14_set_current_mode s id mode).ret = none →
      mode.dmDriverExtra ≠ sizeof_RRMode ∧
      (xrandr14_set_current_mode s id mode).calls = [XCall.GrabServer]) ∧
    ∀ r, xrandr12_set_current_mode g s mode12 = some r →
      ((s.getScreenResourcesCurrent = none ∨
          ∃ resources, s.getScreenResourcesCurrent = some resources ∧
            (resources.crtcs.length ≤ g.primary_crtc ∨
              s.getCrtcInfo (resources.crtcs.getD g.primary_crtc 0) = none)) →
        r.calls = []) ∧
      ((∃ resources crtc_info, s.getScreenResourcesCurrent = some resources ∧
          g.primary_crtc < resources.crtcs.length ∧
          s.getCrtcInfo (resources.crtcs.getD g.primary_crtc 0) = some crtc_info) →
        grab_scoped r.calls = true) := by
  refine ⟨?_, ?_, ?_, ?_⟩
  · intro hnone
    rcases xrandr14_set_current_mode_calls s id mode with h | h | h
    · exact h.2.1
    · exact absurd hnone h.1
    · exact absurd hnone h.1
  · intro hsome hret
    rcases xrandr14_set_current_mode_calls s id mode with h | h | h
    · exact absurd h.1 hsome
    · exact absurd h.2.2.2 hret
    · obtain ⟨_, _, requests, hcalls, h1, h2⟩ := h
      rw [hcalls]
      exact grab_scoped_of_requests requests h1 h2
  · intro hret
    rcases xrandr14_set_current_mode_calls s id mode with h | h | h
    · rw [h.2.2] at hret
      cases hret
    · exact ⟨h.2.1, h.2.2.1⟩
    · exact absurd hret h.2.1
  · intro r hr
    rcases xrandr12_set_current_mode_calls g s mode12 r hr with h | h
    · refine ⟨fun _ => h.2.1, ?_⟩
      rintro ⟨resources, crtc_info, hres, hlt, hci⟩
      rcases h.1 with hnone | ⟨resources1, hres1, hbad⟩
      · rw [hnone] at hres
        cases hres
      · rw [hres1] at hres
        cases hres
        rcases hbad with hlen | hno
        · omega
        · rw [hno] at hci
          cases hci
    · obtain ⟨⟨resources, crtc_info, hres, hlt, hci⟩, requests, hcalls, h1, h2⟩ := h
      refine ⟨?_, fun _ => ?_⟩
      · rintro (hnone | ⟨resources1, hres1, hbad⟩)
        · rw [hnone] at hres
          cases hres
        · rw [hres1] at hres
          cases hres
          rcases hbad with hlen | hno
          · omega
          · rw [hno] at hci
            cases hci
      · rw [hcalls]
        exact grab_scoped_of_requests requests h1 h2

/-- C21 amended, on the dual-monitor example: the change of output 50 to
800x600 holds the grab for its three requests. -/
theorem grab_held_for_requests_witness :
    grab_scoped (xrandr14_set_current_mode dualServer 50 mode800).calls = true ∧
    (xrandr14_set_current_mode dualServer 50 mode800).calls.count XCall.GrabServer = 1 ∧
    (xrandr14_set_current_mode dualServer 50 mode800).calls.count XCall.UngrabServer = 1 :=
  ⟨(grab_held_for_requests dualServer 50 mode800 threeModes 2).2.1 (by decide) (by decide),
    by decide, by decide⟩


/-! ## Failed mode changes -/

/-- A CRTC that the server has disabled reports the mode `None`, also after a
screen resize. -/
theorem disabled_crtc_mode (s : Server) (cfg : CrtcConfig) (ci : XRRCrtcInfo) (w h : Int)
    (hmode : cfg.mode = 0) (hci : s.getCrtcInfo cfg.crtc = some ci) :
    ∃ c, (set_screen_size (apply_crtc_config s cfg) w h).1.getCrtcInfo cfg.crtc = some c ∧
      c.mode = 0 := by
  have h1 : (set_screen_size (apply_crtc_config s cfg) w h).1.getCrtcInfo cfg.crtc =
      (apply_crtc_config s cfg).getCrtcInfo cfg.crtc := rfl
  rw [h1]
  unfold apply_crtc_config
  simp only [if_true, hci, Option.map_some']
  exact ⟨_, rfl, hmode⟩

/-- C26: in `xrandr14_set_current_mode` and `xrandr12_set_current_mode`, once
the target CRTC is known: if the server refuses to disable it, the disable is
the only request, the server is left as it was and the result is
DISP_CHANGE_FAILED; if the server disables it and then refuses to enable it,
the result is DISP_CHANGE_FAILED, no further request is made, the CRTC stays
disabled and the screen keeps the new size.  On both paths
`xrandr12_set_current_mode` leaves `xrandr_current_mode` and the other
variables alone and does not call `X11DRV_DisplayDevices_Update`;
`xrandr14_set_current_mode` has no cache and calls no refresh on any path. -/
theorem failed_mode_change (s : Server) :
    (∀ (id : Nat) (mode : DEVMODEW) (sr : XRRScreenResources) (oi : XRROutputInfo)
        (crtc : Nat) (ci : XRRCrtcInfo),
      xrandr_get_screen_resources s = some sr → s.getOutputInfo id = some oi →
      oi.connection = RR_Connected →
      (∀ c ∈ oi.crtcs, ∃ info, s.getCrtcInfo c = some info) →
      target_crtc_spec s oi = some crtc → s.getCrtcInfo crtc = some ci →
      mode.dmDriverExtra = sizeof_RRMode →
      (s.acceptsCrtcConfig
          { crtc := crtc, x := 0, y := 0, mode := 0, rotation := RR_Rotate_0,
            outputs := [] } = false →
        (xrandr14_set_current_mode s id mode).ret = some DISP_CHANGE_FAILED ∧
        (xrandr14_set_current_mode s id mode).calls =
          [XCall.GrabServer,
           XCall.SetCrtcConfig
             { crtc := crtc, x := 0, y := 0, mode := 0, rotation := RR_Rotate_0,
               outputs := [] } RRSetConfigFailed,
           XCall.UngrabServer, XCall.Flush] ∧
        (xrandr14_set_current_mode s id mode).server = s) ∧
      (s.acceptsCrtcConfig
          { crtc := crtc, x := 0, y := 0, mode := 0, rotation := RR_Rotate_0,
            outputs := [] } = true →
        s.acceptsCrtcConfig
          { crtc := crtc, x := ci.x, y := ci.y, mode := mode.rrmode,
            rotation := if ci.outputs.length ≠ 0 then ci.rotation else RR_Rotate_0,
            outputs := if ci.outputs.length ≠ 0 then ci.outputs else [id] } = false →
        (xrandr14_set_current_mode s id mode).ret = some DISP_CHANGE_FAILED ∧
        (∃ w h mmw mmh,
          (xrandr14_set_current_mode s id mode).calls =
            [XCall.GrabServer,
             XCall.SetCrtcConfig
               { crtc := crtc, x := 0, y := 0, mode := 0, rotation := RR_Rotate_0,
                 outputs := [] } RRSetConfigSuccess,
             XCall.SetScreenSize w h mmw mmh,
             XCall.SetCrtcConfig
               { crtc := crtc, x := ci.x, y := ci.y, mode := mode.rrmode,
                 rotation := if ci.outputs.length ≠ 0 then ci.rotation else RR_Rotate_0,
                 outputs := if ci.outputs.length ≠ 0 then ci.outputs else [id] }
               RRSetConfigFailed,
             XCall.UngrabServer, XCall.Flush] ∧
          (xrandr14_set_current_mode s id mode).server.screenWidth = w ∧
          (xrandr14_set_current_mode s id mode).server.screenHeight = h) ∧
        ∃ c, (xrandr14_set_current_mode s id mode).server.getCrtcInfo crtc = some c ∧
          c.mode = 0)) ∧
    (∀ (g : Globals) (mode : Int) (resources : XRRScreenResources) (ci : XRRCrtcInfo),
      g.xrandr_mode_count ≠ 0 →
      s.getScreenResourcesCurrent = some resources →
      g.primary_crtc < resources.crtcs.length →
      s.getCrtcInfo (resources.crtcs.getD g.primary_crtc 0) = some ci →
      ∃ r, xrandr12_set_current_mode g s mode = some r ∧
        (s.acceptsCrtcConfig
            { crtc := resources.crtcs.getD g.primary_crtc 0, x := ci.x, y := ci.y, mode := 0,
              rotation := ci.rotation, outputs := [] } = false →
          r.ret = DISP_CHANGE_FAILED ∧
          r.calls =
            [XCall.GrabServer,
             XCall.SetCrtcConfig
               { crtc := resources.crtcs.getD g.primary_crtc 0, x := ci.x, y := ci.y,
                 mode := 0, rotation := ci.rotation, outputs := [] } RRSetConfigFailed,
             XCall.UngrabServer, XCall.Flush] ∧
          r.server = s ∧ r.globals = g ∧ r.display_update = false) ∧
        (s.acceptsCrtcConfig
            { crtc := resources.crtcs.getD g.primary_crtc 0, x := ci.x, y := ci.y, mode := 0,
              rotation := ci.rotation, outputs := [] } = true →
          s.acceptsCrtcConfig
            { crtc := resources.crtcs.getD g.primary_crtc 0, x := ci.x, y := ci.y,
              mode := g.xrandr12_modes.getD (normalize_mode mode g.xrandr_mode_count) 0,
              rotation := ci.rotation, outputs := ci.outputs } = false →
          r.ret = DISP_CHANGE_FAILED ∧
          (∃ w h mmw mmh,
            r.calls =
              [XCall.GrabServer,
               XCall.SetCrtcConfig
                 { crtc := resources.crtcs.getD g.primary_crtc 0, x := ci.x, y := ci.y,
                   mode := 0, rotation := ci.rotation, outputs := [] } RRSetConfigSuccess,
               XCall.SetScreenSize w h mmw mmh,
               XCall.SetCrtcConfig
                 { crtc := resources.crtcs.getD g.primary_crtc 0, x := ci.x, y := ci.y,
                   mode := g.xrandr12_modes.getD (normalize_mode mode g.xrandr_mode_count) 0,
                   rotation := ci.rotation, outputs := ci.outputs } RRSetConfigFailed,
               XCall.UngrabServer, XCall.Flush] ∧
            r.server.screenWidth = w ∧ r.server.screenHeight = h) ∧
          (∃ c, r.server.getCrtcInfo (resources.crtcs.getD g.primary_crtc 0) = some c ∧
            c.mode = 0) ∧
          r.globals = g ∧ r.display_update = false)) := by
  constructor
  · intro id mode sr oi crtc ci hsr hoi hconn hanswer htarget hci hextra
    have ht := target_crtc_eq s oi hanswer
    rw [htarget] at ht
    simp only [ne_eq] at ht
    constructor
    · intro hrefuse
      unfold xrandr14_set_current_mode
      simp only [hsr, hoi, hconn, ne_eq, not_true_eq_false, if_false]
      rw [ht]
      simp only [hci, hextra, not_true_eq_false, if_false, XRRSetCrtcConfig, hrefuse]
      exact ⟨rfl, rfl, rfl⟩
    · intro haccept hrefuse
      have hdis := disabled_crtc_mode s
        { crtc := crtc, x := 0, y := 0, mode := 0, rotation := RR_Rotate_0, outputs := [] } ci
        (max (get_screen_size (apply_crtc_config s
            { crtc := crtc, x := 0, y := 0, mode := 0, rotation := RR_Rotate_0,
              outputs := [] }) sr).1
          (toUInt (ci.x + mode.dmPelsWidth)))
        (max (get_screen_size (apply_crtc_config s
            { crtc := crtc, x := 0, y := 0, mode := 0, rotation := RR_Rotate_0,
              outputs := [] }) sr).2
          (toUInt (ci.y + mode.dmPelsHeight)))
        rfl hci
      unfold xrandr14_set_current_mode
      simp only [hsr, hoi, hconn, ne_eq, not_true_eq_false, if_false]
      rw [ht]
      simp only [hci, hextra, not_true_eq_false, if_false, XRRSetCrtcConfig, haccept, if_true,
        set_screen_size_accepts, apply_crtc_config_accepts, hrefuse]
      refine ⟨rfl, ⟨_, _, _, _, rfl, rfl, rfl⟩, ?_⟩
      exact hdis
  · intro g mode resources ci hcount hres hlt hci
    have hlen : ¬ resources.crtcs.length ≤ g.primary_crtc := by omega
    by_cases hd : s.acceptsCrtcConfig
        { crtc := resources.crtcs.getD g.primary_crtc 0, x := ci.x, y := ci.y, mode := 0,
          rotation := ci.rotation, outputs := [] } = true
    · by_cases he : s.acceptsCrtcConfig
          { crtc := resources.crtcs.getD g.primary_crtc 0, x := ci.x, y := ci.y,
            mode := g.xrandr12_modes.getD (normalize_mode mode g.xrandr_mode_count) 0,
            rotation := ci.rotation, outputs := ci.outputs } = true
      · unfold xrandr12_set_current_mode
        simp only [hcount, if_false, hres, hlen, hci, XRRSetCrtcConfig, hd, if_true, ne_eq,
          not_true_eq_false, set_screen_size_accepts, apply_crtc_config_accepts, he]
        refine ⟨_, rfl, ?_, ?_⟩
        · intro h; cases h
        · intro _ h; cases h
      · have he' : s.acceptsCrtcConfig
            { crtc := resources.crtcs.getD g.primary_crtc 0, x := ci.x, y := ci.y,
              mode := g.xrandr12_modes.getD (normalize_mode mode g.xrandr_mode_count) 0,
              rotation := ci.rotation, outputs := ci.outputs } = false := by
          simpa using he
        have hdis := disabled_crtc_mode s
          { crtc := resources.crtcs.getD g.primary_crtc 0, x := ci.x, y := ci.y, mode := 0,
            rotation := ci.rotation, outputs := [] } ci
          (max (get_screen_size (apply_crtc_config s
              { crtc := resources.crtcs.getD g.primary_crtc 0, x := ci.x, y := ci.y,
                mode := 0, rotation := ci.rotation, outputs := [] }) resources).1
            (toUInt (ci.x +
              (g.dd_modes.getD (normalize_mode mode g.xrandr_mode_count) zeroModeInfo).width)))
          (max (get_screen_size (apply_crtc_config s
              { crtc := resources.crtcs.getD g.primary_crtc 0, x := ci.x, y := ci.y,
                mode := 0, rotation := ci.rotation, outputs := [] }) resources).2
            (toUInt (ci.y +
              (g.dd_modes.getD (normalize_mode mode g.xrandr_mode_count) zeroModeInfo).height)))
          rfl hci
        unfold xrandr12_set_current_mode
        simp only [hcount, if_false, hres, hlen, hci, XRRSetCrtcConfig, hd, if_true, ne_eq,
          not_true_eq_false, set_screen_size_accepts, apply_crtc_config_accepts, he']
        refine ⟨_, rfl, ?_, ?_⟩
        · intro h; cases h
        · intro _ _
          exact ⟨rfl, ⟨_, _, _, _, rfl, rfl, rfl⟩, hdis, rfl, rfl⟩
    · have hd' : s.acceptsCrtcConfig
          { crtc := resources.crtcs.getD g.primary_crtc 0, x := ci.x, y := ci.y, mode := 0,
            rotation := ci.rotation, outputs := [] } = false := by
        simpa using hd
      unfold xrandr12_set_current_mode
      simp only [hcount, if_false, hres, hlen, hci, XRRSetCrtcConfig, hd', ne_eq]
      refine ⟨_, rfl, ?_, ?_⟩
      · intro _
        exact ⟨rfl, rfl, rfl, rfl, rfl⟩
      · intro h; cases h

/-- C26, on the dual-monitor example with a server that lets CRTC 20 be
disabled and refuses to enable it, and with a server that refuses everything:
the change of output 50 to 800x600 fails; in the first case CRTC 20 is left
disabled and the screen is 3200x1024, in the second the disable is the only
request. -/
theorem failed_mode_change_witness :
    ((xrandr14_set_current_mode disableOnlyServer 50 mode800).ret = some DISP_CHANGE_FAILED ∧
      (∃ w h mmw mmh,
        (xrandr14_set_current_mode disableOnlyServer 50 mode800).calls =
          [XCall.GrabServer,
           XCall.SetCrtcConfig
             { crtc := 20, x := 0, y := 0, mode := 0, rotation := RR_Rotate_0, outputs := [] }
             RRSetConfigSuccess,
           XCall.SetScreenSize w h mmw mmh,
           XCall.SetCrtcConfig
             { crtc := 20, x := 0, y := 0, mode := 3, rotation := 1, outputs := [50] }
             RRSetConfigFailed,
           XCall.UngrabServer, XCall.Flush] ∧
        (xrandr14_set_current_mode disableOnlyServer 50 mode800).server.screenWidth = w ∧
        (xrandr14_set_current_mode disableOnlyServer 50 mode800).server.screenHeight = h) ∧
      ∃ c, (xrandr14_set_current_mode disableOnlyServer 50 mode800).server.getCrtcInfo 20 =
          some c ∧ c.mode = 0) ∧
    (xrandr14_set_current_mode disableOnlyServer 50 mode800).server.screenHeight = 1024 ∧
    (xrandr14_set_current_mode refusingServer 50 mode800).calls =
      [XCall.GrabServer,
       XCall.SetCrtcConfig
         { crtc := 20, x := 0, y := 0, mode := 0, rotation := RR_Rotate_0, outputs := [] }
         RRSetConfigFailed,
       XCall.UngrabServer, XCall.Flush] :=
  ⟨((failed_mode_change disableOnlyServer).1 50 mode800 dualResources
      { crtc := 20, connection := RR_Connected, crtcs := [20, 21, 22], modes := [1, 2, 3] }
      20
      { x := 0, y := 0, width := 1920, height := 1080, mode := 1, rotation := 1,
        outputs := [50] }
      (by decide) (by decide) (by decide)
      (fun c hc => by
        simp only [List.mem_cons, List.mem_singleton, List.not_mem_nil, or_false] at hc
        rcases hc with rfl | rfl | rfl <;> exact ⟨_, rfl⟩)
      (by decide) (by decide) (by decide)).2 (by decide) (by decide),
    by decide, by decide⟩

end XRandR
